import Mathlib

/-
Verification development for the agentSecOps_Guardian repository.

This file gives a shallow embedding, in Lean 4, of the parts of the code that
the specification's claims are about:

  * `src/agentsecops/securityinstructions/__init__.py` (the pattern scanner),
  * `src/agentsecops/promptregistry/__init__.py`       (the prompt registry),
  * `src/agentsecops/mistral_client.py`                (the external analysis client),
  * `src/agentsecops/reporting/__init__.py`            (the report renderer),
  * `src/src/social_media_backend.py` and the variant of the same handler kept
    under `src/tests/src/social_media_backend.py` (the secondary HTTP service).

Python strings are embedded as `List Char`.  Python's character classes for
`\s`, `\d`, `\w` and `str.splitlines` boundaries are reproduced over the
Unicode code points they actually use, restricted where noted to the code
points that occur in this repository's data (ASCII plus the explicit Unicode
whitespace/line-boundary points).  JSON numbers are modelled as integers:
no claim depends on fractional values, and the only fractional constant in
the code (the request temperature 0.2) is carried as an exact rational in the
request payload.  Python exceptions are modelled with an `Except` monad whose
error type records the exception class name and message; a function "raises"
exactly when it returns `.error`.

All recursive functions are structurally recursive (using explicit fuel where
the Python loop is not structural), so that every definition evaluates inside
the kernel.
-/

/-! # Basic string machinery -/

abbrev Str := List Char

/-- Python `str.splitlines` line-boundary code points:
`\n \v \f \r \x1c \x1d \x1e \x85    ` (with `\r\n` as one boundary). -/
def isLineBoundary (c : Char) : Bool :=
  c.toNat = 10 || c.toNat = 11 || c.toNat = 12 || c.toNat = 13 ||
  c.toNat = 28 || c.toNat = 29 || c.toNat = 30 || c.toNat = 133 ||
  c.toNat = 8232 || c.toNat = 8233

/-- Python whitespace (`\s` in `re`, and the set stripped by `str.strip`):
ASCII whitespace, the C1/separator code points, and the Unicode space block. -/
def pyIsSpace (c : Char) : Bool :=
  c.toNat = 32 || (9 ≤ c.toNat && c.toNat ≤ 13) ||
  (28 ≤ c.toNat && c.toNat ≤ 31) || c.toNat = 133 || c.toNat = 160 ||
  c.toNat = 5760 || (8192 ≤ c.toNat && c.toNat ≤ 8202) ||
  c.toNat = 8232 || c.toNat = 8233 || c.toNat = 8239 || c.toNat = 8287 ||
  c.toNat = 12288

/-- ASCII decimal digit (`\d` restricted to ASCII, as used by this data). -/
def isDigitC (c : Char) : Bool := 48 ≤ c.toNat && c.toNat ≤ 57

/-- ASCII letter. -/
def isAlphaC (c : Char) : Bool :=
  (65 ≤ c.toNat && c.toNat ≤ 90) || (97 ≤ c.toNat && c.toNat ≤ 122)

/-- ASCII letter or digit (`[A-Za-z0-9]`). -/
def isAlnumC (c : Char) : Bool := isAlphaC c || isDigitC c

/-- Word character for `\w` (ASCII restriction): letter, digit or underscore. -/
def isWordC (c : Char) : Bool := isAlnumC c || c = '_'

/-- `str.splitlines`: split at the line-boundary code points, treating `\r\n`
as a single boundary, with no trailing empty segment. -/
def splitlinesL : Str → List Str
  | [] => []
  | c :: cs =>
    if c = '\r' then
      match cs with
      | c2 :: cs2 =>
        if c2 = '\n' then [] :: splitlinesL cs2 else [] :: splitlinesL (c2 :: cs2)
      | [] => [[]]
    else if isLineBoundary c then [] :: splitlinesL cs
    else
      match splitlinesL cs with
      | [] => [[c]]
      | l :: ls => (c :: l) :: ls

/-- `str.strip()`: drop leading and trailing whitespace. -/
def pyStrip (s : Str) : Str :=
  ((s.dropWhile pyIsSpace).reverse.dropWhile pyIsSpace).reverse

def lowerC (c : Char) : Char :=
  if 65 ≤ c.toNat && c.toNat ≤ 90 then Char.ofNat (c.toNat + 32) else c

/-- Decimal digit character for digit value `n % 10`. -/
def digitCh (n : Nat) : Char := Char.ofNat (48 + n % 10)

def natToDigitsGo : Nat → Nat → Str
  | 0, _ => []
  | fuel + 1, n =>
    if n < 10 then [digitCh n]
    else natToDigitsGo fuel (n / 10) ++ [digitCh (n % 10)]

/-- Decimal representation of a natural number (Python `str(n)` for `n ≥ 0`). -/
def natToDigits (n : Nat) : Str := natToDigitsGo (n + 1) n

/-- Python `str(i)` for an integer. -/
def intToStr (i : Int) : Str :=
  if i < 0 then '-' :: natToDigits i.natAbs else natToDigits i.natAbs

/-- Numeric value of a digit string (used when parsing counts back out of the
rendered report). -/
def digitsVal (s : Str) : Nat := s.foldl (fun a c => 10 * a + (c.toNat - 48)) 0

/-- Parse the leading run of decimal digits; `none` when there is none. -/
def parseLeadingNat (s : Str) : Option Nat :=
  let ds := s.takeWhile isDigitC
  if ds = [] then none else some (digitsVal ds)

/-! # Regular-expression matchers

Each pattern of the scanner is embedded as a hand-rolled matcher with Python
`re` semantics (leftmost match position, greedy quantifiers, backtracking
where the pattern calls for it).  A matcher takes the text starting at a
candidate position and returns the number of characters the match at that
position consumes (`none` when there is no match there).  `finditer` scans
positions left to right and resumes after each match, exactly like Python's
`re.finditer`. -/

abbrev Matcher := Str → Option Nat

/-- Consume a literal, case-insensitively (ASCII case folding, as
`re.IGNORECASE` does on this data). -/
def eatLitCI : Str → Str → Option Str
  | [], cs => some cs
  | _ :: _, [] => none
  | l :: ls, c :: cs => if lowerC l = lowerC c then eatLitCI ls cs else none

/-- Consume `[\s]*` (greedy). -/
def eatWs (cs : Str) : Str := cs.dropWhile pyIsSpace

/-- Consume one `[:=]`. -/
def eatSep : Str → Option Str
  | c :: cs => if c = ':' || c = '=' then some cs else none
  | [] => none

/-- Consume a maximal nonempty run of characters satisfying `p`. -/
def eatRun1 (p : Char → Bool) (cs : Str) : Option Str :=
  let n := (cs.takeWhile p).length
  if n = 0 then none else some (cs.drop n)

def toLen (cs : Str) : Option Str → Option Nat
  | some rest => some (cs.length - rest.length)
  | none => none

/-- Matcher for `KEYWORD[\s]*[:=][\s]*[\w\-]+` (case-insensitive), the shape
shared by the three password patterns and the keyworded api-key patterns.
The keyword may contain internal `[\s]*` gaps (as in `api[\s]*key`), so it is
given as a first literal part anchored at the scan position followed by
further parts each preceded by `[\s]*`. -/
def kwMatcher (firstPart : Str) (moreParts : List Str) : Matcher := fun cs =>
  toLen cs (do
    let rest ← eatLitCI firstPart cs
    let rest ← moreParts.foldlM (fun (r : Str) (part : Str) => do
      let r := eatWs r
      eatLitCI part r) rest
    let rest := eatWs rest
    let rest ← eatSep rest
    let rest := eatWs rest
    eatRun1 (fun c => isWordC c || c = '-') rest)

/-- Matcher for `[A-Za-z0-9]{32,}`. -/
def longRunMatcher : Matcher := fun cs =>
  let n := (cs.takeWhile isAlnumC).length
  if 32 ≤ n then some n else none

/-- Consume exactly `n` ASCII digits. -/
def eatNDigits (n : Nat) (cs : Str) : Option Str :=
  if n ≤ cs.length && (cs.take n).all isDigitC then some (cs.drop n) else none

/-- Consume `[\s-]?` then exactly `n` digits.  Since the separator class and
`\d` are disjoint, Python's backtracking over the optional separator is
equivalent to this deterministic reading. -/
def eatOptSepDigits (n : Nat) : Str → Option Str
  | c :: cs =>
    if pyIsSpace c || c = '-' then eatNDigits n cs else eatNDigits n (c :: cs)
  | [] => none

/-- Matcher for `\d{4}[\s-]?\d{4}[\s-]?\d{4}[\s-]?\d{4}` (credit cards). -/
def creditCardMatcher : Matcher := fun cs =>
  toLen cs (do
    let r ← eatNDigits 4 cs
    let r ← eatOptSepDigits 4 r
    let r ← eatOptSepDigits 4 r
    eatOptSepDigits 4 r)

/-- Matcher for `\d{3}[\s-]?\d{2}[\s-]?\d{4}` (SSNs). -/
def ssnMatcher : Matcher := fun cs =>
  toLen cs (do
    let r ← eatNDigits 3 cs
    let r ← eatOptSepDigits 2 r
    eatOptSepDigits 4 r)

def isEmailLocalC (c : Char) : Bool :=
  isAlnumC c || c = '.' || c = '_' || c = '%' || c = '+' || c = '-'

def isEmailDomainC (c : Char) : Bool := isAlnumC c || c = '.' || c = '-'

/-- Matcher for `[a-zA-Z0-9._%+-]+@[a-zA-Z0-9.-]+\.[a-zA-Z]{2,}`.  The greedy
domain run backtracks to the rightmost position where a literal `.` followed
by at least two letters completes the match, which is how Python's engine
resolves `[a-zA-Z0-9.-]+\.[a-zA-Z]{2,}`. -/
def emailMatcher : Matcher := fun cs => do
  let n := (cs.takeWhile isEmailLocalC).length
  if n = 0 then none else
  match cs.drop n with
  | '@' :: r2 =>
    let m := (r2.takeWhile isEmailDomainC).length
    let j ← (List.range m).reverse.find? (fun j =>
      decide (1 ≤ j) && (r2.get? j = some '.') &&
        decide (2 ≤ ((r2.drop (j + 1)).takeWhile isAlphaC).length))
    some (n + 1 + j + 1 + ((r2.drop (j + 1)).takeWhile isAlphaC).length)
  | _ => none

/-- One scanning step of `re.finditer`: at each position try the matcher; on a
match emit the matched substring and resume after it (advancing at least one
character), otherwise advance one character.  `fuel` bounds the recursion and
is irrelevant once it is at least the length of the text. -/
def finditerGo (m : Matcher) : Nat → Str → List Str
  | 0, _ => []
  | _, [] => []
  | fuel + 1, c :: cs =>
    match m (c :: cs) with
    | some k => (c :: cs).take k :: finditerGo m fuel ((c :: cs).drop (max k 1))
    | none => finditerGo m fuel cs

/-- `re.finditer(pattern, s)`, as the list of matched substrings in order. -/
def finditer (m : Matcher) (cs : Str) : List Str :=
  finditerGo m (cs.length + 1) cs

/-- Case-insensitive `re.search` for a literal pattern: does the literal occur
anywhere in the line? -/
def searchLitCI (lit : Str) (cs : Str) : Bool :=
  cs.tails.any (fun t => (eatLitCI lit t).isSome)

/-! # JSON-like Python values

The scanner's findings dictionary, the report renderer's input, and the
bodies of HTTP requests/responses are Python dictionaries / parsed JSON.
They are embedded as `JVal`.  JSON numbers are modelled as integers (see the
header note). -/

inductive JVal where
  | null : JVal
  | bool : Bool → JVal
  | num : Int → JVal
  | str : Str → JVal
  | arr : List JVal → JVal
  | obj : List (Str × JVal) → JVal

/-- Python exception: class name and message. -/
structure PyExc where
  ename : Str
  emsg : Str
deriving DecidableEq

/-- Result of running a piece of Python code: either a value or a raised
exception. -/
abbrev PyResult (α : Type) := Except PyExc α

def pyRaise (name msg : String) : PyResult α :=
  .error ⟨name.toList, msg.toList⟩

/-- Python truthiness. -/
def jTruthy : JVal → Bool
  | .null => false
  | .bool b => b
  | .num n => decide (n ≠ 0)
  | .str s => decide (s ≠ [])
  | .arr [] => false
  | .arr (_ :: _) => true
  | .obj [] => false
  | .obj (_ :: _) => true

/-- Dictionary lookup (first binding of the key; keys are unique in all the
dictionaries this code builds). -/
def jLookup (kvs : List (Str × JVal)) (k : Str) : Option JVal :=
  match kvs.find? (fun kv => kv.1 = k) with
  | some kv => some kv.2
  | none => none

/-- Python type name, for exception messages. -/
def pyTypeName : JVal → Str
  | .null => "NoneType".toList
  | .bool _ => "bool".toList
  | .num _ => "int".toList
  | .str _ => "str".toList
  | .arr _ => "list".toList
  | .obj _ => "dict".toList

/-- The quoted type name, as it appears in Python error messages. -/
def quotedTypeName (w : JVal) : Str := '\'' :: pyTypeName w ++ ['\'']

def pyRaiseS (name : String) (msg : Str) : PyResult α := .error ⟨name.toList, msg⟩

/-- `v.get(k, default)`: raises `AttributeError` unless `v` is a dict. -/
def pyGetMethod (v : JVal) (k : String) (d : JVal) : PyResult JVal :=
  match v with
  | .obj kvs => .ok ((jLookup kvs k.toList).getD d)
  | w => pyRaiseS "AttributeError"
      (quotedTypeName w ++ " object has no attribute 'get'".toList)

/-- `k in v` for a string `k`. -/
def pyContains (v : JVal) (k : String) : PyResult Bool :=
  match v with
  | .obj kvs => .ok ((jLookup kvs k.toList).isSome)
  | .arr xs => .ok (xs.any (fun x => match x with | .str s => s = k.toList | _ => false))
  | .str s => .ok (s.tails.any (fun t => k.toList.isPrefixOf t))
  | w => pyRaiseS "TypeError"
      ( "argument of type ".toList ++ quotedTypeName w ++ " is not iterable".toList)

/-- `len(v)`. -/
def pyLen (v : JVal) : PyResult Nat :=
  match v with
  | .str s => .ok s.length
  | .arr xs => .ok xs.length
  | .obj kvs => .ok kvs.length
  | w => pyRaiseS "TypeError"
      ( "object of type ".toList ++ quotedTypeName w ++ " has no len()".toList)

/-- `for x in v`: the sequence of iterates. -/
def pyIter (v : JVal) : PyResult (List JVal) :=
  match v with
  | .arr xs => .ok xs
  | .str s => .ok (s.map (fun c => .str [c]))
  | .obj kvs => .ok (kvs.map (fun kv => .str kv.1))
  | w => pyRaiseS "TypeError" (quotedTypeName w ++ " object is not iterable".toList)

/-- `v[k]` for a string key. -/
def pyIndexS (v : JVal) (k : String) : PyResult JVal :=
  match v with
  | .obj kvs =>
    match jLookup kvs k.toList with
    | some w => .ok w
    | none => pyRaiseS "KeyError" ('\'' :: k.toList ++ ['\''])
  | .arr _ => pyRaise "TypeError" "list indices must be integers or slices, not str"
  | .str _ => pyRaise "TypeError" "string indices must be integers"
  | w => pyRaiseS "TypeError" (quotedTypeName w ++ " object is not subscriptable".toList)

/-- `v[i]` for a nonnegative integer index. -/
def pyIndexN (v : JVal) (i : Nat) : PyResult JVal :=
  match v with
  | .arr xs =>
    match xs.get? i with
    | some w => .ok w
    | none => pyRaise "IndexError" "list index out of range"
  | .str s =>
    match s.get? i with
    | some c => .ok (.str [c])
    | none => pyRaise "IndexError" "string index out of range"
  | .obj _ => pyRaise "KeyError" "int key"
  | w => pyRaiseS "TypeError" (quotedTypeName w ++ " object is not subscriptable".toList)

/-- `v[:3]`. -/
def pySliceTo3 (v : JVal) : PyResult JVal :=
  match v with
  | .arr xs => .ok (.arr (xs.take 3))
  | .str s => .ok (.str (s.take 3))
  | w => pyRaiseS "TypeError" (quotedTypeName w ++ " object is not subscriptable".toList)

mutual

/-- Python `repr` of a value, as used when containers are interpolated into
strings (string quoting is approximated without escaping; this point is never
reached by well-formed findings). -/
def pyReprV : JVal → Str
  | .null => "None".toList
  | .bool b => if b then "True".toList else "False".toList
  | .num n => intToStr n
  | .str s => '\'' :: s ++ ['\'']
  | .arr xs => '[' :: pyReprList xs ++ [']']
  | .obj kvs => '\x7b' :: pyReprObj kvs ++ ['\x7d']

def pyReprList : List JVal → Str
  | [] => []
  | [x] => pyReprV x
  | x :: y :: xs => pyReprV x ++ ", ".toList ++ pyReprList (y :: xs)

def pyReprObj : List (Str × JVal) → Str
  | [] => []
  | [kv] => '\'' :: kv.1 ++ "': ".toList ++ pyReprV kv.2
  | kv :: kv2 :: kvs => '\'' :: kv.1 ++ "': ".toList ++ pyReprV kv.2 ++ ", ".toList
      ++ pyReprObj (kv2 :: kvs)

end

/-- Python `str(v)`, as applied by f-string interpolation. -/
def pyStrV : JVal → Str
  | .null => "None".toList
  | .bool b => if b then "True".toList else "False".toList
  | .num n => intToStr n
  | .str s => s
  | .arr xs => pyReprV (.arr xs)
  | .obj kvs => pyReprV (.obj kvs)

/-- `', '.join(v)`: every element must be a string. -/
def pyJoin (sep : String) (v : JVal) : PyResult Str :=
  match v with
  | .arr xs =>
    match xs.mapM (fun x => match x with | .str s => some s | _ => none) with
    | some ss => .ok (List.intercalate sep.toList ss)
    | none => pyRaise "TypeError" "sequence item: expected str instance"
  | .str s => .ok (List.intercalate sep.toList (s.map (fun c => [c])))
  | .obj kvs => .ok (List.intercalate sep.toList (kvs.map (fun kv => kv.1)))
  | w => pyRaiseS "TypeError"
      ( "can only join an iterable, not ".toList ++ quotedTypeName w)

/-- `f"{v:.2f}"`: integers (and bools, which are ints in Python) format with
two zero decimals; other types raise, as Python's format does. -/
def pyFormat2f (v : JVal) : PyResult Str :=
  match v with
  | .num n => .ok (intToStr n ++ ".00".toList)
  | .bool b => .ok ((if b then "1".toList else "0".toList) ++ ".00".toList)
  | .str _ => pyRaise "ValueError" "Unknown format code 'f' for object of type 'str'"
  | w => pyRaiseS "TypeError"
      ( "unsupported format string passed to ".toList ++ pyTypeName w
        ++ ".__format__".toList)

/-! # `json.dumps(v, indent=2)` -/

def hexCh (n : Nat) : Char :=
  if n % 16 < 10 then Char.ofNat (48 + n % 16) else Char.ofNat (87 + n % 16)

def hex4 (n : Nat) : Str :=
  [hexCh (n / 4096), hexCh (n / 256), hexCh (n / 16), hexCh n]

/-- JSON escaping of one character, with `ensure_ascii=True` as in
`json.dumps`'s default. -/
def jsonEscC (c : Char) : Str :=
  if c = '"' then ['\\', '"']
  else if c = '\\' then ['\\', '\\']
  else if c.toNat = 8 then ['\\', 'b']
  else if c = '\t' then ['\\', 't']
  else if c = '\n' then ['\\', 'n']
  else if c.toNat = 12 then ['\\', 'f']
  else if c.toNat = 13 then ['\\', 'r']
  else if c.toNat < 32 || 126 < c.toNat then
    if c.toNat ≤ 65535 then '\\' :: 'u' :: hex4 c.toNat
    else
      '\\' :: 'u' :: hex4 (55296 + (c.toNat - 65536) / 1024) ++
      '\\' :: 'u' :: hex4 (56320 + (c.toNat - 65536) % 1024)
  else [c]

def jsonQuote (s : Str) : Str := '"' :: (s.map jsonEscC).flatten ++ ['"']

def spacesN (n : Nat) : Str := List.replicate n ' '

mutual

def dumpsV : Nat → JVal → Str
  | _, .null => "null".toList
  | _, .bool b => if b then "true".toList else "false".toList
  | _, .num n => intToStr n
  | _, .str s => jsonQuote s
  | _, .arr [] => "[]".toList
  | ind, .arr (x :: xs) =>
    '[' :: '\n' ::
      (List.intercalate ( ",\n".toList) (dumpsItems (ind + 2) (x :: xs)))
      ++ '\n' :: spacesN ind ++ [']']
  | _, .obj [] => ['\x7b', '\x7d']
  | ind, .obj (kv :: kvs) =>
    '\x7b' :: '\n' ::
      (List.intercalate ( ",\n".toList) (dumpsPairs (ind + 2) (kv :: kvs)))
      ++ '\n' :: spacesN ind ++ ['\x7d']

def dumpsItems : Nat → List JVal → List Str
  | _, [] => []
  | ind, x :: xs => (spacesN ind ++ dumpsV ind x) :: dumpsItems ind xs

def dumpsPairs : Nat → List (Str × JVal) → List Str
  | _, [] => []
  | ind, kv :: kvs =>
    (spacesN ind ++ jsonQuote kv.1 ++ ':' :: ' ' :: dumpsV ind kv.2) ::
      dumpsPairs ind kvs

end

/-- `json.dumps(v, indent=2)`. -/
def pyJsonDumps (v : JVal) : Str := dumpsV 0 v

/-! # `str.format` (placeholder interpolation) -/

def lookupVar (vars : List (Str × Str)) (name : Str) : Option Str :=
  match vars.find? (fun kv => kv.1 = name) with
  | some kv => some kv.2
  | none => none

def pyFormatGo (vars : List (Str × Str)) : Nat → Str → PyResult Str
  | 0, _ => .ok []
  | _, [] => .ok []
  | fuel + 1, '\x7b' :: '\x7b' :: cs => (fun r => '\x7b' :: r) <$> pyFormatGo vars fuel cs
  | fuel + 1, '\x7d' :: '\x7d' :: cs => (fun r => '\x7d' :: r) <$> pyFormatGo vars fuel cs
  | _, '\x7d' :: _ => pyRaise "ValueError" "Single '\x7d' encountered in format string"
  | fuel + 1, '\x7b' :: cs =>
    let name := cs.takeWhile (fun c => ¬ c = '\x7d')
    match cs.drop name.length with
    | '\x7d' :: rest =>
      match lookupVar vars name with
      | some v => (fun r => v ++ r) <$> pyFormatGo vars fuel rest
      | none => pyRaiseS "KeyError" ('\'' :: name ++ ['\''])
    | _ => pyRaise "ValueError" "Single '\x7b' encountered in format string"
  | fuel + 1, c :: cs => (fun r => c :: r) <$> pyFormatGo vars fuel cs

/-- Python `template.format(**vars)` for the plain named placeholders the
prompt templates use (`\x7b\x7b`/`\x7d\x7d` denote literal braces). -/
def pyFormat (template : Str) (vars : List (Str × Str)) : PyResult Str :=
  pyFormatGo vars (template.length + 1) template

/-! # The pattern scanner (`securityinstructions.analyze_security`) -/

/-- The three password patterns of `analyze_security` (source lines 33-37). -/
def password_patterns : List Matcher :=
  [kwMatcher ( "password".toList) [],
   kwMatcher ( "passwd".toList) [],
   kwMatcher ( "pwd".toList) []]

/-- The four api-key patterns (source lines 48-53). -/
def api_key_patterns : List Matcher :=
  [kwMatcher ( "api".toList) [ "key".toList],
   kwMatcher ( "secret".toList) [],
   kwMatcher ( "token".toList) [],
   longRunMatcher]

/-- The three sensitive-data patterns (source lines 64-68). -/
def sensitive_patterns : List Matcher :=
  [creditCardMatcher, ssnMatcher, emailMatcher]

/-- The security-issue trigger literals with their fixed descriptions
(source lines 79-85; the escaped regexes are literal strings). -/
def security_issue_patterns : List (Str × Str) :=
  [( "eval(".toList, "Use of eval() function".toList),
   ( "exec(".toList, "Use of exec() function".toList),
   ( "pickle.load".toList, "Use of pickle.load()".toList),
   ( "http://".toList, "Insecure HTTP protocol".toList),
   ([ '\\', '\\'], "Potential path traversal".toList)]

/-- One finding: `line` is the 1-based line number, `found` holds the value
stored under the dict key `"match"` (for the first three categories) or
`"issue"` (the description, for security issues), `context` the stripped
line. -/
structure Finding where
  line : Nat
  found : Str
  context : Str
deriving DecidableEq

/-- Findings contributed by one line for a list of `finditer` patterns,
pattern-major as in the source's nested loops. -/
def matchFindingsLine (pats : List Matcher) (i : Nat) (l : Str) : List Finding :=
  (pats.flatMap (fun m => finditer m l)).map (fun mt => ⟨i, mt, pyStrip l⟩)

/-- Findings contributed by one line for the security-issue triggers
(`re.search`: one finding per pattern when the trigger occurs). -/
def securityIssueFindingsLine (i : Nat) (l : Str) : List Finding :=
  security_issue_patterns.filterMap (fun pd =>
    if searchLitCI pd.1 l then some ⟨i, pd.2, pyStrip l⟩ else none)

def enumFrom : Nat → List α → List (Nat × α)
  | _, [] => []
  | k, a :: as => (k, a) :: enumFrom (k + 1) as

/-- `lines = content.splitlines() if content else []` (source line 30). -/
def pyLines (content : Str) : List Str :=
  if content = [] then [] else splitlinesL content

def passwordFindings (content : Str) : List Finding :=
  (enumFrom 1 (pyLines content)).flatMap
    (fun p => matchFindingsLine password_patterns p.1 p.2)

def apiKeyFindings (content : Str) : List Finding :=
  (enumFrom 1 (pyLines content)).flatMap
    (fun p => matchFindingsLine api_key_patterns p.1 p.2)

def sensitiveDataFindings (content : Str) : List Finding :=
  (enumFrom 1 (pyLines content)).flatMap
    (fun p => matchFindingsLine sensitive_patterns p.1 p.2)

def securityIssueFindings (content : Str) : List Finding :=
  (enumFrom 1 (pyLines content)).flatMap
    (fun p => securityIssueFindingsLine p.1 p.2)

/-- `line_count` of the scan metadata:
`len(content.splitlines()) if content else 0` (source line 24). -/
def lineCountOf (content : Str) : Nat :=
  if content = [] then 0 else (splitlinesL content).length

def findingToJ (f : Finding) : JVal :=
  .obj [( "line".toList, .num f.line),
        ( "match".toList, .str f.found),
        ( "context".toList, .str f.context)]

def issueToJ (f : Finding) : JVal :=
  .obj [( "line".toList, .num f.line),
        ( "issue".toList, .str f.found),
        ( "context".toList, .str f.context)]

/-- `analyze_security(content)`: the findings dictionary the scanner
returns. -/
def analyze_security (content : Str) : JVal :=
  .obj [( "metadata".toList, .obj
           [( "content_length".toList, .num content.length),
            ( "line_count".toList, .num (lineCountOf content))]),
        ( "findings".toList, .obj
           [( "passwords".toList, .arr ((passwordFindings content).map findingToJ)),
            ( "api_keys".toList, .arr ((apiKeyFindings content).map findingToJ)),
            ( "sensitive_data".toList, .arr ((sensitiveDataFindings content).map findingToJ)),
            ( "security_issues".toList, .arr ((securityIssueFindings content).map issueToJ))])]

/-! # The prompt registry (`promptregistry.get_prompt`) -/

/-- Template `PROMPT_INJECTION_DETECTION` of the prompt registry (verbatim). -/
def PROMPT_INJECTION_DETECTION : Str :=
  ( "\nYou are an AI security analyst specializing in detecting prompt injection attempts. \nAnalyze the following text for any signs of prompt injection attacks, jailbreaking attempts, \nor malicious instructions that could compromise an AI system.\n\nText to analyze:\n{text}\n\nPlease provide your analysis in JSON format with the following structure:\n\x7b\x7b\n  \"prompt_injection_detected\": boolean,\n  \"confidence_score\": number (0-1),\n  \"vulnerabilities_found\": string[],\n  \"analysis\": string,\n  \"recommendations\": string[]\n\x7d\x7d\n").toList

/-- Template `HALLUCINATION_RISK_DETECTION` of the prompt registry (verbatim). -/
def HALLUCINATION_RISK_DETECTION : Str :=
  ( "\nYou are an AI security analyst specializing in identifying prompts that may lead to \nhallucinations or unreliable outputs from language models.\n\nAnalyze the following text for hallucination risks:\n{text}\n\nPlease provide your analysis in JSON format with the following structure:\n\x7b\x7b\n  \"hallucination_risk_detected\": boolean,\n  \"confidence_score\": number (0-1),\n  \"risk_factors\": string[],\n  \"analysis\": string,\n  \"recommendations\": string[]\n\x7d\x7d\n").toList

/-- Template `SECURITY_ANALYSIS` of the prompt registry (verbatim). -/
def SECURITY_ANALYSIS : Str :=
  ( "\nYou are an AI security analyst. Perform a comprehensive security analysis on the following text:\n\nText to analyze:\n{text}\n\nSecurity findings from pattern matching:\n{security_findings}\n\nPlease provide your enhanced analysis in JSON format with the following structure:\n\x7b\x7b\n  \"overall_security_score\": number (0-1),\n  \"critical_issues\": string[],\n  \"medium_issues\": string[],\n  \"low_issues\": string[],\n  \"false_positives\": string[],\n  \"detailed_analysis\": string,\n  \"remediation_recommendations\": string[]\n\x7d\x7d\n").toList

/-- Template `SECURE_CODING_RECOMMENDATIONS` of the prompt registry (verbatim). -/
def SECURE_CODING_RECOMMENDATIONS : Str :=
  ( "\nYou are an AI security expert providing secure coding recommendations. \nBased on the security analysis of the following code/text:\n\nText analyzed:\n{text}\n\nSecurity findings:\n{security_findings}\n\nPlease provide specific, actionable recommendations for improving security in JSON format:\n\x7b\x7b\n  \"immediate_actions\": string[],\n  \"code_refactoring\": string[],\n  \"configuration_changes\": string[],\n  \"monitoring_recommendations\": string[],\n  \"training_recommendations\": string[]\n\x7d\x7d\n").toList

/-- Template `COMPLIANCE_ANALYSIS` of the prompt registry (verbatim). -/
def COMPLIANCE_ANALYSIS : Str :=
  ( "\nYou are an AI compliance analyst. Analyze the following text for compliance with common security standards \n(GDPR, PCI-DSS, HIPAA, OWASP Top 10):\n\nText to analyze:\n{text}\n\nPlease provide your compliance analysis in JSON format:\n\x7b\x7b\n  \"gdpr_compliance\": \x7b\x7b\"compliant\": boolean, \"issues\": string[]\x7d\x7d,\n  \"pci_dss_compliance\": \x7b\x7b\"compliant\": boolean, \"issues\": string[]\x7d\x7d,\n  \"hipaa_compliance\": \x7b\x7b\"compliant\": boolean, \"issues\": string[]\x7d\x7d,\n  \"owasp_top_10_violations\": string[],\n  \"compliance_recommendations\": string[]\n\x7d\x7d\n").toList
/-- The registry dictionary (source lines 119-125). -/
def promptsDict : List (Str × Str) :=
  [( "prompt_injection".toList, PROMPT_INJECTION_DETECTION),
   ( "hallucination".toList, HALLUCINATION_RISK_DETECTION),
   ( "security_analysis".toList, SECURITY_ANALYSIS),
   ( "secure_coding".toList, SECURE_CODING_RECOMMENDATIONS),
   ( "compliance".toList, COMPLIANCE_ANALYSIS)]

/-- The `ValueError` message raised for an unknown prompt type. -/
def unknownPromptMsg (t : Str) : Str :=
  "Unknown prompt type: ".toList ++ t ++
  ( ". Available types: ['prompt_injection', 'hallucination', 'security_analysis', 'secure_coding', 'compliance']").toList

/-- `get_prompt(prompt_type)`: the registry lookup; raises `ValueError` for a
key outside the closed set of five. -/
def get_prompt (prompt_type : Str) : PyResult Str :=
  match lookupVar promptsDict prompt_type with
  | some p => .ok p
  | none => pyRaiseS "ValueError" (unknownPromptMsg prompt_type)

/-! # The external analysis client (`mistral_client.MistralClient`) -/

structure ChatMessage where
  role : Str
  content : Str

/-- The request body of `analyze_with_mistral` (source lines 73-85). -/
structure RequestPayload where
  model : Str
  messages : List ChatMessage
  temperature : ℚ
  max_tokens : Nat
  response_format_type : Str

/-- One HTTP POST as issued by `requests.post(...)`: the url, the bearer
token of the Authorization header, and the JSON body. -/
structure HttpRequest where
  url : Str
  authBearer : Str
  payload : RequestPayload

/-- Outcome of the single network call: a transport failure
(`requests.exceptions.ConnectionError` / `Timeout`), or an HTTP response
with status code, reason phrase and parsed JSON body. -/
inductive TransportOutcome where
  | connError : Str → TransportOutcome
  | timeoutErr : Str → TransportOutcome
  | httpResponse : Nat → Str → JVal → TransportOutcome

def mistralBaseUrl : Str := "https://api.mistral.ai/v1/chat/completions".toList

/-- `response.raise_for_status()`: raises `requests.exceptions.HTTPError` for
4xx/5xx status codes. -/
def raise_for_status (status : Nat) (reason : Str) : PyResult Unit :=
  if 400 ≤ status ∧ status ≤ 499 then
    pyRaiseS "HTTPError"
      (natToDigits status ++ " Client Error: ".toList ++ reason ++
        " for url: ".toList ++ mistralBaseUrl)
  else if 500 ≤ status ∧ status ≤ 599 then
    pyRaiseS "HTTPError"
      (natToDigits status ++ " Server Error: ".toList ++ reason ++
        " for url: ".toList ++ mistralBaseUrl)
  else .ok ()

/-- The exception class names that `except requests.exceptions.RequestException`
catches in this model. -/
def requestExceptionNames : List Str :=
  [ "ConnectionError".toList, "Timeout".toList, "HTTPError".toList]

/-- Modelled from the spec: `get_security_advisor_guidance` is imported from
the prompt registry by `mistral_client.py` (line 11) and called at line 62,
but no definition of it exists anywhere under the repository snapshot; only
the import and the call site are present.  Per spec §4.3 and the glossary
("Advisor guidance: a fixed supplementary text block appended to certain
prompt templates", appended "if available"), it supplies one fixed text
block, possibly empty when unavailable.  The fixed ambient text is passed in
as a parameter, and the function returns it unchanged. -/
def get_security_advisor_guidance (ambient : Str) : Str := ambient

def advisorSuffix (g : Str) : Str :=
  "\n\nSecurity advisor guidance:\n".toList ++ g

/-- The `prompt_vars` dictionary of lines 57-59. -/
def promptVarsOf (text : Str) (security_findings : Option JVal) : List (Str × Str) :=
  [( "text".toList, text)] ++
    (match security_findings with
     | some f => if jTruthy f then [( "security_findings".toList, pyJsonDumps f)] else []
     | none => [])

/-- Lines 53-70 of `analyze_with_mistral`: prompt lookup, placeholder
interpolation, and the conditional advisor-guidance suffix. -/
def formattedPromptOf (advisorGuidance : Str) (text : Str) (analysis_type : Str)
    (security_findings : Option JVal) : PyResult Str := do
  let system_prompt ← get_prompt analysis_type
  let prompt_vars := promptVarsOf text security_findings
  let formatted_prompt ← pyFormat system_prompt prompt_vars
  let advisor_guidance := get_security_advisor_guidance advisorGuidance
  if advisor_guidance ≠ [] ∧
      (analysis_type = "prompt_injection".toList ∨
       analysis_type = "security_analysis".toList ∨
       analysis_type = "secure_coding".toList) then
    pure (formatted_prompt ++ advisorSuffix advisor_guidance)
  else
    pure formatted_prompt

/-- The payload of lines 73-85, for a given formatted prompt. -/
def mistralPayload (formatted : Str) : RequestPayload :=
  ⟨ "mistral-large-latest".toList,
    [⟨ "system".toList,
       ( "You are a security analysis assistant. Respond only in valid JSON format.").toList⟩,
     ⟨ "user".toList, formatted⟩],
    (0.2 : ℚ), 1000, "json_object".toList⟩

/-! # `json.loads` -/

def jsonWsSkip (s : Str) : Str :=
  s.dropWhile (fun c => c = ' ' || c = '\t' || c = '\n' || c.toNat = 13)

def hexVal (c : Char) : Option Nat :=
  if 48 ≤ c.toNat ∧ c.toNat ≤ 57 then some (c.toNat - 48)
  else if 97 ≤ c.toNat ∧ c.toNat ≤ 102 then some (c.toNat - 87)
  else if 65 ≤ c.toNat ∧ c.toNat ≤ 70 then some (c.toNat - 55)
  else none

def parseHex4 : Str → Option (Nat × Str)
  | a :: b :: c :: d :: rest => do
    let x ← hexVal a
    let y ← hexVal b
    let z ← hexVal c
    let w ← hexVal d
    some (4096 * x + 256 * y + 16 * z + w, rest)
  | _ => none

/-- Scan a JSON string body after the opening quote.  Lone surrogates (not
representable as Lean `Char`) become U+FFFD; surrogate pairs are combined. -/
def jParseStrGo : Nat → Str → Except String (Str × Str)
  | 0, _ => .error "Unterminated string"
  | _, [] => .error "Unterminated string"
  | fuel + 1, c :: cs =>
    if c = '"' then .ok ([], cs)
    else if c = '\\' then
      match cs with
      | [] => .error "Unterminated string"
      | e :: cs2 =>
        let step (ch : Char) (rest : Str) : Except String (Str × Str) := do
          let (tl, rem) ← jParseStrGo fuel rest
          .ok (ch :: tl, rem)
        if e = '"' then step '"' cs2
        else if e = '\\' then step '\\' cs2
        else if e = '/' then step '/' cs2
        else if e = 'b' then step (Char.ofNat 8) cs2
        else if e = 'f' then step (Char.ofNat 12) cs2
        else if e = 'n' then step '\n' cs2
        else if e = 'r' then step (Char.ofNat 13) cs2
        else if e = 't' then step '\t' cs2
        else if e = 'u' then
          match parseHex4 cs2 with
          | none => .error "Invalid \\uXXXX escape"
          | some (n, rest1) =>
            if 55296 ≤ n ∧ n ≤ 56319 then
              match rest1 with
              | '\\' :: 'u' :: rest2 =>
                match parseHex4 rest2 with
                | some (m, rest3) =>
                  if 56320 ≤ m ∧ m ≤ 57343 then
                    step (Char.ofNat (65536 + 1024 * (n - 55296) + (m - 56320))) rest3
                  else step (Char.ofNat 65533) rest1
                | none => step (Char.ofNat 65533) rest1
              | _ => step (Char.ofNat 65533) rest1
            else if 56320 ≤ n ∧ n ≤ 57343 then step (Char.ofNat 65533) rest1
            else step (Char.ofNat n) rest1
        else .error "Invalid \\escape"
    else do
      let (tl, rem) ← jParseStrGo fuel cs
      .ok (c :: tl, rem)

/-- Parse a JSON number, modelled by its integer part (see the header note on
numbers; fraction and exponent digits are consumed but do not contribute). -/
def jParseNum (s : Str) : Except String (JVal × Str) :=
  let (neg, s1) := match s with
    | '-' :: rest => (true, rest)
    | _ => (false, s)
  let ds := s1.takeWhile isDigitC
  if ds = [] then .error "Expecting value" else
  let s2 := s1.drop ds.length
  let s3 := match s2 with
    | '.' :: rest => rest.dropWhile isDigitC
    | _ => s2
  let s4 := match s3 with
    | 'e' :: rest | 'E' :: rest =>
      (match rest with
       | '+' :: r2 => r2.dropWhile isDigitC
       | '-' :: r2 => r2.dropWhile isDigitC
       | r2 => r2.dropWhile isDigitC)
    | _ => s3
  let v : Int := Int.ofNat (digitsVal ds)
  .ok (.num (if neg then -v else v), s4)

mutual

def jParseV : Nat → Str → Except String (JVal × Str)
  | 0, _ => .error "Expecting value"
  | fuel + 1, s =>
    match jsonWsSkip s with
    | [] => .error "Expecting value"
    | c :: cs =>
      if c = 'n' then
        match cs with
        | 'u' :: 'l' :: 'l' :: rest => .ok (.null, rest)
        | _ => .error "Expecting value"
      else if c = 't' then
        match cs with
        | 'r' :: 'u' :: 'e' :: rest => .ok (.bool true, rest)
        | _ => .error "Expecting value"
      else if c = 'f' then
        match cs with
        | 'a' :: 'l' :: 's' :: 'e' :: rest => .ok (.bool false, rest)
        | _ => .error "Expecting value"
      else if c = '"' then do
        let (str, rest) ← jParseStrGo (cs.length + 1) cs
        .ok (.str str, rest)
      else if c = '[' then
        match jsonWsSkip cs with
        | ']' :: rest => .ok (.arr [], rest)
        | _ => do
          let (xs, rest) ← jParseItems fuel cs
          .ok (.arr xs, rest)
      else if c = '\x7b' then
        match jsonWsSkip cs with
        | '\x7d' :: rest => .ok (.obj [], rest)
        | _ => do
          let (kvs, rest) ← jParsePairs fuel cs
          .ok (.obj kvs, rest)
      else jParseNum (c :: cs)

def jParseItems : Nat → Str → Except String (List JVal × Str)
  | 0, _ => .error "Expecting value"
  | fuel + 1, s => do
    let (v, rest) ← jParseV fuel s
    match jsonWsSkip rest with
    | ',' :: rest2 => do
      let (vs, rest3) ← jParseItems fuel rest2
      .ok (v :: vs, rest3)
    | ']' :: rest2 => .ok ([v], rest2)
    | _ => .error "Expecting ',' delimiter"

def jParsePairs : Nat → Str → Except String (List (Str × JVal) × Str)
  | 0, _ => .error "Expecting value"
  | fuel + 1, s =>
    match jsonWsSkip s with
    | '"' :: cs => do
      let (k, rest) ← jParseStrGo (cs.length + 1) cs
      match jsonWsSkip rest with
      | ':' :: rest2 => do
        let (v, rest3) ← jParseV fuel rest2
        match jsonWsSkip rest3 with
        | ',' :: rest4 => do
          let (kvs, rest5) ← jParsePairs fuel rest4
          .ok ((k, v) :: kvs, rest5)
        | '\x7d' :: rest4 => .ok ([(k, v)], rest4)
        | _ => .error "Expecting ',' delimiter"
      | _ => .error "Expecting ':' delimiter"
    | _ => .error "Expecting property name enclosed in double quotes"

end

/-- `json.loads(s)`. -/
def jsonLoads (s : Str) : Except String JVal :=
  match jParseV (s.length + 1) s with
  | .error e => .error e
  | .ok (v, rest) =>
    if jsonWsSkip rest = [] then .ok v else .error "Extra data"

/-! # `analyze_with_mistral` (source lines 36-118) -/

/-- The body of the `try:` block at lines 87-110: raise transport failures,
check the status, and extract / parse the first choice's message content. -/
def mistralTryBody (outcome : TransportOutcome) : PyResult JVal := do
  match outcome with
  | .connError m => pyRaiseS "ConnectionError" m
  | .timeoutErr m => pyRaiseS "Timeout" m
  | .httpResponse status reason body => do
    let _ ← raise_for_status status reason
    let result := body
    let hasChoices ← pyContains result "choices"
    let proceed ← if hasChoices then do
        let cs ← pyIndexS result "choices"
        let n ← pyLen cs
        pure (decide (0 < n))
      else pure false
    if proceed then do
      let choices ← pyIndexS result "choices"
      let choice0 ← pyIndexN choices 0
      let message ← pyIndexS choice0 "message"
      let content ← pyIndexS message "content"
      match content with
      | .str s =>
        (match jsonLoads s with
         | .ok j => pure j
         | .error _ =>
           pure (.obj
             [( "error".toList, .str ( "Failed to parse Mistral response as JSON".toList)),
              ( "raw_response".toList, .str s),
              ( "full_api_response".toList, result)]))
      | w =>
        pyRaiseS "TypeError"
          ( "the JSON object must be str, bytes or bytearray, not ".toList ++ pyTypeName w)
    else
      pure (.obj
        [( "error".toList, .str ( "No valid response from Mistral API".toList)),
         ( "full_api_response".toList, result)])

/-- The two `except` clauses at lines 112-118: a raised
`requests.exceptions.RequestException` (or any other exception) becomes an
error dictionary; nothing escapes the handler. -/
def mistralExceptWrap (r : PyResult JVal) : PyResult JVal :=
  match r with
  | .ok v => .ok v
  | .error e =>
    if requestExceptionNames.contains e.ename then
      .ok (.obj
        [( "error".toList, .str ( "Mistral API request failed: ".toList ++ e.emsg)),
         ( "exception_type".toList, .str e.ename)])
    else
      .ok (.obj
        [( "error".toList, .str ( "Unexpected error: ".toList ++ e.emsg)),
         ( "exception_type".toList, .str e.ename)])

/-- `MistralClient.analyze_with_mistral`.  `transport` stands for the network:
it maps the single issued request to its outcome.  The advisor guidance is
the ambient value supplied by `get_security_advisor_guidance` (see its doc
comment).  Returns the Python result together with the list of HTTP requests
actually issued, so that "no network call is attempted" is observable. -/
def analyze_with_mistral (advisorGuidance : Str)
    (transport : HttpRequest → TransportOutcome) (api_key : Str) (text : Str)
    (analysis_type : Str) (security_findings : Option JVal) :
    PyResult JVal × List HttpRequest :=
  match formattedPromptOf advisorGuidance text analysis_type security_findings with
  | .error e => (.error e, [])
  | .ok formatted_prompt =>
    let req : HttpRequest := ⟨mistralBaseUrl, api_key, mistralPayload formatted_prompt⟩
    (mistralExceptWrap (mistralTryBody (transport req)), [req])

/-! # The report renderer (`reporting._generate_report_content`)

The Python function appends string chunks to a list `content` and returns
`''.join(content)`.  The embedding mirrors that: it produces the chunk list
(each helper covering one block of the source, in source order) and joins it.
The generation timestamp `datetime.datetime.now().strftime(...)` is the one
impure input; it is passed in as the `report_date` parameter. -/

def upperC (c : Char) : Char :=
  if 97 ≤ c.toNat && c.toNat ≤ 122 then Char.ofNat (c.toNat - 32) else c

/-- `str.title()` (over the ASCII identifiers it is applied to). -/
def pyTitleGo : Bool → Str → Str
  | _, [] => []
  | prevCased, c :: cs =>
    let isC := isAlphaC c
    (if isC && !prevCased then upperC c else if isC then lowerC c else c) ::
      pyTitleGo isC cs

def pyTitle (s : Str) : Str := pyTitleGo false s

def replaceSubstrGo (sub rep : Str) : Nat → Str → Str
  | 0, s => s
  | _, [] => []
  | fuel + 1, c :: cs =>
    if sub ≠ [] ∧ sub.isPrefixOf (c :: cs) then
      rep ++ replaceSubstrGo sub rep fuel ((c :: cs).drop sub.length)
    else c :: replaceSubstrGo sub rep fuel cs

/-- `s.replace(sub, rep)` for a nonempty `sub`. -/
def pyReplace (sub rep s : Str) : Str := replaceSubstrGo sub rep s.length s

/-- Finding block for the match-style categories (source lines 57-60). -/
def findingChunksMatch (f : JVal) : PyResult (List Str) := do
  let line ← pyGetMethod f "line" (.str ( "Unknown".toList))
  let mtch ← pyGetMethod f "match" (.str [])
  let ctx ← pyGetMethod f "context" (.str [])
  pure [ "**Line ".toList ++ pyStrV line ++ ":** `".toList ++ pyStrV mtch ++ "`\n".toList,
         "**Context:** `".toList ++ pyStrV ctx ++ "`\n".toList,
         "\n".toList]

/-- Finding block for the security-issue category (source lines 84-87). -/
def findingChunksIssue (f : JVal) : PyResult (List Str) := do
  let line ← pyGetMethod f "line" (.str ( "Unknown".toList))
  let issue ← pyGetMethod f "issue" (.str [])
  let ctx ← pyGetMethod f "context" (.str [])
  pure [ "**Line ".toList ++ pyStrV line ++ ":** ".toList ++ pyStrV issue ++ "\n".toList,
         "**Context:** `".toList ++ pyStrV ctx ++ "`\n".toList,
         "\n".toList]

/-- One category section of the pattern-analysis block (source lines 53-87;
the four blocks are textually identical up to key, header and finding
style). -/
def categorySectionChunks (pattern_analysis : JVal) (key : String) (header : Str)
    (issueStyle : Bool) : PyResult (List Str) := do
  let items ← pyGetMethod pattern_analysis key (.arr [])
  if jTruthy items then do
    let n ← pyLen items
    let elems ← pyIter items
    let fcs ← elems.mapM (fun f =>
      if issueStyle then findingChunksIssue f else findingChunksMatch f)
    pure ((header ++ " (".toList ++ natToDigits n ++ ")\n".toList) :: fcs.flatten)
  else pure []

def pwHeader : Str := "### 🔴 Potential Passwords Found".toList
def akHeader : Str := "### 🔴 Potential API Keys Found".toList
def sdHeader : Str := "### 🔴 Potential Sensitive Data Found".toList
def siHeader : Str := "### 🔴 Security Issues Found".toList

/-- A guarded `', '.join` line such as `- **Vulnerabilities:** ...` (source
lines 101-102 and 112-113): truthiness check on the `.get`, then raw index
and join. -/
def joinLineBlock (m : JVal) (key : String) (pre : Str) (v : JVal) : PyResult (List Str) :=
  if jTruthy v then do
    let raw ← pyIndexS m key
    let joined ← pyJoin ", " raw
    pure [pre ++ joined ++ "\n".toList]
  else pure []

/-- A guarded free-text block such as `\n**Analysis:**\n\n...` (source lines
103-104, 114-115 and 146-147). -/
def textBlock (m : JVal) (key : String) (pre post : Str) (v : JVal) : PyResult (List Str) :=
  if jTruthy v then do
    let a ← pyIndexS m key
    pure [pre ++ pyStrV a ++ post]
  else pure []

/-- A guarded `"\n".join` comprehension block, as the recommendation lists
use (source lines 105-106, 116-117 and 149-150). -/
def joinedListBlock (m : JVal) (key : String) (title : Str) (v : JVal) : PyResult (List Str) :=
  if jTruthy v then do
    let rl ← pyIndexS m key
    let items ← pyIter rl
    pure [title ++
      List.intercalate ( "\n".toList) (items.map (fun r => "- ".toList ++ pyStrV r)) ++
      "\n\n".toList]
  else pure []

/-- A guarded bullet-list block: a title line then one `- {item}\n` line per
element (source lines 157-162, 173-176 and 178-186). -/
def bulletListBlock (m : JVal) (key : String) (title : Str) (v : JVal) : PyResult (List Str) :=
  if jTruthy v then do
    let rl ← pyIndexS m key
    let items ← pyIter rl
    pure (title :: items.map (fun i => "- ".toList ++ pyStrV i ++ "\n".toList))
  else pure []

/-- Prompt-injection branch of the Mistral section (source lines 97-106). -/
def piBranchChunks (m : JVal) : PyResult (List Str) := do
  let det ← pyGetMethod m "prompt_injection_detected" (.bool false)
  let conf ← pyGetMethod m "confidence_score" (.num 0)
  let confS ← pyFormat2f conf
  let vf ← pyGetMethod m "vulnerabilities_found" .null
  let c2 ← joinLineBlock m "vulnerabilities_found" ( "- **Vulnerabilities:** ".toList) vf
  let an ← pyGetMethod m "analysis" .null
  let c3 ← textBlock m "analysis" ( "\n**Analysis:**\n\n".toList) ( "\n\n".toList) an
  let recs ← pyGetMethod m "recommendations" .null
  let c4 ← joinedListBlock m "recommendations" ( "**Recommendations:**\n\n".toList) recs
  pure ([ "### Prompt Injection Analysis\n".toList,
          "- **Detected:** ".toList ++ pyStrV det ++ "\n".toList,
          "- **Confidence:** ".toList ++ confS ++ "\n".toList] ++ c2 ++ c3 ++ c4)

/-- Hallucination branch (source lines 108-117). -/
def hallBranchChunks (m : JVal) : PyResult (List Str) := do
  let det ← pyGetMethod m "hallucination_risk_detected" (.bool false)
  let conf ← pyGetMethod m "confidence_score" (.num 0)
  let confS ← pyFormat2f conf
  let rf ← pyGetMethod m "risk_factors" .null
  let c2 ← joinLineBlock m "risk_factors" ( "- **Risk Factors:** ".toList) rf
  let an ← pyGetMethod m "analysis" .null
  let c3 ← textBlock m "analysis" ( "\n**Analysis:**\n\n".toList) ( "\n\n".toList) an
  let recs ← pyGetMethod m "recommendations" .null
  let c4 ← joinedListBlock m "recommendations" ( "**Recommendations:**\n\n".toList) recs
  pure ([ "### Hallucination Risk Analysis\n".toList,
          "- **Risk Detected:** ".toList ++ pyStrV det ++ "\n".toList,
          "- **Confidence:** ".toList ++ confS ++ "\n".toList] ++ c2 ++ c3 ++ c4)

/-- An issue list block such as `\n**Critical Issues:**\n` followed by one
`- {issue}\n` line per element (source lines 131-144). -/
def issueListChunks (title : Str) (v : JVal) : PyResult (List Str) := do
  if jTruthy v then do
    let items ← pyIter v
    pure (title :: items.map (fun i => "- ".toList ++ pyStrV i ++ "\n".toList))
  else pure []

/-- Security-score branch (source lines 119-150). -/
def scoreBranchChunks (m : JVal) : PyResult (List Str) := do
  let score ← pyGetMethod m "overall_security_score" (.num 0)
  let scoreS ← pyFormat2f score
  let critical ← pyGetMethod m "critical_issues" (.arr [])
  let medium ← pyGetMethod m "medium_issues" (.arr [])
  let low ← pyGetMethod m "low_issues" (.arr [])
  let nc ← pyLen critical
  let nm ← pyLen medium
  let nl ← pyLen low
  let c2 ← issueListChunks ( "\n**Critical Issues:**\n".toList) critical
  let c3 ← issueListChunks ( "\n**Medium Issues:**\n".toList) medium
  let c4 ← issueListChunks ( "\n**Low Issues:**\n".toList) low
  let det ← pyGetMethod m "detailed_analysis" .null
  let c5 ← textBlock m "detailed_analysis" ( "\n**Detailed Analysis:**\n\n".toList)
    ( "\n\n".toList) det
  let rr ← pyGetMethod m "remediation_recommendations" .null
  let c6 ← joinedListBlock m "remediation_recommendations"
    ( "**Remediation Recommendations:**\n\n".toList) rr
  pure ([ "### Comprehensive Security Analysis\n".toList,
          "- **Overall Score:** ".toList ++ scoreS ++ "/1.0\n".toList,
          "- **Critical Issues:** ".toList ++ natToDigits nc ++ "\n".toList,
          "- **Medium Issues:** ".toList ++ natToDigits nm ++ "\n".toList,
          "- **Low Issues:** ".toList ++ natToDigits nl ++ "\n".toList] ++
    c2 ++ c3 ++ c4 ++ c5 ++ c6)

def codingCategories : List String :=
  [ "immediate_actions", "code_refactoring", "configuration_changes",
    "monitoring_recommendations", "training_recommendations"]

/-- Secure-coding branch (source lines 152-162). -/
def codingBranchChunks (m : JVal) : PyResult (List Str) := do
  let cs ← codingCategories.mapM (fun cat => do
    let v ← pyGetMethod m cat .null
    bulletListBlock m cat
      ( "\n**".toList ++ pyTitle (cat.toList.map (fun c => if c = '_' then ' ' else c)) ++
        ":**\n".toList) v)
  pure ( "### Secure Coding Recommendations\n".toList :: cs.flatten)

def complianceStandards : List String :=
  [ "gdpr_compliance", "pci_dss_compliance", "hipaa_compliance"]

/-- One standard of the compliance branch (source lines 168-176). -/
def complianceStdChunks (m : JVal) (std : String) : PyResult (List Str) := do
  let present ← pyContains m std
  if present then do
    let cd ← pyIndexS m std
    let compliant ← pyGetMethod cd "compliant" (.bool false)
    let iss ← pyGetMethod cd "issues" .null
    let c2 ← bulletListBlock cd "issues" ( "**Issues:**\n".toList) iss
    pure (( "\n**".toList ++ (pyReplace ( "_compliance".toList) [] std.toList).map upperC ++
      " Compliance:** ".toList ++
      (if jTruthy compliant then "✅ Compliant".toList else "❌ Not Compliant".toList) ++
      "\n".toList) :: c2)
  else pure []

/-- Compliance branch (source lines 164-186). -/
def complianceBranchChunks (m : JVal) : PyResult (List Str) := do
  let cs ← complianceStandards.mapM (fun std => complianceStdChunks m std)
  let owasp ← pyGetMethod m "owasp_top_10_violations" .null
  let c3 ← bulletListBlock m "owasp_top_10_violations"
    ( "\n**OWASP Top 10 Violations:**\n".toList) owasp
  let crec ← pyGetMethod m "compliance_recommendations" .null
  let c4 ← bulletListBlock m "compliance_recommendations"
    ( "\n**Compliance Recommendations:**\n".toList) crec
  pure ( "### Compliance Analysis\n".toList :: cs.flatten ++ c3 ++ c4)

/-- The closed dispatch over the five known response shapes plus the generic
fallback (source lines 96-191). -/
def mistralSectionChunks (m : JVal) : PyResult (List Str) := do
  let hasPI ← pyContains m "prompt_injection_detected"
  if hasPI then piBranchChunks m else do
  let hasH ← pyContains m "hallucination_risk_detected"
  if hasH then hallBranchChunks m else do
  let hasS ← pyContains m "overall_security_score"
  if hasS then scoreBranchChunks m else do
  let hasIA ← pyContains m "immediate_actions"
  if hasIA then codingBranchChunks m else do
  let hasG ← pyContains m "gdpr_compliance"
  let hasP ← pyContains m "pci_dss_compliance"
  let hasHi ← pyContains m "hipaa_compliance"
  if hasG || hasP || hasHi then complianceBranchChunks m
  else
    pure [ "### Mistral AI Analysis Results\n".toList,
           "```json\n".toList ++ pyJsonDumps m ++ "\n```\n".toList]

/-- `pattern_total` (source lines 199-205). -/
def patternTotalE (pattern_findings : JVal) : PyResult Nat := do
  if jTruthy pattern_findings then do
    let a ← pyGetMethod pattern_findings "passwords" (.arr [])
    let na ← pyLen a
    let b ← pyGetMethod pattern_findings "api_keys" (.arr [])
    let nb ← pyLen b
    let c ← pyGetMethod pattern_findings "sensitive_data" (.arr [])
    let nc ← pyLen c
    let d ← pyGetMethod pattern_findings "security_issues" (.arr [])
    let nd ← pyLen d
    pure (na + nb + nc + nd)
  else pure 0

/-- The per-category breakdown of the summary (source lines 209-213). -/
def summaryBreakdownChunks (pattern_findings : JVal) : PyResult (List Str) :=
  if jTruthy pattern_findings then do
    let a ← pyGetMethod pattern_findings "passwords" (.arr [])
    let na ← pyLen a
    let b ← pyGetMethod pattern_findings "api_keys" (.arr [])
    let nb ← pyLen b
    let c ← pyGetMethod pattern_findings "sensitive_data" (.arr [])
    let nc ← pyLen c
    let d ← pyGetMethod pattern_findings "security_issues" (.arr [])
    let nd ← pyLen d
    pure [ "  - Passwords: ".toList ++ natToDigits na ++ "\n".toList,
           "  - API Keys: ".toList ++ natToDigits nb ++ "\n".toList,
           "  - Sensitive Data: ".toList ++ natToDigits nc ++ "\n".toList,
           "  - Security Issues: ".toList ++ natToDigits nd ++ "\n".toList]
  else pure []

/-- The per-type metric lines of the Mistral summary (source lines 219-230). -/
def summaryMistralSub (m : JVal) : PyResult (List Str) := do
  let hasS ← pyContains m "overall_security_score"
  if hasS then do
    let s ← pyIndexS m "overall_security_score"
    let sS ← pyFormat2f s
    let crit ← pyGetMethod m "critical_issues" (.arr [])
    let ncr ← pyLen crit
    let med ← pyGetMethod m "medium_issues" (.arr [])
    let nme ← pyLen med
    let lowv ← pyGetMethod m "low_issues" (.arr [])
    let nlo ← pyLen lowv
    pure [ "  - Security Score: ".toList ++ sS ++ "/1.0\n".toList,
           "  - Critical Issues: ".toList ++ natToDigits ncr ++ "\n".toList,
           "  - Medium Issues: ".toList ++ natToDigits nme ++ "\n".toList,
           "  - Low Issues: ".toList ++ natToDigits nlo ++ "\n".toList]
  else do
    let hasPI ← pyContains m "prompt_injection_detected"
    if hasPI then do
      let d ← pyIndexS m "prompt_injection_detected"
      let conf ← pyGetMethod m "confidence_score" (.num 0)
      let confS ← pyFormat2f conf
      pure [ "  - Prompt Injection Detected: ".toList ++ pyStrV d ++ "\n".toList,
             "  - Confidence: ".toList ++ confS ++ "\n".toList]
    else do
      let hasHa ← pyContains m "hallucination_risk_detected"
      if hasHa then do
        let d ← pyIndexS m "hallucination_risk_detected"
        let conf ← pyGetMethod m "confidence_score" (.num 0)
        let confS ← pyFormat2f conf
        pure [ "  - Hallucination Risk Detected: ".toList ++ pyStrV d ++ "\n".toList,
               "  - Confidence: ".toList ++ confS ++ "\n".toList]
      else pure []

/-- The Mistral part of the summary (source lines 216-232). -/
def summaryMistralChunks (m : JVal) : PyResult (List Str) :=
  if jTruthy m then do
    let sub ← summaryMistralSub m
    pure ( "- **Mistral AI Analysis:** ✅ Completed\n".toList :: sub)
  else pure [ "- **Mistral AI Analysis:** ❌ Not performed\n".toList]

/-- The summary section (source lines 196-232). -/
def summaryChunks (pt : Nat) (pattern_findings m : JVal) : PyResult (List Str) := do
  let c1 ← summaryBreakdownChunks pattern_findings
  let c2 ← summaryMistralChunks m
  pure ([ "## 📊 Summary\n".toList,
          "- **Pattern-Based Findings:** ".toList ++ natToDigits pt ++ "\n".toList] ++
    c1 ++ c2)

def warnLine : Str :=
  ( "\n⚠️  **Recommendation:** Review the findings above and address any genuine security issues.\n").toList

def noIssuesLine : Str := "\n✅ **No security issues detected.**\n".toList

def topRemLine : Str := "**Top Remediation Recommendations:**\n".toList

/-- `mistral_analysis and 'remediation_recommendations' in mistral_analysis`
(source line 239, with Python short-circuiting). -/
def hasRemRecsE (m : JVal) : PyResult Bool :=
  if jTruthy m then pyContains m "remediation_recommendations" else pure false

/-- The final recommendation block (source lines 234-245). -/
def finalChunks (pt : Nat) (m : JVal) : PyResult (List Str) := do
  if 0 < pt + (if jTruthy m then 1 else 0) then do
    let hasRR ← hasRemRecsE m
    if hasRR then do
      let rl ← pyIndexS m "remediation_recommendations"
      let sl ← pySliceTo3 rl
      let items ← pyIter sl
      pure (warnLine :: topRemLine ::
        items.map (fun r => "- ".toList ++ pyStrV r ++ "\n".toList))
    else pure [warnLine]
  else pure [noIssuesLine]

/-- The pattern-based analysis section (source lines 48-89). -/
def patternSectionChunks (pattern_analysis : JVal) : PyResult (List Str) :=
  if jTruthy pattern_analysis then do
    let pw ← categorySectionChunks pattern_analysis "passwords" pwHeader false
    let ak ← categorySectionChunks pattern_analysis "api_keys" akHeader false
    let sd ← categorySectionChunks pattern_analysis "sensitive_data" sdHeader false
    let si ← categorySectionChunks pattern_analysis "security_issues" siHeader true
    pure ( "## 🔍 Pattern-Based Security Analysis\n".toList ::
      (pw ++ ak ++ sd ++ si) ++ [ "\n---\n".toList])
  else pure []

/-- The Mistral section with its header and separator (source lines 92-193). -/
def mistralSectionWrap (m : JVal) : PyResult (List Str) :=
  if jTruthy m then do
    let body ← mistralSectionChunks m
    pure ( "## 🤖 Mistral AI Analysis\n".toList :: body ++ [ "\n---\n".toList])
  else pure []

/-- `_generate_report_content(findings)`, as its list of appended chunks. -/
def reportChunks (report_date : Str) (findings : JVal) : PyResult (List Str) := do
  let metadata ← pyGetMethod findings "metadata" (.obj [])
  let cl ← pyGetMethod metadata "content_length" (.num 0)
  let lc ← pyGetMethod metadata "line_count" (.num 0)
  let pattern_analysis ← pyGetMethod findings "pattern_analysis" (.obj [])
  let patCs ← patternSectionChunks pattern_analysis
  let mistral_analysis ← pyGetMethod findings "mistral_analysis" (.obj [])
  let misCs ← mistralSectionWrap mistral_analysis
  let pt ← patternTotalE pattern_analysis
  let sumCs ← summaryChunks pt pattern_analysis mistral_analysis
  let finCs ← finalChunks pt mistral_analysis
  pure ([ "# Security Analysis Report\n".toList,
          "**Generated:** ".toList ++ report_date ++ "\n".toList,
          "\n---\n".toList,
          "## Analysis Metadata\n".toList,
          "- **Content Length:** ".toList ++ pyStrV cl ++ " characters\n".toList,
          "- **Line Count:** ".toList ++ pyStrV lc ++ " lines\n".toList,
          "\n---\n".toList] ++ patCs ++ misCs ++ sumCs ++ finCs)

/-- `_generate_report_content(findings)`: the full Markdown string
(`''.join(content)`). -/
def _generate_report_content (report_date : Str) (findings : JVal) : PyResult Str :=
  (fun cs => cs.flatten) <$> reportChunks report_date findings

/-- `enhanced_findings` as `main.py` lines 153-157 assemble it before calling
`generate_report`. -/
def enhanced_findings (security_findings mistral_analysis : JVal) : PyResult JVal := do
  let md ← if jTruthy security_findings
    then pyGetMethod security_findings "metadata" (.obj []) else pure (.obj [])
  let pa ← if jTruthy security_findings
    then pyGetMethod security_findings "findings" (.obj []) else pure (.obj [])
  pure (.obj [( "metadata".toList, md),
              ( "pattern_analysis".toList, pa),
              ( "mistral_analysis".toList, mistral_analysis)])

/-! # The secondary HTTP service (`social_media_backend.py`)

The repository contains two versions of this FastAPI app: the served one at
`src/social_media_backend.py` (run by `run_server.py` as
`src.social_media_backend:app`), whose `/generate-post` handler has no error
handling beyond `raise_for_status`, and the variant kept at
`src/tests/src/social_media_backend.py`, whose handler maps remote
401/429/4xx and timeout/network failures to `HTTPException`s.  Both are
embedded.  The network call is modelled by its outcome; for the variant the
outcome is a function of the cleaned bearer token so that the key-stripping
is observable. -/

structure GeneratePostRequest where
  api_key : Str
  prompt : Str
  model : Str

/-- Outcome of the backend's `requests.post` call: transport failure or a
response with status, reason, raw text and parsed JSON body. -/
inductive BackendHttp where
  | connError : Str → BackendHttp
  | timeoutErr : Str → BackendHttp
  | httpResponse : Nat → Str → Str → JVal → BackendHttp

/-- `GET /health` (both versions, identical). -/
def health : JVal := .obj [( "status".toList, .str ( "ok".toList))]

/-- `POST /generate-post` of the served version (`src/social_media_backend.py`
lines 41-65): no `try`, so transport failures and the `HTTPError` from
`raise_for_status` propagate to the caller as raw exceptions. -/
def generate_post_served (payload : GeneratePostRequest) (outcome : BackendHttp) :
    PyResult JVal := do
  match outcome with
  | .connError m => pyRaiseS "ConnectionError" m
  | .timeoutErr m => pyRaiseS "Timeout" m
  | .httpResponse status reason _text body => do
    let _ ← raise_for_status status reason
    let completion := body
    let choices ← pyIndexS completion "choices"
    let choice0 ← pyIndexN choices 0
    let message ← pyIndexS choice0 "message"
    let post_text ← pyIndexS message "content"
    pure (.obj [( "post".toList, post_text),
                ( "model".toList, .str payload.model),
                ( "provider".toList, .str ( "mistral".toList))])

/-- Result of the variant handler as FastAPI sees it: a JSON response, a
raised `HTTPException` (mapped to its status code and detail body), or a raw
exception that escaped. -/
inductive HandlerResult where
  | ok : JVal → HandlerResult
  | httpExc : Nat → Str → HandlerResult
  | raised : PyExc → HandlerResult

def invalidKeyDetailPre : Str :=
  ( "Invalid API key. Check: 1) Key is correctly copied from Mistral console 2) No extra spaces 3) Key is activated. API response: ").toList

def timeoutDetail : Str :=
  ( "Request timeout. The API took too long to respond. Please try again.").toList

/-- The `try:` body of the variant handler
(`src/tests/src/social_media_backend.py` lines 44-100).  The inner `Except`
carries a raised `HTTPException` as `(status, detail)`; the outer `PyResult`
carries raw Python exceptions. -/
def gptVariantBody (payload : GeneratePostRequest)
    (transport : Str → BackendHttp) : PyResult (Except (Nat × Str) JVal) := do
  let clean_api_key := pyStrip payload.api_key
  match transport clean_api_key with
  | .connError m => pyRaiseS "ConnectionError" m
  | .timeoutErr m => pyRaiseS "Timeout" m
  | .httpResponse status reason text body => do
    if status = 401 then do
      let error_msg ← if text ≠ [] then do
          let em ← pyGetMethod body "message" (.str [])
          pure (pyStrV em)
        else pure []
      pure (.error (401, invalidKeyDetailPre ++ error_msg))
    else if status = 429 then
      pure (.error (429, "Rate limit exceeded. Please wait a moment and try again.".toList))
    else if 400 ≤ status then do
      let errObj ← pyGetMethod body "error" (.obj [])
      let em ← pyGetMethod errObj "message" (.str ( "Unknown error".toList))
      pure (.error (status, "Mistral API error: ".toList ++ pyStrV em))
    else do
      let _ ← raise_for_status status reason
      let choices ← pyIndexS body "choices"
      let choice0 ← pyIndexN choices 0
      let message ← pyIndexS choice0 "message"
      let post_text ← pyIndexS message "content"
      pure (.ok (.obj [( "post".toList, post_text),
                       ( "model".toList, .str payload.model),
                       ( "provider".toList, .str ( "mistral".toList))]))

/-- The variant handler with its two `except` clauses (lines 102-112):
`Timeout` maps to HTTP 504, any other `RequestException` to HTTP 500 with a
"Network error" detail; `HTTPException`s raised in the body pass through to
FastAPI, and any other exception escapes raw. -/
def generate_post_tests_variant (payload : GeneratePostRequest)
    (transport : Str → BackendHttp) : HandlerResult :=
  match gptVariantBody payload transport with
  | .ok (.ok v) => .ok v
  | .ok (.error sd) => .httpExc sd.1 sd.2
  | .error e =>
    if e.ename = "Timeout".toList then .httpExc 504 timeoutDetail
    else if requestExceptionNames.contains e.ename then
      .httpExc 500 ( "Network error: ".toList ++ e.emsg)
    else .raised e

/-! # Statement-side definitions -/

/-- No line-boundary code point occurs in `s` (such a string renders as a
single Markdown line). -/
def noLB (s : Str) : Bool := s.all (fun c => !isLineBoundary c)

/-- The last line of a rendered report (`str.splitlines` of the report,
last element). -/
def lastLineOf (s : Str) : Str := (splitlinesL s).getLastD []

/-- The five analysis types of the registry. -/
def analysisTypes : List Str :=
  [ "prompt_injection".toList, "hallucination".toList, "security_analysis".toList,
    "secure_coding".toList, "compliance".toList]

/-- The verdict condition of the summary: total pattern-finding count zero
and external-analysis result absent (falsy), read off the findings input the
way lines 199-205 and 235 of the renderer do. -/
def reportNoIssuesCond (findings : JVal) : Bool :=
  match pyGetMethod findings "pattern_analysis" (.obj []) with
  | .ok pa =>
    (match patternTotalE pa, pyGetMethod findings "mistral_analysis" (.obj []) with
     | .ok pt, .ok m => pt = 0 && !jTruthy m
     | _, _ => false)
  | .error _ => false

/-- The remediation recommendations that the final block of the report
iterates over (the first three), when that code path is taken. -/
def finalRecsOf (findings : JVal) : Option (List JVal) :=
  match pyGetMethod findings "mistral_analysis" (.obj []) with
  | .ok m =>
    if jTruthy m then
      match pyContains m "remediation_recommendations" with
      | .ok true =>
        (match pyIndexS m "remediation_recommendations" with
         | .ok rl =>
           (match pySliceTo3 rl with
            | .ok sl => (match pyIter sl with | .ok items => some items | .error _ => none)
            | .error _ => none)
         | .error _ => none)
      | _ => none
    else none
  | .error _ => none

/-- Every remediation recommendation printed by the final block renders on a
single Markdown line. -/
def singleLineRecsB (findings : JVal) : Bool :=
  match finalRecsOf findings with
  | some items => items.all (fun r => noLB (pyStrV r))
  | none => true

def isObjB : JVal → Bool
  | .obj _ => true
  | _ => false

def isArrOfObjsB : JVal → Bool
  | .arr xs => xs.all isObjB
  | _ => false

def isStrB : JVal → Bool
  | .str _ => true
  | _ => false

def isArrOfStrsB : JVal → Bool
  | .arr xs => xs.all isStrB
  | _ => false

def isNumOrBoolB : JVal → Bool
  | .num _ => true
  | .bool _ => true
  | _ => false

/-- If key `k` is present its value satisfies `p`; an absent key is fine. -/
def optKey (kvs : List (Str × JVal)) (k : String) (p : JVal → Bool) : Bool :=
  match jLookup kvs k.toList with
  | some v => p v
  | none => true

/-- The list-valued keys the Mistral-analysis branches iterate or join. -/
def mistralListKeys : List String :=
  [ "vulnerabilities_found", "risk_factors", "recommendations",
    "critical_issues", "medium_issues", "low_issues",
    "remediation_recommendations", "immediate_actions", "code_refactoring",
    "configuration_changes", "monitoring_recommendations",
    "training_recommendations", "owasp_top_10_violations",
    "compliance_recommendations"]

def complianceObjB : JVal → Bool
  | .obj kvs => optKey kvs "issues" isArrOfStrsB
  | _ => false

def mistralWellTypedB : JVal → Bool
  | .obj kvs =>
    optKey kvs "confidence_score" isNumOrBoolB &&
    optKey kvs "overall_security_score" isNumOrBoolB &&
    mistralListKeys.all (fun k => optKey kvs k isArrOfStrsB) &&
    complianceStandards.all (fun k => optKey kvs k complianceObjB)
  | _ => false

def patternAnalysisWellTypedB : JVal → Bool
  | .obj kvs =>
    optKey kvs "passwords" isArrOfObjsB &&
    optKey kvs "api_keys" isArrOfObjsB &&
    optKey kvs "sensitive_data" isArrOfObjsB &&
    optKey kvs "security_issues" isArrOfObjsB
  | _ => false

/-- Well-formedness scope of claim C7: the findings value is a dictionary,
any of the expected keys may be absent at any level, and a key that is
present carries a value of the expected shape. -/
def wellTypedFindingsB : JVal → Bool
  | .obj kvs =>
    optKey kvs "metadata" isObjB &&
    optKey kvs "pattern_analysis" patternAnalysisWellTypedB &&
    optKey kvs "mistral_analysis" mistralWellTypedB
  | _ => false

/-- The count a single line contributes: if the line starts with `pre`, the
decimal number that follows immediately. -/
def countContrib (pre l : Str) : Option Nat :=
  if pre.isPrefixOf l then parseLeadingNat (l.drop pre.length) else none

/-- Counts extracted back out of the rendered Markdown: for every line that
starts with `pre`, the decimal number that follows immediately. -/
def extractCounts (pre : Str) (report : Str) : List Nat :=
  (splitlinesL report).filterMap (countContrib pre)

def pwHeaderPre : Str := pwHeader ++ " (".toList
def akHeaderPre : Str := akHeader ++ " (".toList
def sdHeaderPre : Str := sdHeader ++ " (".toList
def siHeaderPre : Str := siHeader ++ " (".toList
def pwSummaryPre : Str := "  - Passwords: ".toList
def akSummaryPre : Str := "  - API Keys: ".toList
def sdSummaryPre : Str := "  - Sensitive Data: ".toList
def siSummaryPre : Str := "  - Security Issues: ".toList

/-- The findings dictionary `main.py` passes to the renderer for a scan of
`content` with external analysis result `m` (pure form; `enhanced_findings`
on a scanner result always succeeds and yields this). -/
def enhancedOf (content : Str) (m : JVal) : JVal :=
  .obj [( "metadata".toList, .obj
           [( "content_length".toList, .num content.length),
            ( "line_count".toList, .num (lineCountOf content))]),
        ( "pattern_analysis".toList, .obj
           [( "passwords".toList, .arr ((passwordFindings content).map findingToJ)),
            ( "api_keys".toList, .arr ((apiKeyFindings content).map findingToJ)),
            ( "sensitive_data".toList, .arr ((sensitiveDataFindings content).map findingToJ)),
            ( "security_issues".toList, .arr ((securityIssueFindings content).map issueToJ))]),
        ( "mistral_analysis".toList, m)]

/-- A transport-level failure of the single HTTP request: unreachable
network, timeout, or an HTTP 4xx/5xx response. -/
def isTransportFailure : TransportOutcome → Bool
  | .connError _ => true
  | .timeoutErr _ => true
  | .httpResponse status _ _ => (400 ≤ status && status ≤ 599)

/-- A concrete malformed findings dictionary: a finding object with no keys at
all, and an external-analysis payload with only an unrecognised key. -/
def C7wit : JVal :=
  .obj [( "pattern_analysis".toList, .obj [( "passwords".toList, .arr [.obj []])]),
        ( "mistral_analysis".toList, .obj [( "weird_key".toList, .arr [.num 1, .null])])]

/-- The no-issues verdict string (the final block's success line, without its
surrounding newlines). -/
def noIssuesVerdict : Str := "✅ **No security issues detected.**".toList

/-- The review-recommended notice (the final block's warning line, without its
surrounding newlines). -/
def warnNotice : Str :=
  ( "⚠️  **Recommendation:** Review the findings above and address any genuine security issues.").toList

/-- The title line of the top-remediation list, without its newline. -/
def topRemBody : Str := "**Top Remediation Recommendations:**".toList

/-- A findings value on which the quoted verdict sentence fails: one finding
is present (an external analysis ran), and a remediation recommendation
carries an embedded newline followed by the verdict text. -/
def C5cex : JVal :=
  .obj [( "mistral_analysis".toList, .obj
           [( "overall_security_score".toList, .num 1),
            ( "remediation_recommendations".toList, .arr
               [.str ( "Rotate the key\n✅ **No security issues detected.**".toList)])])]

/-- The `findings` sub-dictionary of the scanner result, as `main.py` passes
it to the renderer under `pattern_analysis`. -/
def paOf (content : Str) : JVal :=
  .obj [( "passwords".toList, .arr ((passwordFindings content).map findingToJ)),
        ( "api_keys".toList, .arr ((apiKeyFindings content).map findingToJ)),
        ( "sensitive_data".toList, .arr ((sensitiveDataFindings content).map findingToJ)),
        ( "security_issues".toList, .arr ((securityIssueFindings content).map issueToJ))]

/-- The three chunks one finding contributes to its category section, in
terms of the `Finding` structure. -/
def findingChunksP (style : Bool) (f : Finding) : List Str :=
  if style then
    [ "**Line ".toList ++ intToStr f.line ++ ":** ".toList ++ f.found ++ "\n".toList,
      "**Context:** `".toList ++ f.context ++ "`\n".toList,
      "\n".toList]
  else
    [ "**Line ".toList ++ intToStr f.line ++ ":** `".toList ++ f.found ++ "`\n".toList,
      "**Context:** `".toList ++ f.context ++ "`\n".toList,
      "\n".toList]

/-- The chunks of one category section, in terms of the finding list. -/
def catChunksP (hdr : Str) (style : Bool) (fs : List Finding) : List Str :=
  match fs with
  | [] => []
  | _ :: _ => (hdr ++ " (".toList ++ natToDigits fs.length ++ ")\n".toList) ::
      (fs.map (findingChunksP style)).flatten

/-- The chunks of the pattern-based section for a scanner result. -/
def patChunksP (content : Str) : List Str :=
  "## 🔍 Pattern-Based Security Analysis\n".toList ::
    (catChunksP pwHeader false (passwordFindings content) ++
     catChunksP akHeader false (apiKeyFindings content) ++
     catChunksP sdHeader false (sensitiveDataFindings content) ++
     catChunksP siHeader true (securityIssueFindings content)) ++
    [ "\n---\n".toList]

/-- The head and metadata chunks of the report. -/
def headChunksP (date : Str) (n1 n2 : Int) : List Str :=
  [ "# Security Analysis Report\n".toList,
    "**Generated:** ".toList ++ date ++ "\n".toList,
    "\n---\n".toList,
    "## Analysis Metadata\n".toList,
    "- **Content Length:** ".toList ++ intToStr n1 ++ " characters\n".toList,
    "- **Line Count:** ".toList ++ intToStr n2 ++ " lines\n".toList,
    "\n---\n".toList]

/-- The summary chunks for a scan with no external analysis. -/
def sumChunksP (pt lpw lak lsd lsi : Nat) : List Str :=
  [ "## 📊 Summary\n".toList,
    "- **Pattern-Based Findings:** ".toList ++ natToDigits pt ++ "\n".toList] ++
  ([ pwSummaryPre ++ natToDigits lpw ++ "\n".toList,
     akSummaryPre ++ natToDigits lak ++ "\n".toList,
     sdSummaryPre ++ natToDigits lsd ++ "\n".toList,
     siSummaryPre ++ natToDigits lsi ++ "\n".toList] ++
   [ "- **Mistral AI Analysis:** ❌ Not performed\n".toList])

/-- The final-block chunks for a scan with no external analysis. -/
def finChunksP (pt : Nat) : List Str :=
  if 0 < pt then [warnLine] else [noIssuesLine]

/-- The full chunk list of the report for a scanner result with no external
analysis. -/
def reportChunksP (content date : Str) : List Str :=
  headChunksP date content.length (lineCountOf content) ++
  patChunksP content ++ ([] : List Str) ++
  sumChunksP ((passwordFindings content).length + (apiKeyFindings content).length +
      (sensitiveDataFindings content).length + (securityIssueFindings content).length)
    (passwordFindings content).length (apiKeyFindings content).length
    (sensitiveDataFindings content).length (securityIssueFindings content).length ++
  finChunksP ((passwordFindings content).length + (apiKeyFindings content).length +
      (sensitiveDataFindings content).length + (securityIssueFindings content).length)

/-- The Markdown lines one finding contributes. -/
def findingLinesP (style : Bool) (f : Finding) : List Str :=
  if style then
    [ "**Line ".toList ++ intToStr f.line ++ ":** ".toList ++ f.found,
      "**Context:** `".toList ++ f.context ++ "`".toList,
      []]
  else
    [ "**Line ".toList ++ intToStr f.line ++ ":** `".toList ++ f.found ++ "`".toList,
      "**Context:** `".toList ++ f.context ++ "`".toList,
      []]

/-- The Markdown lines of one category section. -/
def catLinesP (hdr : Str) (style : Bool) (fs : List Finding) : List Str :=
  match fs with
  | [] => []
  | _ :: _ => (hdr ++ " (".toList ++ natToDigits fs.length ++ ")".toList) ::
      (fs.map (findingLinesP style)).flatten

/-- The Markdown lines of the report head and metadata block. -/
def headLinesP (date : Str) (n1 n2 : Int) : List Str :=
  [ "# Security Analysis Report".toList,
    "**Generated:** ".toList ++ date,
    [], "---".toList,
    "## Analysis Metadata".toList,
    "- **Content Length:** ".toList ++ intToStr n1 ++ " characters".toList,
    "- **Line Count:** ".toList ++ intToStr n2 ++ " lines".toList,
    [], "---".toList]

/-- The Markdown lines of the pattern-based section. -/
def patLinesP (content : Str) : List Str :=
  "## 🔍 Pattern-Based Security Analysis".toList ::
    (catLinesP pwHeader false (passwordFindings content) ++
     catLinesP akHeader false (apiKeyFindings content) ++
     catLinesP sdHeader false (sensitiveDataFindings content) ++
     catLinesP siHeader true (securityIssueFindings content)) ++
    ([] :: [ "---".toList])

/-- The Markdown lines of the summary section (no external analysis). -/
def sumLinesP (pt lpw lak lsd lsi : Nat) : List Str :=
  [ "## 📊 Summary".toList,
    "- **Pattern-Based Findings:** ".toList ++ natToDigits pt,
    pwSummaryPre ++ natToDigits lpw,
    akSummaryPre ++ natToDigits lak,
    sdSummaryPre ++ natToDigits lsd,
    siSummaryPre ++ natToDigits lsi,
    "- **Mistral AI Analysis:** ❌ Not performed".toList]

/-- The Markdown lines of the final block (no external analysis). -/
def finLinesP (pt : Nat) : List Str :=
  if 0 < pt then [[], warnNotice] else [[], noIssuesVerdict]

/-- `p` and `f` are prefix-separated: neither is a prefix of the other (so no
extension of `f` starts with `p`). -/
def sepB (p f : Str) : Bool := !(p.isPrefixOf f) && !(f.isPrefixOf p)

/-- All Markdown lines of the report for a scanner result with no external
analysis. -/
def reportLinesP (content date : Str) : List Str :=
  headLinesP date content.length (lineCountOf content) ++
  patLinesP content ++
  sumLinesP ((passwordFindings content).length + (apiKeyFindings content).length +
      (sensitiveDataFindings content).length + (securityIssueFindings content).length)
    (passwordFindings content).length (apiKeyFindings content).length
    (sensitiveDataFindings content).length (securityIssueFindings content).length ++
  finLinesP ((passwordFindings content).length + (apiKeyFindings content).length +
      (sensitiveDataFindings content).length + (securityIssueFindings content).length)

/-- A concrete scan input exercising two finding categories. -/
def C6content : Str := "password: hunter2\neval(x)".toList

/-! # Lemmas and claim theorems

Everything from here on is a theorem; the section starts with the generic
string lemmas (splitlines decomposition, last-line extraction), then the list
lemmas about the scanner, and then the claims. -/

theorem sl_rn (cs : Str) : splitlinesL ('\r' :: '\n' :: cs) = [] :: splitlinesL cs := by
  rw [splitlinesL.eq_2]
  norm_num

theorem sl_r_other (c2 : Char) (cs2 : Str) (h2 : c2 ≠ '\n') :
    splitlinesL ('\r' :: c2 :: cs2) = [] :: splitlinesL (c2 :: cs2) := by
  rw [splitlinesL.eq_2]
  rw [if_pos rfl, if_neg h2]

theorem sl_r_nil : splitlinesL ['\r'] = [[]] := by decide

theorem sl_boundary (c : Char) (cs : Str) (hr : c ≠ '\r') (hb : isLineBoundary c = true) :
    splitlinesL (c :: cs) = [] :: splitlinesL cs := by
  cases cs with
  | nil =>
    rw [splitlinesL.eq_def]
    simp [hr, hb, splitlinesL]
  | cons c2 cs2 =>
    rw [splitlinesL.eq_2, if_neg hr, if_pos hb]

theorem sl_plain (c : Char) (cs : Str) (hr : c ≠ '\r') (hb : isLineBoundary c = false) :
    splitlinesL (c :: cs) =
      match splitlinesL cs with
      | [] => [[c]]
      | l :: ls => (c :: l) :: ls := by
  cases cs with
  | nil =>
    rw [splitlinesL.eq_def]
    simp [hr, hb, splitlinesL]
  | cons c2 cs2 =>
    rw [splitlinesL.eq_2, if_neg hr, if_neg (by simp [hb])]


theorem splitlinesL_ne_nil (s : Str) (h : s ≠ []) : splitlinesL s ≠ [] := by
  match s with
  | c :: cs =>
    by_cases hr : c = '\r'
    · subst hr
      match cs with
      | [] => rw [sl_r_nil]; simp
      | c2 :: cs2 =>
        by_cases h2 : c2 = '\n'
        · subst h2; rw [sl_rn]; simp
        · rw [sl_r_other _ _ h2]; simp
    · by_cases hb : isLineBoundary c
      · rw [sl_boundary _ _ hr hb]; simp
      · rw [sl_plain _ _ hr (by simpa using hb)]
        cases splitlinesL cs <;> simp


theorem splitlines_append_nl (a : Str) :
    ∀ b : Str, splitlinesL (a ++ '\n' :: b) = splitlinesL (a ++ ['\n']) ++ splitlinesL b := by
  induction a using splitlinesL.induct with
  | case1 =>
    intro b
    rw [List.nil_append, List.nil_append]
    rw [sl_boundary '\n' b (by decide) (by decide)]
    rw [sl_boundary '\n' [] (by decide) (by decide)]
    rfl
  | case2 cs2 ih =>
    intro b
    simp only [List.cons_append]
    rw [sl_rn, sl_rn, ih]
    rfl
  | case3 c2 cs2 h2 ih =>
    intro b
    simp only [List.cons_append]
    rw [sl_r_other c2 _ h2, sl_r_other c2 _ h2]
    simp only [List.cons_append] at ih
    rw [ih]
    rfl
  | case4 =>
    intro b
    simp only [List.cons_append, List.nil_append]
    rw [sl_rn, show splitlinesL ['\x0d', '\n'] = [[]] from by decide]
    rfl
  | case5 c cs hr hb ih =>
    intro b
    simp only [List.cons_append]
    rw [sl_boundary c _ hr hb, sl_boundary c _ hr hb, ih]
    rfl
  | case6 c cs hr hb hnil ih =>
    intro b
    simp only [List.cons_append]
    rw [sl_plain c _ hr (by simpa using hb), sl_plain c _ hr (by simpa using hb)]
    rw [ih]
    obtain ⟨m, ms, hm⟩ : ∃ m ms, splitlinesL (cs ++ ['\n']) = m :: ms := by
      cases hsm : splitlinesL (cs ++ ['\n']) with
      | nil => exact absurd hsm (splitlinesL_ne_nil _ (by simp))
      | cons m ms => exact ⟨m, ms, rfl⟩
    rw [hm]
    rfl
  | case7 c cs hr hb l ls heq ih =>
    intro b
    simp only [List.cons_append]
    rw [sl_plain c _ hr (by simpa using hb), sl_plain c _ hr (by simpa using hb)]
    rw [ih]
    obtain ⟨m, ms, hm⟩ : ∃ m ms, splitlinesL (cs ++ ['\n']) = m :: ms := by
      cases hsm : splitlinesL (cs ++ ['\n']) with
      | nil => exact absurd hsm (splitlinesL_ne_nil _ (by simp))
      | cons m ms => exact ⟨m, ms, rfl⟩
    rw [hm]
    rfl

theorem splitlines_single (l : Str) (h : noLB l = true) : splitlinesL (l ++ ['\n']) = [l] := by
  induction l with
  | nil => decide
  | cons c l ih =>
    simp only [noLB, List.all_cons, Bool.and_eq_true] at h
    have hnb : isLineBoundary c = false := by
      cases hx : isLineBoundary c
      · rfl
      · rw [hx] at h; simp at h
    have hr : c ≠ '\r' := by
      intro he
      rw [he] at hnb
      exact absurd hnb (by decide)
    rw [List.cons_append, sl_plain c _ hr hnb]
    rw [ih (by simp only [noLB]; exact h.2)]

theorem getLastD_irrel (l : List Str) (h : l ≠ []) (d1 d2 : Str) :
    l.getLastD d1 = l.getLastD d2 := by
  cases l with
  | nil => exact absurd rfl h
  | cons a t => rw [List.getLastD_cons, List.getLastD_cons]

theorem getLastD_append_right (l1 l2 : List Str) (d : Str) (h : l2 ≠ []) :
    (l1 ++ l2).getLastD d = l2.getLastD d := by
  induction l1 with
  | nil => rfl
  | cons x xs ih =>
    rw [List.cons_append, List.getLastD_cons]
    have hne : xs ++ l2 ≠ [] := by
      intro he
      exact h (List.append_eq_nil.mp he).2
    rw [getLastD_irrel _ hne x d]
    exact ih

theorem lastLine_after_nl (a b : Str) (hb : b ≠ []) :
    lastLineOf (a ++ '\n' :: b) = lastLineOf b := by
  unfold lastLineOf
  rw [splitlines_append_nl]
  exact getLastD_append_right _ _ _ (splitlinesL_ne_nil b hb)

theorem splitlines_noLB (s : Str) : ∀ l ∈ splitlinesL s, noLB l = true := by
  induction s using splitlinesL.induct with
  | case1 => intro l hl; simp [splitlinesL] at hl
  | case2 cs2 ih =>
    intro l hl
    rw [sl_rn] at hl
    rcases List.mem_cons.mp hl with h | h
    · subst h; rfl
    · exact ih l h
  | case3 c2 cs2 h2 ih =>
    intro l hl
    rw [sl_r_other _ _ h2] at hl
    rcases List.mem_cons.mp hl with h | h
    · subst h; rfl
    · exact ih l h
  | case4 =>
    intro l hl
    rw [sl_r_nil] at hl
    rcases List.mem_cons.mp hl with h | h
    · subst h; rfl
    · simp at h
  | case5 c cs hr hb ih =>
    intro l hl
    rw [sl_boundary c _ hr hb] at hl
    rcases List.mem_cons.mp hl with h | h
    · subst h; rfl
    · exact ih l h
  | case6 c cs hr hb hnil =>
    intro l hl
    rw [sl_plain c _ hr (by simpa using hb), hnil] at hl
    rcases List.mem_cons.mp hl with h | h
    · subst h
      simp [noLB, hb]
    · simp at h
  | case7 c cs hr hb l0 ls0 heq ih =>
    intro l hl
    rw [sl_plain c _ hr (by simpa using hb), heq] at hl
    rcases List.mem_cons.mp hl with h | h
    · subst h
      have h0 : noLB l0 = true := ih l0 (by rw [heq]; exact List.mem_cons_self _ _)
      simp only [noLB, List.all_cons, Bool.and_eq_true]
      constructor
      · simp [hb]
      · exact h0
    · exact ih l (by rw [heq]; exact List.mem_cons_of_mem _ h)

theorem noLB_of_subset (s t : Str) (hsub : ∀ c ∈ s, c ∈ t) (h : noLB t = true) :
    noLB s = true := by
  simp only [noLB, List.all_eq_true] at *
  exact fun c hc => h c (hsub c hc)

theorem pyStrip_subset (s : Str) : ∀ c ∈ pyStrip s, c ∈ s := by
  intro c hc
  simp only [pyStrip, List.mem_reverse] at hc
  have h1 := (List.dropWhile_sublist (l := (s.dropWhile pyIsSpace).reverse) (p := pyIsSpace)).mem hc
  rw [List.mem_reverse] at h1
  exact (List.dropWhile_sublist (l := s) (p := pyIsSpace)).mem h1

theorem bind_ok_inv {α β : Type} (x : PyResult α) (f : α → PyResult β) (v : β)
    (h : (x >>= f) = .ok v) : ∃ a, x = .ok a ∧ f a = .ok v := by
  cases x with
  | ok a => exact ⟨a, rfl, h⟩
  | error e => simp [Bind.bind, Except.bind] at h

theorem mapM_ok_of_all {α β : Type} (f : α → PyResult β) (g : α → β) (xs : List α)
    (h : ∀ x ∈ xs, f x = .ok (g x)) : xs.mapM f = .ok (xs.map g) := by
  induction xs with
  | nil => rfl
  | cons x xs ih =>
    rw [List.mapM_cons, h x (List.mem_cons_self x xs),
      ih (fun y hy => h y (List.mem_cons_of_mem x hy))]
    rfl

theorem mapM_ok_exists {α β : Type} (f : α → PyResult β) (xs : List α)
    (h : ∀ x ∈ xs, ∃ y, f x = .ok y) : ∃ ys, xs.mapM f = .ok ys := by
  induction xs with
  | nil => exact ⟨[], rfl⟩
  | cons x xs ih =>
    obtain ⟨y, hy⟩ := h x (List.mem_cons_self x xs)
    obtain ⟨ys, hys⟩ := ih (fun z hz => h z (List.mem_cons_of_mem x hz))
    exact ⟨y :: ys, by rw [List.mapM_cons, hy, hys]; rfl⟩

theorem line_mem_enumFrom_flatMap (g : Nat → Str → List Finding)
    (hg : ∀ i l f, f ∈ g i l → f.line = i) :
    ∀ (ls : List Str) (k : Nat) (f : Finding),
      f ∈ (enumFrom k ls).flatMap (fun p => g p.1 p.2) →
      k ≤ f.line ∧ f.line < k + ls.length := by
  intro ls
  induction ls with
  | nil => intro k f hf; simp [enumFrom] at hf
  | cons l ls ih =>
    intro k f hf
    rw [enumFrom] at hf
    rw [List.flatMap_cons] at hf
    rcases List.mem_append.mp hf with h | h
    · have := hg k l f h
      simp only [List.length_cons]
      omega
    · have := ih (k + 1) f h
      simp only [List.length_cons]
      omega

theorem filter_enumFrom_flatMap (g : Nat → Str → List Finding)
    (hg : ∀ i l f, f ∈ g i l → f.line = i) :
    ∀ (ls : List Str) (k j : Nat), k ≤ j →
      ((enumFrom k ls).flatMap (fun p => g p.1 p.2)).filter (fun f => f.line == j) =
        (match ls.get? (j - k) with
         | some l => g j l
         | none => []) := by
  intro ls
  induction ls with
  | nil => intro k j _; simp [enumFrom]
  | cons l ls ih =>
    intro k j hkj
    rw [enumFrom, List.flatMap_cons, List.filter_append]
    by_cases hjk : j = k
    · subst hjk
      have h1 : (g j l).filter (fun f => f.line == j) = g j l :=
        List.filter_eq_self.mpr (fun f hf => by simp [hg j l f hf])
      have h2 : ((enumFrom (j + 1) ls).flatMap (fun p => g p.1 p.2)).filter
          (fun f => f.line == j) = [] := by
        apply List.filter_eq_nil_iff.mpr
        intro f hf
        have := line_mem_enumFrom_flatMap g hg ls (j + 1) f hf
        simp only [beq_iff_eq]
        omega
      rw [h1, h2, List.append_nil]
      simp
    · have h1 : (g k l).filter (fun f => f.line == j) = [] := by
        apply List.filter_eq_nil_iff.mpr
        intro f hf
        have := hg k l f hf
        simp only [beq_iff_eq]
        omega
      have hk1 : k + 1 ≤ j := by omega
      rw [h1, List.nil_append, ih (k + 1) j hk1]
      have : j - k = (j - (k + 1)) + 1 := by omega
      rw [this]
      rfl

theorem pairwise_le_of_const (l : List Nat) (k : Nat) (h : ∀ x ∈ l, x = k) :
    l.Pairwise (· ≤ ·) := by
  induction l with
  | nil => exact List.Pairwise.nil
  | cons x xs ih =>
    constructor
    · intro y hy
      rw [h x (List.mem_cons_self x xs), h y (List.mem_cons_of_mem x hy)]
    · exact ih (fun y hy => h y (List.mem_cons_of_mem x hy))

theorem sorted_enumFrom_flatMap (g : Nat → Str → List Finding)
    (hg : ∀ i l f, f ∈ g i l → f.line = i) :
    ∀ (ls : List Str) (k : Nat),
      (((enumFrom k ls).flatMap (fun p => g p.1 p.2)).map Finding.line).Pairwise (· ≤ ·) := by
  intro ls
  induction ls with
  | nil => intro k; simp [enumFrom]
  | cons l ls ih =>
    intro k
    rw [enumFrom, List.flatMap_cons, List.map_append]
    apply List.pairwise_append.mpr
    refine ⟨?_, ih (k + 1), ?_⟩
    · apply pairwise_le_of_const _ k
      intro x hx
      obtain ⟨f, hf, hfx⟩ := List.mem_map.mp hx
      rw [← hfx]
      exact hg k l f hf
    · intro a ha b hb
      obtain ⟨f, hf, hfa⟩ := List.mem_map.mp ha
      obtain ⟨f2, hf2, hfb⟩ := List.mem_map.mp hb
      have h1 := hg k l f hf
      have h2 := line_mem_enumFrom_flatMap g hg ls (k + 1) f2 hf2
      omega

theorem digitCh_toNat (n : Nat) (h : n < 10) : (digitCh n).toNat = 48 + n := by
  interval_cases n <;> decide

theorem digit_not_boundary (c : Char) (h : isDigitC c = true) : isLineBoundary c = false := by
  simp only [isDigitC, Bool.and_eq_true, decide_eq_true_eq] at h
  simp only [isLineBoundary]
  simp only [Bool.or_eq_false_iff, decide_eq_false_iff_not]
  omega

theorem natToDigitsGo_all_digits :
    ∀ (fuel n : Nat), (natToDigitsGo fuel n).all isDigitC = true := by
  intro fuel
  induction fuel with
  | zero => intro n; rfl
  | succ fuel ih =>
    intro n
    rw [natToDigitsGo]
    by_cases h : n < 10
    · rw [if_pos h]
      simp only [List.all_cons, List.all_nil, Bool.and_true]
      simp only [isDigitC, digitCh, Bool.and_eq_true, decide_eq_true_eq]
      have hm : n % 10 = n := Nat.mod_eq_of_lt h
      constructor
      · rw [hm]
        have : (Char.ofNat (48 + n)).toNat = 48 + n := by
          interval_cases n <;> decide
        omega
      · rw [hm]
        have : (Char.ofNat (48 + n)).toNat = 48 + n := by
          interval_cases n <;> decide
        omega
    · rw [if_neg h]
      rw [List.all_append]
      rw [ih (n / 10)]
      simp only [Bool.true_and, List.all_cons, List.all_nil, Bool.and_true]
      simp only [isDigitC, Bool.and_eq_true, decide_eq_true_eq]
      have h10 : (digitCh (n % 10)).toNat = 48 + n % 10 :=
        digitCh_toNat (n % 10) (Nat.mod_lt n (by omega))
      omega

theorem digitsVal_single (c : Char) : digitsVal [c] = c.toNat - 48 := by
  simp [digitsVal]

theorem digitsVal_append_one (a : Str) (c : Char) :
    digitsVal (a ++ [c]) = 10 * digitsVal a + (c.toNat - 48) := by
  simp [digitsVal, List.foldl_append]

theorem digitsVal_natToDigitsGo :
    ∀ (fuel n : Nat), n < fuel → digitsVal (natToDigitsGo fuel n) = n := by
  intro fuel
  induction fuel with
  | zero => intro n h; omega
  | succ fuel ih =>
    intro n h
    rw [natToDigitsGo]
    by_cases h10 : n < 10
    · rw [if_pos h10, digitsVal_single, digitCh_toNat n h10]
      omega
    · rw [if_neg h10, digitsVal_append_one]
      rw [ih (n / 10) (by omega)]
      rw [digitCh_toNat (n % 10) (Nat.mod_lt n (by omega))]
      omega

theorem digitsVal_natToDigits (n : Nat) : digitsVal (natToDigits n) = n :=
  digitsVal_natToDigitsGo (n + 1) n (Nat.lt_succ_self n)

theorem natToDigits_ne_nil (n : Nat) : natToDigits n ≠ [] := by
  rw [natToDigits, natToDigitsGo]
  by_cases h : n < 10
  · rw [if_pos h]; simp
  · rw [if_neg h]; simp

theorem natToDigits_all_digits (n : Nat) : (natToDigits n).all isDigitC = true :=
  natToDigitsGo_all_digits (n + 1) n

theorem noLB_natToDigits (n : Nat) : noLB (natToDigits n) = true := by
  have h := natToDigits_all_digits n
  simp only [noLB, List.all_eq_true] at *
  intro c hc
  rw [digit_not_boundary c (h c hc)]
  rfl

theorem takeWhile_append_all (p : Char → Bool) (a b : Str) (h : a.all p = true) :
    (a ++ b).takeWhile p = a ++ b.takeWhile p := by
  induction a with
  | nil => rfl
  | cons c a ih =>
    simp only [List.all_cons, Bool.and_eq_true] at h
    rw [List.cons_append, List.takeWhile_cons, if_pos h.1, ih h.2]
    rfl

theorem parseLeadingNat_digits (n : Nat) (rest : Str)
    (hrest : rest.takeWhile isDigitC = []) :
    parseLeadingNat (natToDigits n ++ rest) = some n := by
  rw [parseLeadingNat]
  rw [takeWhile_append_all isDigitC _ rest (natToDigits_all_digits n), hrest,
    List.append_nil]
  rw [if_neg (by simpa using natToDigits_ne_nil n)]
  rw [digitsVal_natToDigits]

theorem matchFindingsLine_line (pats : List Matcher) (i : Nat) (l : Str) (f : Finding)
    (h : f ∈ matchFindingsLine pats i l) : f.line = i := by
  simp only [matchFindingsLine, List.mem_map] at h
  obtain ⟨mt, _, hf⟩ := h
  rw [← hf]

theorem securityIssueFindingsLine_line (i : Nat) (l : Str) (f : Finding)
    (h : f ∈ securityIssueFindingsLine i l) : f.line = i := by
  simp only [securityIssueFindingsLine, List.mem_filterMap] at h
  obtain ⟨pd, _, hf⟩ := h
  by_cases hs : searchLitCI pd.1 l
  · rw [if_pos hs] at hf
    cases hf
    rfl
  · rw [if_neg hs] at hf
    cases hf

theorem pyLines_length_eq (content : Str) :
    (pyLines content).length = lineCountOf content := by
  rw [pyLines, lineCountOf]
  by_cases h : content = []
  · rw [if_pos h, if_pos h]
    rfl
  · rw [if_neg h, if_neg h]

theorem countP_issue_zero (i : Nat) (l : Str) (d : Str) :
    ∀ (pats : List (Str × Str)), d ∉ pats.map Prod.snd →
    ((pats.filterMap (fun q => if searchLitCI q.1 l then
        some (⟨i, q.2, pyStrip l⟩ : Finding) else none)).countP
      (fun f => f.found == d)) = 0 := by
  intro pats
  induction pats with
  | nil => intro _; rfl
  | cons q pats ih =>
    intro hd
    simp only [List.map_cons, List.mem_cons, not_or] at hd
    rw [List.filterMap_cons]
    by_cases hs : searchLitCI q.1 l
    · rw [if_pos hs]
      rw [List.countP_cons_of_neg]
      · exact ih hd.2
      · simp only [beq_iff_eq]
        exact fun he => hd.1 (by rw [← he])
    · rw [if_neg hs]
      exact ih hd.2

theorem countP_issue_filterMap (i : Nat) (l : Str) :
    ∀ (pats : List (Str × Str)) (pd : Str × Str), pd ∈ pats →
    (pats.map Prod.snd).Nodup →
    ((pats.filterMap (fun q => if searchLitCI q.1 l then
        some (⟨i, q.2, pyStrip l⟩ : Finding) else none)).countP
      (fun f => f.found == pd.2)) = if searchLitCI pd.1 l then 1 else 0 := by
  intro pats
  induction pats with
  | nil => intro pd hpd; simp at hpd
  | cons q pats ih =>
    intro pd hpd hnd
    simp only [List.map_cons, List.nodup_cons] at hnd
    rw [List.filterMap_cons]
    rcases List.mem_cons.mp hpd with he | hm
    · subst he
      by_cases hs : searchLitCI pd.1 l
      · rw [if_pos hs, if_pos hs]
        rw [List.countP_cons_of_pos _ _ (by simp)]
        rw [countP_issue_zero i l pd.2 pats hnd.1]
      · rw [if_neg hs, if_neg hs]
        rw [countP_issue_zero i l pd.2 pats hnd.1]
    · have hne : q.2 ≠ pd.2 := by
        intro he
        exact hnd.1 (he ▸ List.mem_map_of_mem Prod.snd hm)
      by_cases hs : searchLitCI q.1 l
      · rw [if_pos hs]
        rw [List.countP_cons_of_neg]
        · exact ih pd hm hnd.2
        · simp only [beq_iff_eq]
          exact fun he => hne (by rw [he])
      · rw [if_neg hs]
        exact ih pd hm hnd.2

/-- C4 (counterexample): the claim as stated is false.  For the input
`"a\nb\npassword: hunter2 pwd=z"` the third line contains `password: hunter2`
yet the passwords category holds two findings with line 3 (the `password`
pattern and the `pwd` pattern both match), not exactly one. -/
theorem C4_counterexample :
    (splitlinesL ( "a\nb\npassword: hunter2 pwd=z".toList)).get? 2 =
      some ( "password: hunter2 pwd=z".toList) ∧
    ( "password: hunter2".toList) <:+: ( "password: hunter2 pwd=z".toList) ∧
    ((passwordFindings ( "a\nb\npassword: hunter2 pwd=z".toList)).filter
      (fun f => f.line == 3)).length = 2 := by
  refine ⟨by decide, by decide, by decide⟩

/-- C4 (amended): for every input text whose third line is exactly
`password: hunter2`, the passwords category contains exactly one finding
with line 3, and its match is the full `password: hunter2` string (keyword
and value). -/
theorem C4_third_line_password (content : Str)
    (h : (splitlinesL content).get? 2 = some ( "password: hunter2".toList)) :
    (passwordFindings content).filter (fun f => f.line == 3) =
      [⟨3, "password: hunter2".toList, "password: hunter2".toList⟩] := by
  have hne : content ≠ [] := by
    intro he
    rw [he] at h
    simp [splitlinesL] at h
  have hp : pyLines content = splitlinesL content := by rw [pyLines, if_neg hne]
  rw [passwordFindings, hp]
  rw [filter_enumFrom_flatMap (matchFindingsLine password_patterns)
    (matchFindingsLine_line password_patterns) (splitlinesL content) 1 3 (by omega)]
  have h2 : (3 : Nat) - 1 = 2 := by omega
  rw [h2, h]
  decide

theorem C4_witness :
    ((splitlinesL ( "x\ny\npassword: hunter2\nz".toList)).get? 2 =
      some ( "password: hunter2".toList)) ∧
    ((passwordFindings ( "x\ny\npassword: hunter2\nz".toList)).filter
      (fun f => f.line == 3) =
      [⟨3, "password: hunter2".toList, "password: hunter2".toList⟩]) :=
  ⟨by decide, C4_third_line_password ( "x\ny\npassword: hunter2\nz".toList) (by decide)⟩

/-- C9: on any line, the security-issues category gets at most one finding
per trigger pattern — exactly one exactly when the trigger occurs, however
many times it occurs (`re.search` detection) — while the passwords, api-keys
and sensitive-data categories get one finding per non-overlapping
`re.finditer` match of that line. -/
theorem C9_detection_vs_enumeration (content : Str) (i : Nat) (l : Str)
    (h : (pyLines content).get? (i - 1) = some l) (hi : 1 ≤ i) :
    ((securityIssueFindings content).filter (fun f => f.line == i) =
      securityIssueFindingsLine i l) ∧
    (∀ pd ∈ security_issue_patterns,
      (((securityIssueFindings content).filter (fun f => f.line == i)).countP
        (fun f => f.found == pd.2)) = if searchLitCI pd.1 l then 1 else 0) ∧
    ((passwordFindings content).filter (fun f => f.line == i) =
      matchFindingsLine password_patterns i l) ∧
    ((apiKeyFindings content).filter (fun f => f.line == i) =
      matchFindingsLine api_key_patterns i l) ∧
    ((sensitiveDataFindings content).filter (fun f => f.line == i) =
      matchFindingsLine sensitive_patterns i l) ∧
    (∀ pats : List Matcher, (matchFindingsLine pats i l).length =
      (pats.flatMap (fun m => finditer m l)).length) := by
  have hget : (pyLines content).get? (i - 1) = some l := h
  have key : ∀ (g : Nat → Str → List Finding), (∀ a b f, f ∈ g a b → f.line = a) →
      ((enumFrom 1 (pyLines content)).flatMap (fun p => g p.1 p.2)).filter
        (fun f => f.line == i) = g i l := by
    intro g hg
    rw [filter_enumFrom_flatMap g hg (pyLines content) 1 i hi, hget]
  have hsec : (securityIssueFindings content).filter (fun f => f.line == i) =
      securityIssueFindingsLine i l :=
    key (securityIssueFindingsLine) (securityIssueFindingsLine_line)
  refine ⟨hsec, ?_, key _ (matchFindingsLine_line password_patterns),
    key _ (matchFindingsLine_line api_key_patterns),
    key _ (matchFindingsLine_line sensitive_patterns), ?_⟩
  · intro pd hpd
    rw [hsec]
    exact countP_issue_filterMap i l security_issue_patterns pd hpd (by decide)
  · intro pats
    simp [matchFindingsLine]

theorem C9_witness :
    ((pyLines ( "eval( eval( a@b.com c@d.ef\n".toList)).get? (1 - 1) =
      some ( "eval( eval( a@b.com c@d.ef".toList)) ∧ (1 : Nat) ≤ 1 ∧
    (((securityIssueFindings ( "eval( eval( a@b.com c@d.ef\n".toList)).filter
        (fun f => f.line == 1) =
      securityIssueFindingsLine 1 ( "eval( eval( a@b.com c@d.ef".toList)) ∧
    (∀ pd ∈ security_issue_patterns,
      (((securityIssueFindings ( "eval( eval( a@b.com c@d.ef\n".toList)).filter
          (fun f => f.line == 1)).countP (fun f => f.found == pd.2)) =
        if searchLitCI pd.1 ( "eval( eval( a@b.com c@d.ef".toList) then 1 else 0) ∧
    ((passwordFindings ( "eval( eval( a@b.com c@d.ef\n".toList)).filter
        (fun f => f.line == 1) =
      matchFindingsLine password_patterns 1 ( "eval( eval( a@b.com c@d.ef".toList)) ∧
    ((apiKeyFindings ( "eval( eval( a@b.com c@d.ef\n".toList)).filter
        (fun f => f.line == 1) =
      matchFindingsLine api_key_patterns 1 ( "eval( eval( a@b.com c@d.ef".toList)) ∧
    ((sensitiveDataFindings ( "eval( eval( a@b.com c@d.ef\n".toList)).filter
        (fun f => f.line == 1) =
      matchFindingsLine sensitive_patterns 1 ( "eval( eval( a@b.com c@d.ef".toList)) ∧
    (∀ pats : List Matcher,
      (matchFindingsLine pats 1 ( "eval( eval( a@b.com c@d.ef".toList)).length =
      (pats.flatMap (fun m => finditer m ( "eval( eval( a@b.com c@d.ef".toList))).length)) :=
  ⟨by decide, le_refl 1,
    C9_detection_vs_enumeration ( "eval( eval( a@b.com c@d.ef\n".toList) 1
      ( "eval( eval( a@b.com c@d.ef".toList) (by decide) (le_refl 1)⟩

/-- C10: every finding's line number lies between 1 and the metadata line
count, and within each category the findings' line numbers are
nondecreasing (line order, then pattern order within a line). -/
theorem C10_line_invariants (content : Str) :
    (∀ f : Finding,
      (f ∈ passwordFindings content ∨ f ∈ apiKeyFindings content ∨
       f ∈ sensitiveDataFindings content ∨ f ∈ securityIssueFindings content) →
      1 ≤ f.line ∧ f.line ≤ lineCountOf content) ∧
    ((passwordFindings content).map Finding.line).Pairwise (· ≤ ·) ∧
    ((apiKeyFindings content).map Finding.line).Pairwise (· ≤ ·) ∧
    ((sensitiveDataFindings content).map Finding.line).Pairwise (· ≤ ·) ∧
    ((securityIssueFindings content).map Finding.line).Pairwise (· ≤ ·) := by
  have bound : ∀ (g : Nat → Str → List Finding), (∀ a b f, f ∈ g a b → f.line = a) →
      ∀ f, f ∈ (enumFrom 1 (pyLines content)).flatMap (fun p => g p.1 p.2) →
      1 ≤ f.line ∧ f.line ≤ lineCountOf content := by
    intro g hg f hf
    have hb := line_mem_enumFrom_flatMap g hg (pyLines content) 1 f hf
    rw [← pyLines_length_eq content]
    omega
  refine ⟨?_, sorted_enumFrom_flatMap _ (matchFindingsLine_line password_patterns) _ 1,
    sorted_enumFrom_flatMap _ (matchFindingsLine_line api_key_patterns) _ 1,
    sorted_enumFrom_flatMap _ (matchFindingsLine_line sensitive_patterns) _ 1,
    sorted_enumFrom_flatMap _ (securityIssueFindingsLine_line) _ 1⟩
  intro f hf
  rcases hf with hm | hm | hm | hm
  · exact bound _ (matchFindingsLine_line password_patterns) f hm
  · exact bound _ (matchFindingsLine_line api_key_patterns) f hm
  · exact bound _ (matchFindingsLine_line sensitive_patterns) f hm
  · exact bound _ (securityIssueFindingsLine_line) f hm

theorem C10_witness :
    (∀ f : Finding,
      (f ∈ passwordFindings ( "pwd=a\neval(\n".toList) ∨
       f ∈ apiKeyFindings ( "pwd=a\neval(\n".toList) ∨
       f ∈ sensitiveDataFindings ( "pwd=a\neval(\n".toList) ∨
       f ∈ securityIssueFindings ( "pwd=a\neval(\n".toList)) →
      1 ≤ f.line ∧ f.line ≤ lineCountOf ( "pwd=a\neval(\n".toList)) ∧
    ((passwordFindings ( "pwd=a\neval(\n".toList)).map Finding.line).Pairwise (· ≤ ·) ∧
    ((apiKeyFindings ( "pwd=a\neval(\n".toList)).map Finding.line).Pairwise (· ≤ ·) ∧
    ((sensitiveDataFindings ( "pwd=a\neval(\n".toList)).map Finding.line).Pairwise (· ≤ ·) ∧
    ((securityIssueFindings ( "pwd=a\neval(\n".toList)).map Finding.line).Pairwise (· ≤ ·) :=
  C10_line_invariants ( "pwd=a\neval(\n".toList)

/-- C2: for any analysis-type string outside the closed set of five, the
client raises the unknown-type `ValueError` from the registry before any
network request is issued (the request log is empty), for every transport:
it never falls back to a default template. -/
theorem C2_unknown_type_fails_closed (g : Str) (tr : HttpRequest → TransportOutcome)
    (api_key text ty : Str) (fnd : Option JVal) (h : ty ∉ analysisTypes) :
    analyze_with_mistral g tr api_key text ty fnd =
      (.error ⟨ "ValueError".toList, unknownPromptMsg ty⟩, []) := by
  have h1 : ¬( "prompt_injection".toList = ty) :=
    fun e => h (e ▸ (by decide : ( "prompt_injection".toList) ∈ analysisTypes))
  have h2 : ¬( "hallucination".toList = ty) :=
    fun e => h (e ▸ (by decide : ( "hallucination".toList) ∈ analysisTypes))
  have h3 : ¬( "security_analysis".toList = ty) :=
    fun e => h (e ▸ (by decide : ( "security_analysis".toList) ∈ analysisTypes))
  have h4 : ¬( "secure_coding".toList = ty) :=
    fun e => h (e ▸ (by decide : ( "secure_coding".toList) ∈ analysisTypes))
  have h5 : ¬( "compliance".toList = ty) :=
    fun e => h (e ▸ (by decide : ( "compliance".toList) ∈ analysisTypes))
  have hfind : lookupVar promptsDict ty = none := by
    simp only [lookupVar, promptsDict]
    rw [List.find?_cons_of_neg _ (by simpa using h1),
      List.find?_cons_of_neg _ (by simpa using h2),
      List.find?_cons_of_neg _ (by simpa using h3),
      List.find?_cons_of_neg _ (by simpa using h4),
      List.find?_cons_of_neg _ (by simpa using h5), List.find?_nil]
  have hget : get_prompt ty = .error ⟨ "ValueError".toList, unknownPromptMsg ty⟩ := by
    rw [get_prompt, hfind]
    rfl
  have hf : formattedPromptOf g text ty fnd =
      .error ⟨ "ValueError".toList, unknownPromptMsg ty⟩ := by
    simp only [formattedPromptOf, hget]
    rfl
  rw [analyze_with_mistral, hf]

theorem C2_witness :
    (( "bogus".toList) ∉ analysisTypes) ∧
    analyze_with_mistral [] (fun _ => .connError []) [] [] ( "bogus".toList) none =
      (.error ⟨ "ValueError".toList, unknownPromptMsg ( "bogus".toList)⟩, []) :=
  ⟨by decide,
    C2_unknown_type_fails_closed [] (fun _ => .connError []) [] [] ( "bogus".toList)
      none (by decide)⟩

/-- C3: whenever the prompt stage succeeds and the single HTTP request meets
a transport-level failure (unreachable network, timeout, or a 4xx/5xx
response), `analyze_with_mistral` returns — it never raises — a dictionary
of exactly the shape `{error: ..., exception_type: ...}`, and exactly that
one request was issued. -/
theorem C3_transport_failure_shape (g api_key text ty : Str) (fnd : Option JVal)
    (tr : HttpRequest → TransportOutcome) (fp : Str)
    (hfp : formattedPromptOf g text ty fnd = .ok fp)
    (hfail : isTransportFailure (tr ⟨mistralBaseUrl, api_key, mistralPayload fp⟩) = true) :
    ∃ msg ename,
      analyze_with_mistral g tr api_key text ty fnd =
        (.ok (.obj [( "error".toList, .str msg), ( "exception_type".toList, .str ename)]),
         [⟨mistralBaseUrl, api_key, mistralPayload fp⟩]) := by
  have hred : analyze_with_mistral g tr api_key text ty fnd =
      (mistralExceptWrap (mistralTryBody (tr ⟨mistralBaseUrl, api_key, mistralPayload fp⟩)),
       [⟨mistralBaseUrl, api_key, mistralPayload fp⟩]) := by
    rw [analyze_with_mistral, hfp]
  rw [hred]
  cases hout : tr ⟨mistralBaseUrl, api_key, mistralPayload fp⟩ with
  | connError m =>
    exact ⟨ "Mistral API request failed: ".toList ++ m, "ConnectionError".toList, rfl⟩
  | timeoutErr m =>
    exact ⟨ "Mistral API request failed: ".toList ++ m, "Timeout".toList, rfl⟩
  | httpResponse status reason body =>
    rw [hout] at hfail
    simp only [isTransportFailure, Bool.and_eq_true, decide_eq_true_eq] at hfail
    by_cases h4 : status ≤ 499
    · refine ⟨ "Mistral API request failed: ".toList ++
        (natToDigits status ++ " Client Error: ".toList ++ reason ++
          " for url: ".toList ++ mistralBaseUrl), "HTTPError".toList, ?_⟩
      have hrs : raise_for_status status reason =
          .error ⟨ "HTTPError".toList,
            natToDigits status ++ " Client Error: ".toList ++ reason ++
              " for url: ".toList ++ mistralBaseUrl⟩ := by
        rw [raise_for_status, if_pos ⟨hfail.1, h4⟩]
        rfl
      simp only [mistralTryBody, hrs]
      rfl
    · refine ⟨ "Mistral API request failed: ".toList ++
        (natToDigits status ++ " Server Error: ".toList ++ reason ++
          " for url: ".toList ++ mistralBaseUrl), "HTTPError".toList, ?_⟩
      have hrs : raise_for_status status reason =
          .error ⟨ "HTTPError".toList,
            natToDigits status ++ " Server Error: ".toList ++ reason ++
              " for url: ".toList ++ mistralBaseUrl⟩ := by
        rw [raise_for_status, if_neg (by omega), if_pos ⟨by omega, hfail.2⟩]
        rfl
      simp only [mistralTryBody, hrs]
      rfl

set_option maxRecDepth 100000 in
theorem C3_witness :
    (formattedPromptOf [] ( "x".toList) ( "hallucination".toList) none =
      .ok ((formattedPromptOf [] ( "x".toList) ( "hallucination".toList) none).toOption.getD [])) ∧
    (isTransportFailure ((fun _ => TransportOutcome.timeoutErr ( "boom".toList))
      (⟨mistralBaseUrl, "k".toList,
        mistralPayload ((formattedPromptOf [] ( "x".toList) ( "hallucination".toList) none).toOption.getD [])⟩ : HttpRequest)) = true) ∧
    (∃ msg ename,
      analyze_with_mistral [] (fun _ => TransportOutcome.timeoutErr ( "boom".toList))
        ( "k".toList) ( "x".toList) ( "hallucination".toList) none =
        (.ok (.obj [( "error".toList, .str msg), ( "exception_type".toList, .str ename)]),
         [⟨mistralBaseUrl, "k".toList,
           mistralPayload ((formattedPromptOf [] ( "x".toList) ( "hallucination".toList) none).toOption.getD [])⟩])) :=
  ⟨rfl, rfl,
    C3_transport_failure_shape [] ( "k".toList) ( "x".toList) ( "hallucination".toList)
      none (fun _ => TransportOutcome.timeoutErr ( "boom".toList))
      ((formattedPromptOf [] ( "x".toList) ( "hallucination".toList) none).toOption.getD [])
      rfl rfl⟩

/-- C1: for each of the five analysis types, the formatted prompt sent to
the external client is the registry template with the placeholders
interpolated, with the fixed advisor-guidance suffix appended exactly when
guidance is available (nonempty) and the type is one of prompt_injection,
security_analysis, secure_coding — and never for hallucination or
compliance.  The guidance text itself must come from the prompt registry's
`get_security_advisor_guidance` (see its doc comment: modelled from the
spec, as the function is missing from the snapshot). -/
theorem C1_advisor_guidance_suffix (g text : Str) (fnd : Option JVal) (ty : Str)
    (hty : ty ∈ analysisTypes) :
    formattedPromptOf g text ty fnd =
      (pyFormat ((get_prompt ty).toOption.getD []) (promptVarsOf text fnd)).map
        (fun base =>
          if g ≠ [] ∧ (ty = "prompt_injection".toList ∨ ty = "security_analysis".toList ∨
              ty = "secure_coding".toList)
          then base ++ advisorSuffix (get_security_advisor_guidance g) else base) := by
  have main : ∀ tmpl : Str, get_prompt ty = .ok tmpl →
      formattedPromptOf g text ty fnd =
        (pyFormat tmpl (promptVarsOf text fnd)).map
          (fun base =>
            if g ≠ [] ∧ (ty = "prompt_injection".toList ∨ ty = "security_analysis".toList ∨
                ty = "secure_coding".toList)
            then base ++ advisorSuffix (get_security_advisor_guidance g) else base) := by
    intro tmpl hget
    rw [formattedPromptOf]
    rw [hget]
    show (pyFormat tmpl (promptVarsOf text fnd) >>= fun formatted_prompt =>
      if get_security_advisor_guidance g ≠ [] ∧ _ then _ else _) = _
    cases hfmt : pyFormat tmpl (promptVarsOf text fnd) with
    | error e => rfl
    | ok base =>
      show (if g ≠ [] ∧
          (ty = "prompt_injection".toList ∨ ty = "security_analysis".toList ∨
            ty = "secure_coding".toList)
        then pure (base ++ advisorSuffix (get_security_advisor_guidance g))
        else pure base) =
        Except.map (fun base =>
          if g ≠ [] ∧ (ty = "prompt_injection".toList ∨ ty = "security_analysis".toList ∨
              ty = "secure_coding".toList)
          then base ++ advisorSuffix (get_security_advisor_guidance g) else base)
          (Except.ok base)
      by_cases hc : g ≠ [] ∧ (ty = "prompt_injection".toList ∨
          ty = "security_analysis".toList ∨ ty = "secure_coding".toList)
      · rw [if_pos hc]
        show Except.ok (base ++ advisorSuffix (get_security_advisor_guidance g)) = _
        rw [show Except.map (fun base =>
          if g ≠ [] ∧ (ty = "prompt_injection".toList ∨ ty = "security_analysis".toList ∨
              ty = "secure_coding".toList)
          then base ++ advisorSuffix (get_security_advisor_guidance g) else base)
          (Except.ok base) = Except.ok (if g ≠ [] ∧ (ty = "prompt_injection".toList ∨
            ty = "security_analysis".toList ∨ ty = "secure_coding".toList)
          then base ++ advisorSuffix (get_security_advisor_guidance g) else base) from rfl]
        rw [if_pos hc]
      · rw [if_neg hc]
        show Except.ok base = _
        rw [show Except.map (fun base =>
          if g ≠ [] ∧ (ty = "prompt_injection".toList ∨ ty = "security_analysis".toList ∨
              ty = "secure_coding".toList)
          then base ++ advisorSuffix (get_security_advisor_guidance g) else base)
          (Except.ok base) = Except.ok (if g ≠ [] ∧ (ty = "prompt_injection".toList ∨
            ty = "security_analysis".toList ∨ ty = "secure_coding".toList)
          then base ++ advisorSuffix (get_security_advisor_guidance g) else base) from rfl]
        rw [if_neg hc]
  simp only [analysisTypes, List.mem_cons, List.not_mem_nil, or_false] at hty
  rcases hty with h | h | h | h | h
  · subst h; exact main _ rfl
  · subst h; exact main _ rfl
  · subst h; exact main _ rfl
  · subst h; exact main _ rfl
  · subst h; exact main _ rfl

set_option maxRecDepth 100000 in
theorem C1_witness :
    (( "prompt_injection".toList) ∈ analysisTypes) ∧
    formattedPromptOf ( "Be careful.".toList) ( "hi".toList)
        ( "prompt_injection".toList) none =
      (pyFormat ((get_prompt ( "prompt_injection".toList)).toOption.getD [])
          (promptVarsOf ( "hi".toList) none)).map
        (fun base =>
          if ( "Be careful.".toList) ≠ [] ∧
              (( "prompt_injection".toList) = "prompt_injection".toList ∨
               ( "prompt_injection".toList) = "security_analysis".toList ∨
               ( "prompt_injection".toList) = "secure_coding".toList)
          then base ++ advisorSuffix (get_security_advisor_guidance ( "Be careful.".toList))
          else base) :=
  ⟨by decide,
    C1_advisor_guidance_suffix ( "Be careful.".toList) ( "hi".toList) none
      ( "prompt_injection".toList) (by decide)⟩

/-- C8 (code bug): `GET /health` returns `{status: "ok"}` in both versions,
and the handler variant kept under `tests/src` does map remote 401, 429,
other 4xx/5xx, timeouts and network failures to HTTP status codes with
descriptive bodies — but the *served* handler (`src/social_media_backend.py`,
the module `run_server.py` actually runs) has no such mapping: on a remote
401 it propagates the raw `requests.exceptions.HTTPError` from
`raise_for_status`, and transport failures escape as raw exceptions,
contradicting the repository's own tests of this endpoint. -/
theorem C8_served_handler_contradicts_tests :
    health = JVal.obj [( "status".toList, .str ( "ok".toList))] ∧
    (generate_post_tests_variant ⟨ "  k1  ".toList, "p".toList, "m1".toList⟩
      (fun _ => .httpResponse 401 ( "Unauthorized".toList) ( "t".toList)
        (.obj [( "message".toList, .str ( "Invalid API key".toList))])) =
      .httpExc 401 (invalidKeyDetailPre ++ "Invalid API key".toList)) ∧
    (generate_post_tests_variant ⟨ "k".toList, "p".toList, "m1".toList⟩
      (fun _ => .httpResponse 429 ( "Too Many Requests".toList) ( "t".toList) (.obj [])) =
      .httpExc 429 ( "Rate limit exceeded. Please wait a moment and try again.".toList)) ∧
    (generate_post_tests_variant ⟨ "k".toList, "p".toList, "m1".toList⟩
      (fun _ => .httpResponse 500 ( "Internal Server Error".toList) ( "t".toList) (.obj [])) =
      .httpExc 500 ( "Mistral API error: Unknown error".toList)) ∧
    (generate_post_tests_variant ⟨ "k".toList, "p".toList, "m1".toList⟩
      (fun _ => .timeoutErr ( "slow".toList)) = .httpExc 504 timeoutDetail) ∧
    (generate_post_tests_variant ⟨ "k".toList, "p".toList, "m1".toList⟩
      (fun _ => .connError ( "down".toList)) =
      .httpExc 500 ( "Network error: down".toList)) ∧
    (generate_post_served ⟨ "k".toList, "p".toList, "m1".toList⟩
      (.httpResponse 401 ( "Unauthorized".toList) ( "t".toList)
        (.obj [( "message".toList, .str ( "Invalid API key".toList))])) =
      .error ⟨ "HTTPError".toList,
        ( "401 Client Error: Unauthorized for url: https://api.mistral.ai/v1/chat/completions").toList⟩) ∧
    (generate_post_served ⟨ "k".toList, "p".toList, "m1".toList⟩
      (.timeoutErr ( "slow".toList)) = .error ⟨ "Timeout".toList, "slow".toList⟩) :=
  ⟨rfl, rfl, rfl, rfl, rfl, rfl, rfl, rfl⟩

theorem ok_bind {α β : Type} (x : PyResult α) (a : α) (f : α → PyResult β)
    (h : x = .ok a) : (x >>= f) = f a := by
  rw [h]
  rfl

theorem isOk_exists {α : Type} (e : PyResult α) : e.isOk = true ↔ ∃ a, e = .ok a := by
  cases e with
  | ok a => simp [Except.isOk, Except.toBool]
  | error e => simp [Except.isOk, Except.toBool]

theorem isOk_bind_of {α β : Type} {x : PyResult α} {f : α → PyResult β} (a : α)
    (hx : x = .ok a) (hf : (f a).isOk = true) : (x >>= f).isOk = true := by
  rw [hx]
  exact hf

theorem isOk_pure {α : Type} (a : α) : (Except.ok a : PyResult α).isOk = true := rfl

theorem isOk_map {α β : Type} (f : α → β) (x : PyResult α) (h : x.isOk = true) :
    (f <$> x).isOk = true := by
  cases x with
  | ok a => rfl
  | error e => exact absurd h (by simp [Except.isOk, Except.toBool])

theorem pyGetMethod_obj (kvs : List (Str × JVal)) (k : String) (d : JVal) :
    pyGetMethod (.obj kvs) k d = .ok ((jLookup kvs k.toList).getD d) := rfl

theorem pyContains_obj (kvs : List (Str × JVal)) (k : String) :
    pyContains (.obj kvs) k = .ok ((jLookup kvs k.toList).isSome) := rfl

theorem pyGetMethod_ok_of_obj (v : JVal) (h : isObjB v = true) (k : String) (d : JVal) :
    ∃ w, pyGetMethod v k d = .ok w := by
  cases v with
  | obj kvs => exact ⟨_, rfl⟩
  | null => simp [isObjB] at h
  | bool b => simp [isObjB] at h
  | num n => simp [isObjB] at h
  | str s => simp [isObjB] at h
  | arr ys => simp [isObjB] at h

theorem pyFormat2f_ok (v : JVal) (h : isNumOrBoolB v = true) :
    ∃ s, pyFormat2f v = .ok s := by
  cases v with
  | num n => exact ⟨_, rfl⟩
  | bool b => exact ⟨_, rfl⟩
  | null => simp [isNumOrBoolB] at h
  | str s => simp [isNumOrBoolB] at h
  | arr xs => simp [isNumOrBoolB] at h
  | obj kvs => simp [isNumOrBoolB] at h

theorem strsOf_ok (xs : List JVal) (h : xs.all isStrB = true) :
    ∃ ss, xs.mapM (fun x => match x with | JVal.str s => some s | _ => none) = some ss := by
  induction xs with
  | nil => exact ⟨[], rfl⟩
  | cons x xs ih =>
    simp only [List.all_cons, Bool.and_eq_true] at h
    obtain ⟨ss, hss⟩ := ih h.2
    cases x with
    | str s => exact ⟨s :: ss, by rw [List.mapM_cons, hss]; rfl⟩
    | null => simp [isStrB] at h
    | bool b => simp [isStrB] at h
    | num n => simp [isStrB] at h
    | arr ys => simp [isStrB] at h
    | obj kvs => simp [isStrB] at h

theorem pyJoin_ok (sep : String) (v : JVal) (h : isArrOfStrsB v = true) :
    ∃ s, pyJoin sep v = .ok s := by
  cases v with
  | arr xs =>
    obtain ⟨ss, hss⟩ := strsOf_ok xs (by simpa [isArrOfStrsB] using h)
    exact ⟨_, by rw [pyJoin, hss]⟩
  | null => simp [isArrOfStrsB] at h
  | bool b => simp [isArrOfStrsB] at h
  | num n => simp [isArrOfStrsB] at h
  | str s => simp [isArrOfStrsB] at h
  | obj kvs => simp [isArrOfStrsB] at h

theorem pyIter_arr (xs : List JVal) : pyIter (.arr xs) = .ok xs := rfl

theorem pyLen_arr (xs : List JVal) : pyLen (.arr xs) = .ok xs.length := rfl

theorem findingChunksMatch_obj (kvs : List (Str × JVal)) :
    ∃ out, findingChunksMatch (.obj kvs) = .ok out := ⟨_, rfl⟩

theorem findingChunksIssue_obj (kvs : List (Str × JVal)) :
    ∃ out, findingChunksIssue (.obj kvs) = .ok out := ⟨_, rfl⟩

theorem findingChunks_ok_of_obj (style : Bool) (x : JVal) (h : isObjB x = true) :
    ∃ out, (if style then findingChunksIssue x else findingChunksMatch x) = .ok out := by
  cases x with
  | obj kvs =>
    cases style
    · exact findingChunksMatch_obj kvs
    · exact findingChunksIssue_obj kvs
  | null => simp [isObjB] at h
  | bool b => simp [isObjB] at h
  | num n => simp [isObjB] at h
  | str s => simp [isObjB] at h
  | arr ys => simp [isObjB] at h

theorem categorySectionChunks_ok (pa : JVal) (key : String) (hdr : Str) (style : Bool)
    (v : JVal) (hv : pyGetMethod pa key (.arr []) = .ok v) (hva : isArrOfObjsB v = true) :
    ∃ out, categorySectionChunks pa key hdr style = .ok out := by
  rw [categorySectionChunks]
  rw [ok_bind _ _ _ hv]
  cases v with
  | arr xs =>
    cases xs with
    | nil => exact ⟨[], rfl⟩
    | cons x xs =>
      simp only [jTruthy, if_true]
      rw [ok_bind _ _ _ (pyLen_arr (x :: xs)), ok_bind _ _ _ (pyIter_arr (x :: xs))]
      have hall : ∀ y ∈ x :: xs, isObjB y = true := by
        intro y hy
        exact (List.all_eq_true.mp (by simpa [isArrOfObjsB] using hva)) y hy
      obtain ⟨ys, hys⟩ := mapM_ok_exists
        (fun f => if style then findingChunksIssue f else findingChunksMatch f) (x :: xs)
        (fun y hy => findingChunks_ok_of_obj style y (hall y hy))
      rw [ok_bind _ _ _ hys]
      exact ⟨_, rfl⟩
  | null => simp [isArrOfObjsB] at hva
  | bool b => simp [isArrOfObjsB] at hva
  | num n => simp [isArrOfObjsB] at hva
  | str s => simp [isArrOfObjsB] at hva
  | obj kvs => simp [isArrOfObjsB] at hva

theorem lookup_some_of_truthy (kvs : List (Str × JVal)) (k : Str)
    (h : jTruthy ((jLookup kvs k).getD .null) = true) :
    jLookup kvs k = some ((jLookup kvs k).getD .null) := by
  cases hl : jLookup kvs k with
  | some w => rfl
  | none => rw [hl] at h; simp [jTruthy] at h

theorem pyIndexS_obj_some (kvs : List (Str × JVal)) (k : String) (w : JVal)
    (h : jLookup kvs k.toList = some w) : pyIndexS (.obj kvs) k = .ok w := by
  simp only [pyIndexS, h]

theorem optKey_some (kvs : List (Str × JVal)) (k : String) (p : JVal → Bool) (v : JVal)
    (hk : optKey kvs k p = true) (hl : jLookup kvs k.toList = some v) : p v = true := by
  simpa only [optKey, hl] using hk

theorem optKey_getD (kvs : List (Str × JVal)) (k : String) (p : JVal → Bool) (d : JVal)
    (hk : optKey kvs k p = true) (hd : p d = true) :
    p ((jLookup kvs k.toList).getD d) = true := by
  cases hl : jLookup kvs k.toList with
  | none => simpa using hd
  | some w => simpa using optKey_some kvs k p w hk hl

theorem issueListChunks_ok (t : Str) (v : JVal) (h : isArrOfStrsB v = true) :
    ∃ out, issueListChunks t v = .ok out := by
  cases v with
  | arr xs =>
    cases xs with
    | nil => exact ⟨[], rfl⟩
    | cons x xs => exact ⟨_, rfl⟩
  | null => simp [isArrOfStrsB] at h
  | bool b => simp [isArrOfStrsB] at h
  | num n => simp [isArrOfStrsB] at h
  | str s => simp [isArrOfStrsB] at h
  | obj kvs => simp [isArrOfStrsB] at h

theorem pyIter_ok_of_arrStrs (v : JVal) (h : isArrOfStrsB v = true) :
    ∃ xs, pyIter v = .ok xs := by
  cases v with
  | arr xs => exact ⟨xs, rfl⟩
  | null => simp [isArrOfStrsB] at h
  | bool b => simp [isArrOfStrsB] at h
  | num n => simp [isArrOfStrsB] at h
  | str s => simp [isArrOfStrsB] at h
  | obj kvs => simp [isArrOfStrsB] at h

theorem pyLen_ok_of_arrStrs (v : JVal) (h : isArrOfStrsB v = true) :
    ∃ n, pyLen v = .ok n := by
  cases v with
  | arr xs => exact ⟨xs.length, rfl⟩
  | null => simp [isArrOfStrsB] at h
  | bool b => simp [isArrOfStrsB] at h
  | num n => simp [isArrOfStrsB] at h
  | str s => simp [isArrOfStrsB] at h
  | obj kvs => simp [isArrOfStrsB] at h

theorem pyLen_ok_of_arrObjs (v : JVal) (h : isArrOfObjsB v = true) :
    ∃ n, pyLen v = .ok n := by
  cases v with
  | arr xs => exact ⟨xs.length, rfl⟩
  | null => simp [isArrOfObjsB] at h
  | bool b => simp [isArrOfObjsB] at h
  | num n => simp [isArrOfObjsB] at h
  | str s => simp [isArrOfObjsB] at h
  | obj kvs => simp [isArrOfObjsB] at h

theorem pySliceTo3_ok_of_arrStrs (v : JVal) (h : isArrOfStrsB v = true) :
    ∃ w, pySliceTo3 v = .ok w ∧ isArrOfStrsB w = true := by
  cases v with
  | arr xs =>
    refine ⟨.arr (xs.take 3), rfl, ?_⟩
    simp only [isArrOfStrsB, List.all_eq_true] at *
    exact fun x hx => h x (List.mem_of_mem_take hx)
  | null => simp [isArrOfStrsB] at h
  | bool b => simp [isArrOfStrsB] at h
  | num n => simp [isArrOfStrsB] at h
  | str s => simp [isArrOfStrsB] at h
  | obj kvs => simp [isArrOfStrsB] at h

theorem joinLineBlock_ok (kvs : List (Str × JVal)) (key : String) (pre : Str)
    (hk : optKey kvs key isArrOfStrsB = true) :
    (joinLineBlock (.obj kvs) key pre ((jLookup kvs key.toList).getD .null)).isOk = true := by
  rw [joinLineBlock]
  by_cases ht : jTruthy ((jLookup kvs key.toList).getD .null) = true
  · rw [if_pos ht]
    have hsome := lookup_some_of_truthy kvs _ ht
    apply isOk_bind_of _ (pyIndexS_obj_some kvs _ _ hsome)
    obtain ⟨s, hs⟩ := pyJoin_ok ", " _ (optKey_some kvs key _ _ hk hsome)
    apply isOk_bind_of _ hs
    exact isOk_pure _
  · rw [if_neg ht]
    exact isOk_pure _

theorem textBlock_ok (kvs : List (Str × JVal)) (key : String) (pre post : Str) :
    (textBlock (.obj kvs) key pre post ((jLookup kvs key.toList).getD .null)).isOk = true := by
  rw [textBlock]
  by_cases ht : jTruthy ((jLookup kvs key.toList).getD .null) = true
  · rw [if_pos ht]
    apply isOk_bind_of _ (pyIndexS_obj_some kvs _ _ (lookup_some_of_truthy kvs _ ht))
    exact isOk_pure _
  · rw [if_neg ht]
    exact isOk_pure _

theorem joinedListBlock_ok (kvs : List (Str × JVal)) (key : String) (title : Str)
    (hk : optKey kvs key isArrOfStrsB = true) :
    (joinedListBlock (.obj kvs) key title ((jLookup kvs key.toList).getD .null)).isOk = true := by
  rw [joinedListBlock]
  by_cases ht : jTruthy ((jLookup kvs key.toList).getD .null) = true
  · rw [if_pos ht]
    have hsome := lookup_some_of_truthy kvs _ ht
    apply isOk_bind_of _ (pyIndexS_obj_some kvs _ _ hsome)
    obtain ⟨xs, hxs⟩ := pyIter_ok_of_arrStrs _ (optKey_some kvs key _ _ hk hsome)
    apply isOk_bind_of _ hxs
    exact isOk_pure _
  · rw [if_neg ht]
    exact isOk_pure _

theorem bulletListBlock_ok (kvs : List (Str × JVal)) (key : String) (title : Str)
    (hk : optKey kvs key isArrOfStrsB = true) :
    (bulletListBlock (.obj kvs) key title ((jLookup kvs key.toList).getD .null)).isOk = true := by
  rw [bulletListBlock]
  by_cases ht : jTruthy ((jLookup kvs key.toList).getD .null) = true
  · rw [if_pos ht]
    have hsome := lookup_some_of_truthy kvs _ ht
    apply isOk_bind_of _ (pyIndexS_obj_some kvs _ _ hsome)
    obtain ⟨xs, hxs⟩ := pyIter_ok_of_arrStrs _ (optKey_some kvs key _ _ hk hsome)
    apply isOk_bind_of _ hxs
    exact isOk_pure _
  · rw [if_neg ht]
    exact isOk_pure _

theorem piBranchChunks_ok (kvs : List (Str × JVal))
    (hconf : optKey kvs "confidence_score" isNumOrBoolB = true)
    (hlists : ∀ k ∈ mistralListKeys, optKey kvs k isArrOfStrsB = true) :
    (piBranchChunks (.obj kvs)).isOk = true := by
  rw [piBranchChunks]
  apply isOk_bind_of _ (pyGetMethod_obj kvs "prompt_injection_detected" (.bool false))
  apply isOk_bind_of _ (pyGetMethod_obj kvs "confidence_score" (.num 0))
  obtain ⟨cs, hcs⟩ := pyFormat2f_ok _ (optKey_getD kvs "confidence_score" _ (.num 0) hconf rfl)
  apply isOk_bind_of _ hcs
  apply isOk_bind_of _ (pyGetMethod_obj kvs "vulnerabilities_found" .null)
  obtain ⟨c2, hc2⟩ := (isOk_exists _).mp
    (joinLineBlock_ok kvs "vulnerabilities_found" _ (hlists _ (by decide)))
  apply isOk_bind_of _ hc2
  apply isOk_bind_of _ (pyGetMethod_obj kvs "analysis" .null)
  obtain ⟨c3, hc3⟩ := (isOk_exists _).mp (textBlock_ok kvs "analysis" _ _)
  apply isOk_bind_of _ hc3
  apply isOk_bind_of _ (pyGetMethod_obj kvs "recommendations" .null)
  obtain ⟨c4, hc4⟩ := (isOk_exists _).mp
    (joinedListBlock_ok kvs "recommendations" _ (hlists _ (by decide)))
  apply isOk_bind_of _ hc4
  exact isOk_pure _

theorem hallBranchChunks_ok (kvs : List (Str × JVal))
    (hconf : optKey kvs "confidence_score" isNumOrBoolB = true)
    (hlists : ∀ k ∈ mistralListKeys, optKey kvs k isArrOfStrsB = true) :
    (hallBranchChunks (.obj kvs)).isOk = true := by
  rw [hallBranchChunks]
  apply isOk_bind_of _ (pyGetMethod_obj kvs "hallucination_risk_detected" (.bool false))
  apply isOk_bind_of _ (pyGetMethod_obj kvs "confidence_score" (.num 0))
  obtain ⟨cs, hcs⟩ := pyFormat2f_ok _ (optKey_getD kvs "confidence_score" _ (.num 0) hconf rfl)
  apply isOk_bind_of _ hcs
  apply isOk_bind_of _ (pyGetMethod_obj kvs "risk_factors" .null)
  obtain ⟨c2, hc2⟩ := (isOk_exists _).mp
    (joinLineBlock_ok kvs "risk_factors" _ (hlists _ (by decide)))
  apply isOk_bind_of _ hc2
  apply isOk_bind_of _ (pyGetMethod_obj kvs "analysis" .null)
  obtain ⟨c3, hc3⟩ := (isOk_exists _).mp (textBlock_ok kvs "analysis" _ _)
  apply isOk_bind_of _ hc3
  apply isOk_bind_of _ (pyGetMethod_obj kvs "recommendations" .null)
  obtain ⟨c4, hc4⟩ := (isOk_exists _).mp
    (joinedListBlock_ok kvs "recommendations" _ (hlists _ (by decide)))
  apply isOk_bind_of _ hc4
  exact isOk_pure _

theorem scoreBranchChunks_ok (kvs : List (Str × JVal))
    (hscore : optKey kvs "overall_security_score" isNumOrBoolB = true)
    (hlists : ∀ k ∈ mistralListKeys, optKey kvs k isArrOfStrsB = true) :
    (scoreBranchChunks (.obj kvs)).isOk = true := by
  rw [scoreBranchChunks]
  apply isOk_bind_of _ (pyGetMethod_obj kvs "overall_security_score" (.num 0))
  obtain ⟨sS, hsS⟩ := pyFormat2f_ok _ (optKey_getD kvs "overall_security_score" _ (.num 0) hscore rfl)
  apply isOk_bind_of _ hsS
  apply isOk_bind_of _ (pyGetMethod_obj kvs "critical_issues" (.arr []))
  apply isOk_bind_of _ (pyGetMethod_obj kvs "medium_issues" (.arr []))
  apply isOk_bind_of _ (pyGetMethod_obj kvs "low_issues" (.arr []))
  have hcrit := optKey_getD kvs "critical_issues" isArrOfStrsB (.arr [])
    (hlists _ (by decide)) rfl
  have hmed := optKey_getD kvs "medium_issues" isArrOfStrsB (.arr [])
    (hlists _ (by decide)) rfl
  have hlow := optKey_getD kvs "low_issues" isArrOfStrsB (.arr [])
    (hlists _ (by decide)) rfl
  obtain ⟨nc, hnc⟩ := pyLen_ok_of_arrStrs _ hcrit
  apply isOk_bind_of _ hnc
  obtain ⟨nm, hnm⟩ := pyLen_ok_of_arrStrs _ hmed
  apply isOk_bind_of _ hnm
  obtain ⟨nl, hnl⟩ := pyLen_ok_of_arrStrs _ hlow
  apply isOk_bind_of _ hnl
  obtain ⟨c2, hc2⟩ := issueListChunks_ok _ _ hcrit
  apply isOk_bind_of _ hc2
  obtain ⟨c3, hc3⟩ := issueListChunks_ok _ _ hmed
  apply isOk_bind_of _ hc3
  obtain ⟨c4, hc4⟩ := issueListChunks_ok _ _ hlow
  apply isOk_bind_of _ hc4
  apply isOk_bind_of _ (pyGetMethod_obj kvs "detailed_analysis" .null)
  obtain ⟨c5, hc5⟩ := (isOk_exists _).mp (textBlock_ok kvs "detailed_analysis" _ _)
  apply isOk_bind_of _ hc5
  apply isOk_bind_of _ (pyGetMethod_obj kvs "remediation_recommendations" .null)
  obtain ⟨c6, hc6⟩ := (isOk_exists _).mp
    (joinedListBlock_ok kvs "remediation_recommendations" _ (hlists _ (by decide)))
  apply isOk_bind_of _ hc6
  exact isOk_pure _

theorem coding_sub_mistralKeys : ∀ cat ∈ codingCategories, cat ∈ mistralListKeys := by
  decide

theorem codingBranchChunks_ok (kvs : List (Str × JVal))
    (hlists : ∀ k ∈ mistralListKeys, optKey kvs k isArrOfStrsB = true) :
    (codingBranchChunks (.obj kvs)).isOk = true := by
  rw [codingBranchChunks]
  obtain ⟨cs, hcs⟩ := mapM_ok_exists _ codingCategories (fun cat hcat => by
    rw [← isOk_exists]
    apply isOk_bind_of _ (pyGetMethod_obj kvs cat .null)
    exact bulletListBlock_ok kvs cat
      ( "\n**".toList ++ pyTitle (cat.toList.map (fun c => if c = '_' then ' ' else c)) ++
        ":**\n".toList)
      (hlists cat (coding_sub_mistralKeys cat hcat)))
  apply isOk_bind_of _ hcs
  exact isOk_pure _

theorem complianceStdChunks_ok (kvs : List (Str × JVal)) (std : String)
    (hstd : optKey kvs std complianceObjB = true) :
    (complianceStdChunks (.obj kvs) std).isOk = true := by
  rw [complianceStdChunks]
  apply isOk_bind_of _ (pyContains_obj kvs std)
  by_cases hp : (jLookup kvs std.toList).isSome = true
  · rw [if_pos hp]
    obtain ⟨w, hw⟩ := Option.isSome_iff_exists.mp hp
    apply isOk_bind_of _ (pyIndexS_obj_some kvs _ _ hw)
    have hobj : complianceObjB w = true := optKey_some kvs std _ w hstd hw
    cases w with
    | obj ckvs =>
      apply isOk_bind_of _ (pyGetMethod_obj ckvs "compliant" (.bool false))
      apply isOk_bind_of _ (pyGetMethod_obj ckvs "issues" .null)
      have hiss : optKey ckvs "issues" isArrOfStrsB = true := by
        simpa [complianceObjB] using hobj
      obtain ⟨c2, hc2⟩ := (isOk_exists _).mp (bulletListBlock_ok ckvs "issues" _ hiss)
      apply isOk_bind_of _ hc2
      exact isOk_pure _
    | null => simp [complianceObjB] at hobj
    | bool b => simp [complianceObjB] at hobj
    | num n => simp [complianceObjB] at hobj
    | str s => simp [complianceObjB] at hobj
    | arr ys => simp [complianceObjB] at hobj
  · rw [if_neg hp]
    exact isOk_pure _

theorem complianceBranchChunks_ok (kvs : List (Str × JVal))
    (hstds : ∀ s ∈ complianceStandards, optKey kvs s complianceObjB = true)
    (hlists : ∀ k ∈ mistralListKeys, optKey kvs k isArrOfStrsB = true) :
    (complianceBranchChunks (.obj kvs)).isOk = true := by
  rw [complianceBranchChunks]
  obtain ⟨cs, hcs⟩ := mapM_ok_exists _ complianceStandards (fun std hstd =>
    (isOk_exists _).mp (complianceStdChunks_ok kvs std (hstds std hstd)))
  apply isOk_bind_of _ hcs
  apply isOk_bind_of _ (pyGetMethod_obj kvs "owasp_top_10_violations" .null)
  obtain ⟨c3, hc3⟩ := (isOk_exists _).mp
    (bulletListBlock_ok kvs "owasp_top_10_violations" _ (hlists _ (by decide)))
  apply isOk_bind_of _ hc3
  apply isOk_bind_of _ (pyGetMethod_obj kvs "compliance_recommendations" .null)
  obtain ⟨c4, hc4⟩ := (isOk_exists _).mp
    (bulletListBlock_ok kvs "compliance_recommendations" _ (hlists _ (by decide)))
  apply isOk_bind_of _ hc4
  exact isOk_pure _

theorem mistralWellTyped_parts (kvs : List (Str × JVal))
    (h : mistralWellTypedB (.obj kvs) = true) :
    optKey kvs "confidence_score" isNumOrBoolB = true ∧
    optKey kvs "overall_security_score" isNumOrBoolB = true ∧
    (∀ k ∈ mistralListKeys, optKey kvs k isArrOfStrsB = true) ∧
    (∀ s ∈ complianceStandards, optKey kvs s complianceObjB = true) := by
  simp only [mistralWellTypedB, Bool.and_eq_true, List.all_eq_true] at h
  exact ⟨h.1.1.1, h.1.1.2, h.1.2, h.2⟩

theorem mistralSectionChunks_ok (kvs : List (Str × JVal))
    (h : mistralWellTypedB (.obj kvs) = true) :
    (mistralSectionChunks (.obj kvs)).isOk = true := by
  obtain ⟨hconf, hscore, hlists, hstds⟩ := mistralWellTyped_parts kvs h
  rw [mistralSectionChunks]
  apply isOk_bind_of _ (pyContains_obj kvs "prompt_injection_detected")
  by_cases h1 : (jLookup kvs ( "prompt_injection_detected".toList)).isSome = true
  · rw [if_pos h1]
    exact piBranchChunks_ok kvs hconf hlists
  · rw [if_neg h1]
    apply isOk_bind_of _ (pyContains_obj kvs "hallucination_risk_detected")
    by_cases h2 : (jLookup kvs ( "hallucination_risk_detected".toList)).isSome = true
    · rw [if_pos h2]
      exact hallBranchChunks_ok kvs hconf hlists
    · rw [if_neg h2]
      apply isOk_bind_of _ (pyContains_obj kvs "overall_security_score")
      by_cases h3 : (jLookup kvs ( "overall_security_score".toList)).isSome = true
      · rw [if_pos h3]
        exact scoreBranchChunks_ok kvs hscore hlists
      · rw [if_neg h3]
        apply isOk_bind_of _ (pyContains_obj kvs "immediate_actions")
        by_cases h4 : (jLookup kvs ( "immediate_actions".toList)).isSome = true
        · rw [if_pos h4]
          exact codingBranchChunks_ok kvs hlists
        · rw [if_neg h4]
          apply isOk_bind_of _ (pyContains_obj kvs "gdpr_compliance")
          apply isOk_bind_of _ (pyContains_obj kvs "pci_dss_compliance")
          apply isOk_bind_of _ (pyContains_obj kvs "hipaa_compliance")
          by_cases h5 : ((jLookup kvs ( "gdpr_compliance".toList)).isSome ||
              (jLookup kvs ( "pci_dss_compliance".toList)).isSome ||
              (jLookup kvs ( "hipaa_compliance".toList)).isSome) = true
          · rw [if_pos h5]
            exact complianceBranchChunks_ok kvs hstds hlists
          · rw [if_neg h5]
            exact isOk_pure _

theorem patternTotalE_ok (pkvs : List (Str × JVal))
    (h : patternAnalysisWellTypedB (.obj pkvs) = true) :
    (patternTotalE (.obj pkvs)).isOk = true := by
  simp only [patternAnalysisWellTypedB, Bool.and_eq_true] at h
  obtain ⟨⟨⟨hpw, hak⟩, hsd⟩, hsi⟩ := h
  rw [patternTotalE]
  by_cases ht : jTruthy (JVal.obj pkvs) = true
  · rw [if_pos ht]
    apply isOk_bind_of _ (pyGetMethod_obj pkvs "passwords" (.arr []))
    obtain ⟨na, hna⟩ := pyLen_ok_of_arrObjs _
      (optKey_getD pkvs "passwords" _ (.arr []) hpw rfl)
    apply isOk_bind_of _ hna
    apply isOk_bind_of _ (pyGetMethod_obj pkvs "api_keys" (.arr []))
    obtain ⟨nb, hnb⟩ := pyLen_ok_of_arrObjs _
      (optKey_getD pkvs "api_keys" _ (.arr []) hak rfl)
    apply isOk_bind_of _ hnb
    apply isOk_bind_of _ (pyGetMethod_obj pkvs "sensitive_data" (.arr []))
    obtain ⟨nc, hnc⟩ := pyLen_ok_of_arrObjs _
      (optKey_getD pkvs "sensitive_data" _ (.arr []) hsd rfl)
    apply isOk_bind_of _ hnc
    apply isOk_bind_of _ (pyGetMethod_obj pkvs "security_issues" (.arr []))
    obtain ⟨nd, hnd⟩ := pyLen_ok_of_arrObjs _
      (optKey_getD pkvs "security_issues" _ (.arr []) hsi rfl)
    apply isOk_bind_of _ hnd
    exact isOk_pure _
  · rw [if_neg ht]
    exact isOk_pure _

theorem summaryBreakdownChunks_ok (pkvs : List (Str × JVal))
    (h : patternAnalysisWellTypedB (.obj pkvs) = true) :
    (summaryBreakdownChunks (.obj pkvs)).isOk = true := by
  simp only [patternAnalysisWellTypedB, Bool.and_eq_true] at h
  obtain ⟨⟨⟨hpw, hak⟩, hsd⟩, hsi⟩ := h
  rw [summaryBreakdownChunks]
  by_cases ht : jTruthy (JVal.obj pkvs) = true
  · rw [if_pos ht]
    apply isOk_bind_of _ (pyGetMethod_obj pkvs "passwords" (.arr []))
    obtain ⟨na, hna⟩ := pyLen_ok_of_arrObjs _
      (optKey_getD pkvs "passwords" _ (.arr []) hpw rfl)
    apply isOk_bind_of _ hna
    apply isOk_bind_of _ (pyGetMethod_obj pkvs "api_keys" (.arr []))
    obtain ⟨nb, hnb⟩ := pyLen_ok_of_arrObjs _
      (optKey_getD pkvs "api_keys" _ (.arr []) hak rfl)
    apply isOk_bind_of _ hnb
    apply isOk_bind_of _ (pyGetMethod_obj pkvs "sensitive_data" (.arr []))
    obtain ⟨nc, hnc⟩ := pyLen_ok_of_arrObjs _
      (optKey_getD pkvs "sensitive_data" _ (.arr []) hsd rfl)
    apply isOk_bind_of _ hnc
    apply isOk_bind_of _ (pyGetMethod_obj pkvs "security_issues" (.arr []))
    obtain ⟨nd, hnd⟩ := pyLen_ok_of_arrObjs _
      (optKey_getD pkvs "security_issues" _ (.arr []) hsi rfl)
    apply isOk_bind_of _ hnd
    exact isOk_pure _
  · rw [if_neg ht]
    exact isOk_pure _

theorem summaryMistralSub_ok (kvs : List (Str × JVal))
    (h : mistralWellTypedB (.obj kvs) = true) :
    (summaryMistralSub (.obj kvs)).isOk = true := by
  obtain ⟨hconf, hscore, hlists, hstds⟩ := mistralWellTyped_parts kvs h
  rw [summaryMistralSub]
  apply isOk_bind_of _ (pyContains_obj kvs "overall_security_score")
  by_cases h1 : (jLookup kvs ( "overall_security_score".toList)).isSome = true
  · rw [if_pos h1]
    obtain ⟨w, hw⟩ := Option.isSome_iff_exists.mp h1
    apply isOk_bind_of _ (pyIndexS_obj_some kvs _ _ hw)
    obtain ⟨sS, hsS⟩ := pyFormat2f_ok _ (optKey_some kvs "overall_security_score" _ _ hscore hw)
    apply isOk_bind_of _ hsS
    apply isOk_bind_of _ (pyGetMethod_obj kvs "critical_issues" (.arr []))
    obtain ⟨ncr, hncr⟩ := pyLen_ok_of_arrStrs _
      (optKey_getD kvs "critical_issues" _ (.arr []) (hlists _ (by decide)) rfl)
    apply isOk_bind_of _ hncr
    apply isOk_bind_of _ (pyGetMethod_obj kvs "medium_issues" (.arr []))
    obtain ⟨nme, hnme⟩ := pyLen_ok_of_arrStrs _
      (optKey_getD kvs "medium_issues" _ (.arr []) (hlists _ (by decide)) rfl)
    apply isOk_bind_of _ hnme
    apply isOk_bind_of _ (pyGetMethod_obj kvs "low_issues" (.arr []))
    obtain ⟨nlo, hnlo⟩ := pyLen_ok_of_arrStrs _
      (optKey_getD kvs "low_issues" _ (.arr []) (hlists _ (by decide)) rfl)
    apply isOk_bind_of _ hnlo
    exact isOk_pure _
  · rw [if_neg h1]
    apply isOk_bind_of _ (pyContains_obj kvs "prompt_injection_detected")
    by_cases h2 : (jLookup kvs ( "prompt_injection_detected".toList)).isSome = true
    · rw [if_pos h2]
      obtain ⟨w, hw⟩ := Option.isSome_iff_exists.mp h2
      apply isOk_bind_of _ (pyIndexS_obj_some kvs _ _ hw)
      apply isOk_bind_of _ (pyGetMethod_obj kvs "confidence_score" (.num 0))
      obtain ⟨cS, hcS⟩ := pyFormat2f_ok _
        (optKey_getD kvs "confidence_score" _ (.num 0) hconf rfl)
      apply isOk_bind_of _ hcS
      exact isOk_pure _
    · rw [if_neg h2]
      apply isOk_bind_of _ (pyContains_obj kvs "hallucination_risk_detected")
      by_cases h3 : (jLookup kvs ( "hallucination_risk_detected".toList)).isSome = true
      · rw [if_pos h3]
        obtain ⟨w, hw⟩ := Option.isSome_iff_exists.mp h3
        apply isOk_bind_of _ (pyIndexS_obj_some kvs _ _ hw)
        apply isOk_bind_of _ (pyGetMethod_obj kvs "confidence_score" (.num 0))
        obtain ⟨cS, hcS⟩ := pyFormat2f_ok _
          (optKey_getD kvs "confidence_score" _ (.num 0) hconf rfl)
        apply isOk_bind_of _ hcS
        exact isOk_pure _
      · rw [if_neg h3]
        exact isOk_pure _

theorem summaryMistralChunks_ok (m : JVal) (h : mistralWellTypedB m = true) :
    (summaryMistralChunks m).isOk = true := by
  cases m with
  | obj kvs =>
    rw [summaryMistralChunks]
    by_cases ht : jTruthy (JVal.obj kvs) = true
    · rw [if_pos ht]
      obtain ⟨sub, hsub⟩ := (isOk_exists _).mp (summaryMistralSub_ok kvs h)
      apply isOk_bind_of _ hsub
      exact isOk_pure _
    · rw [if_neg ht]
      exact isOk_pure _
  | null => simp [mistralWellTypedB] at h
  | bool b => simp [mistralWellTypedB] at h
  | num n => simp [mistralWellTypedB] at h
  | str s => simp [mistralWellTypedB] at h
  | arr ys => simp [mistralWellTypedB] at h

theorem summaryChunks_ok (pt : Nat) (pkvs : List (Str × JVal)) (m : JVal)
    (hpa : patternAnalysisWellTypedB (.obj pkvs) = true)
    (hm : mistralWellTypedB m = true) :
    (summaryChunks pt (.obj pkvs) m).isOk = true := by
  rw [summaryChunks]
  obtain ⟨c1, hc1⟩ := (isOk_exists _).mp (summaryBreakdownChunks_ok pkvs hpa)
  apply isOk_bind_of _ hc1
  obtain ⟨c2, hc2⟩ := (isOk_exists _).mp (summaryMistralChunks_ok m hm)
  apply isOk_bind_of _ hc2
  exact isOk_pure _

theorem finalChunks_ok (pt : Nat) (m : JVal) (hm : mistralWellTypedB m = true) :
    (finalChunks pt m).isOk = true := by
  cases m with
  | obj kvs =>
    obtain ⟨hconf, hscore, hlists, hstds⟩ := mistralWellTyped_parts kvs hm
    rw [finalChunks]
    by_cases h0 : 0 < pt + (if jTruthy (JVal.obj kvs) = true then 1 else 0)
    · rw [if_pos h0]
      by_cases hmt : jTruthy (JVal.obj kvs) = true
      · have hrr : hasRemRecsE (.obj kvs) =
            .ok ((jLookup kvs ( "remediation_recommendations".toList)).isSome) := by
          rw [hasRemRecsE, if_pos hmt]
          rfl
        apply isOk_bind_of _ hrr
        by_cases hs : (jLookup kvs ( "remediation_recommendations".toList)).isSome = true
        · rw [if_pos hs]
          obtain ⟨rl, hrl⟩ := Option.isSome_iff_exists.mp hs
          apply isOk_bind_of _ (pyIndexS_obj_some kvs _ _ hrl)
          have hrla : isArrOfStrsB rl = true :=
            optKey_some kvs "remediation_recommendations" _ rl (hlists _ (by decide)) hrl
          obtain ⟨w, hw, hwa⟩ := pySliceTo3_ok_of_arrStrs rl hrla
          apply isOk_bind_of _ hw
          obtain ⟨items, hitems⟩ := pyIter_ok_of_arrStrs w hwa
          apply isOk_bind_of _ hitems
          exact isOk_pure _
        · rw [if_neg hs]
          exact isOk_pure _
      · have hrr : hasRemRecsE (.obj kvs) = .ok false := by
          rw [hasRemRecsE, if_neg hmt]
          rfl
        apply isOk_bind_of _ hrr
        exact isOk_pure _
    · rw [if_neg h0]
      exact isOk_pure _
  | null => simp [mistralWellTypedB] at hm
  | bool b => simp [mistralWellTypedB] at hm
  | num n => simp [mistralWellTypedB] at hm
  | str s => simp [mistralWellTypedB] at hm
  | arr ys => simp [mistralWellTypedB] at hm

theorem patternSectionChunks_ok (pkvs : List (Str × JVal))
    (h : patternAnalysisWellTypedB (.obj pkvs) = true) :
    (patternSectionChunks (.obj pkvs)).isOk = true := by
  simp only [patternAnalysisWellTypedB, Bool.and_eq_true] at h
  obtain ⟨⟨⟨hpw, hak⟩, hsd⟩, hsi⟩ := h
  rw [patternSectionChunks]
  by_cases ht : jTruthy (JVal.obj pkvs) = true
  · rw [if_pos ht]
    obtain ⟨pw, hpwc⟩ := categorySectionChunks_ok (.obj pkvs) "passwords" pwHeader false _
      (pyGetMethod_obj pkvs "passwords" (.arr []))
      (optKey_getD pkvs "passwords" _ (.arr []) hpw rfl)
    apply isOk_bind_of _ hpwc
    obtain ⟨ak, hakc⟩ := categorySectionChunks_ok (.obj pkvs) "api_keys" akHeader false _
      (pyGetMethod_obj pkvs "api_keys" (.arr []))
      (optKey_getD pkvs "api_keys" _ (.arr []) hak rfl)
    apply isOk_bind_of _ hakc
    obtain ⟨sd, hsdc⟩ := categorySectionChunks_ok (.obj pkvs) "sensitive_data" sdHeader false _
      (pyGetMethod_obj pkvs "sensitive_data" (.arr []))
      (optKey_getD pkvs "sensitive_data" _ (.arr []) hsd rfl)
    apply isOk_bind_of _ hsdc
    obtain ⟨si, hsic⟩ := categorySectionChunks_ok (.obj pkvs) "security_issues" siHeader true _
      (pyGetMethod_obj pkvs "security_issues" (.arr []))
      (optKey_getD pkvs "security_issues" _ (.arr []) hsi rfl)
    apply isOk_bind_of _ hsic
    exact isOk_pure _
  · rw [if_neg ht]
    exact isOk_pure _

theorem mistralSectionWrap_ok (m : JVal) (hm : mistralWellTypedB m = true) :
    (mistralSectionWrap m).isOk = true := by
  cases m with
  | obj kvs =>
    rw [mistralSectionWrap]
    by_cases ht : jTruthy (JVal.obj kvs) = true
    · rw [if_pos ht]
      obtain ⟨body, hbody⟩ := (isOk_exists _).mp (mistralSectionChunks_ok kvs hm)
      apply isOk_bind_of _ hbody
      exact isOk_pure _
    · rw [if_neg ht]
      exact isOk_pure _
  | null => simp [mistralWellTypedB] at hm
  | bool b => simp [mistralWellTypedB] at hm
  | num n => simp [mistralWellTypedB] at hm
  | str s => simp [mistralWellTypedB] at hm
  | arr ys => simp [mistralWellTypedB] at hm

theorem objB_exists (v : JVal) (h : isObjB v = true) : ∃ kvs, v = .obj kvs := by
  cases v with
  | obj kvs => exact ⟨kvs, rfl⟩
  | null => simp [isObjB] at h
  | bool b => simp [isObjB] at h
  | num n => simp [isObjB] at h
  | str s => simp [isObjB] at h
  | arr ys => simp [isObjB] at h

theorem reportChunks_ok (date : Str) (fkvs : List (Str × JVal))
    (h : wellTypedFindingsB (.obj fkvs) = true) :
    (reportChunks date (.obj fkvs)).isOk = true := by
  simp only [wellTypedFindingsB, Bool.and_eq_true] at h
  obtain ⟨⟨hmd, hpa⟩, hma⟩ := h
  rw [reportChunks]
  apply isOk_bind_of _ (pyGetMethod_obj fkvs "metadata" (.obj []))
  have hmdo : isObjB ((jLookup fkvs ( "metadata".toList)).getD (.obj [])) = true :=
    optKey_getD fkvs "metadata" _ (.obj []) hmd rfl
  obtain ⟨cl, hcl⟩ := pyGetMethod_ok_of_obj _ hmdo "content_length" (.num 0)
  apply isOk_bind_of _ hcl
  obtain ⟨lc, hlc⟩ := pyGetMethod_ok_of_obj _ hmdo "line_count" (.num 0)
  apply isOk_bind_of _ hlc
  apply isOk_bind_of _ (pyGetMethod_obj fkvs "pattern_analysis" (.obj []))
  have hpaw : patternAnalysisWellTypedB ((jLookup fkvs ( "pattern_analysis".toList)).getD
      (.obj [])) = true :=
    optKey_getD fkvs "pattern_analysis" _ (.obj []) hpa rfl
  have hpao : isObjB ((jLookup fkvs ( "pattern_analysis".toList)).getD (.obj [])) = true := by
    cases hv : (jLookup fkvs ( "pattern_analysis".toList)).getD (.obj []) with
    | obj o => rfl
    | null => rw [hv] at hpaw; simp [patternAnalysisWellTypedB] at hpaw
    | bool b => rw [hv] at hpaw; simp [patternAnalysisWellTypedB] at hpaw
    | num n => rw [hv] at hpaw; simp [patternAnalysisWellTypedB] at hpaw
    | str s => rw [hv] at hpaw; simp [patternAnalysisWellTypedB] at hpaw
    | arr ys => rw [hv] at hpaw; simp [patternAnalysisWellTypedB] at hpaw
  obtain ⟨pkvs, hpkvs⟩ := objB_exists _ hpao
  rw [hpkvs] at hpaw ⊢
  obtain ⟨patCs, hpatCs⟩ := (isOk_exists _).mp (patternSectionChunks_ok pkvs hpaw)
  apply isOk_bind_of _ hpatCs
  apply isOk_bind_of _ (pyGetMethod_obj fkvs "mistral_analysis" (.obj []))
  have hmaw : mistralWellTypedB ((jLookup fkvs ( "mistral_analysis".toList)).getD
      (.obj [])) = true :=
    optKey_getD fkvs "mistral_analysis" _ (.obj []) hma (by decide)
  obtain ⟨misCs, hmisCs⟩ := (isOk_exists _).mp (mistralSectionWrap_ok _ hmaw)
  apply isOk_bind_of _ hmisCs
  obtain ⟨pt, hpt⟩ := (isOk_exists _).mp (patternTotalE_ok pkvs hpaw)
  apply isOk_bind_of _ hpt
  obtain ⟨sumCs, hsumCs⟩ := (isOk_exists _).mp (summaryChunks_ok pt pkvs _ hpaw hmaw)
  apply isOk_bind_of _ hsumCs
  obtain ⟨finCs, hfinCs⟩ := (isOk_exists _).mp (finalChunks_ok pt _ hmaw)
  apply isOk_bind_of _ hfinCs
  exact isOk_pure _

/-- C7: for every findings dictionary given to the report renderer in which
any of the expected keys (metadata fields, category lists, analysis fields)
may be absent — keys that are present carrying values of the shapes the
pipeline stores under them — rendering raises no exception:
`_generate_report_content` returns `.ok`, the missing keys having been
replaced by the `.get` default values. -/
theorem C7_malformed_findings_no_raise (date : Str) (findings : JVal)
    (h : wellTypedFindingsB findings = true) :
    (_generate_report_content date findings).isOk = true := by
  cases findings with
  | obj fkvs =>
    rw [_generate_report_content]
    exact isOk_map _ _ (reportChunks_ok date fkvs h)
  | null => simp [wellTypedFindingsB] at h
  | bool b => simp [wellTypedFindingsB] at h
  | num n => simp [wellTypedFindingsB] at h
  | str s => simp [wellTypedFindingsB] at h
  | arr ys => simp [wellTypedFindingsB] at h

/-- Witness for C7: a concrete malformed findings dictionary (a finding object
with every key absent, and an unrecognised external-analysis payload) renders
without raising. -/
theorem C7_witness :
    wellTypedFindingsB C7wit = true ∧
    (_generate_report_content ( "D".toList) C7wit).isOk = true :=
  ⟨by decide, C7_malformed_findings_no_raise ( "D".toList) C7wit (by decide)⟩

theorem map_ok_inv {α β : Type} (f : α → β) (x : PyResult α) (s : β)
    (h : (f <$> x) = .ok s) : ∃ a, x = .ok a ∧ s = f a := by
  cases x with
  | ok a =>
    refine ⟨a, rfl, ?_⟩
    have : (Except.ok (f a) : PyResult β) = .ok s := h
    exact (Except.ok.injEq _ _).mp this.symm
  | error e => exact absurd h (by simp [Functor.map, Except.map])

theorem lastLine_line (x : Str) (h : noLB x = true) : lastLineOf (x ++ ['\n']) = x := by
  rw [lastLineOf, splitlines_single x h]
  rfl

theorem noIssuesLine_eq : noIssuesLine = '\n' :: (noIssuesVerdict ++ ['\n']) := by decide

theorem warnLine_eq : warnLine = '\n' :: (warnNotice ++ ['\n']) := by decide

theorem topRemLine_eq : topRemLine = topRemBody ++ ['\n'] := by decide

theorem noLB_verdict : noLB noIssuesVerdict = true := by decide

theorem noLB_warn : noLB warnNotice = true := by decide

theorem noLB_topRem : noLB topRemBody = true := by decide

theorem lastLine_items (items : List JVal) :
    items ≠ [] → (∀ r ∈ items, noLB (pyStrV r) = true) →
    ∀ a : Str, ∃ r ∈ items,
      lastLineOf (a ++ '\n' ::
        (items.map (fun r => "- ".toList ++ pyStrV r ++ "\n".toList)).flatten) =
      "- ".toList ++ pyStrV r := by
  induction items with
  | nil => intro hne; cases hne rfl
  | cons r rest ih =>
    intro _ hall a
    cases rest with
    | nil =>
      refine ⟨r, List.mem_cons_self r [], ?_⟩
      have hnl : noLB ( "- ".toList ++ pyStrV r) = true := by
        have hr := hall r (List.mem_cons_self r [])
        simp only [noLB, List.all_append, Bool.and_eq_true]
        exact ⟨by decide, hr⟩
      have hshape : (([r].map (fun r => "- ".toList ++ pyStrV r ++ "\n".toList)).flatten : Str)
          = ( "- ".toList ++ pyStrV r) ++ ['\n'] := by
        simp [List.append_assoc]
      rw [hshape, lastLine_after_nl a _ (by simp), lastLine_line _ hnl]
    | cons r2 rest2 =>
      obtain ⟨rr, hrrmem, hrr⟩ := ih (by simp)
        (fun x hx => hall x (List.mem_cons_of_mem r hx))
        (a ++ '\n' :: ( "- ".toList ++ pyStrV r))
      refine ⟨rr, List.mem_cons_of_mem r hrrmem, ?_⟩
      have hshape :
          (a ++ '\n' ::
            (((r :: r2 :: rest2).map (fun r => "- ".toList ++ pyStrV r ++ "\n".toList)).flatten))
          = ((a ++ '\n' :: ( "- ".toList ++ pyStrV r)) ++ '\n' ::
              (((r2 :: rest2).map (fun r => "- ".toList ++ pyStrV r ++ "\n".toList)).flatten)) := by
        simp [List.append_assoc]
      rw [hshape]
      exact hrr

theorem cond_equiv (pt : Nat) (m : JVal) :
    (decide (pt = 0) && !jTruthy m) = true ↔
      ¬ 0 < pt + (if jTruthy m then 1 else 0) := by
  cases hjt : jTruthy m
  · simp
  · simp

theorem warn_mem_of (A rest : Str) :
    warnNotice ∈ splitlinesL (A ++ '\n' :: (warnNotice ++ '\n' :: rest)) := by
  rw [splitlines_append_nl]
  have h2 : splitlinesL (warnNotice ++ '\n' :: rest)
      = splitlinesL (warnNotice ++ ['\n']) ++ splitlinesL rest := splitlines_append_nl _ _
  rw [h2, splitlines_single _ noLB_warn]
  simp

theorem dash_ne_verdict (r : JVal) : ( "- ".toList ++ pyStrV r) ≠ noIssuesVerdict := by
  show ('-' :: ' ' :: pyStrV r) ≠ noIssuesVerdict
  rw [show noIssuesVerdict = '✅' :: ( " **No security issues detected.**".toList) from by decide]
  intro h
  injection h with h1 _
  exact absurd h1 (by decide)

theorem C5_case_noIssues (pre : List Str) :
    lastLineOf ((pre ++ [noIssuesLine]).flatten) = noIssuesVerdict := by
  rw [List.flatten_append]
  have h1 : ([noIssuesLine].flatten : Str) = '\n' :: (noIssuesVerdict ++ ['\n']) := by
    simp [noIssuesLine_eq]
  rw [h1, lastLine_after_nl _ _ (by simp), lastLine_line _ noLB_verdict]

theorem C5_case_warnOnly (pre : List Str) :
    lastLineOf ((pre ++ [warnLine]).flatten) = warnNotice ∧
    warnNotice ∈ splitlinesL ((pre ++ [warnLine]).flatten) := by
  rw [List.flatten_append]
  have h1 : ([warnLine].flatten : Str) = '\n' :: (warnNotice ++ '\n' :: []) := by
    simp [warnLine_eq]
  rw [h1]
  constructor
  · rw [lastLine_after_nl _ _ (by simp)]
    exact lastLine_line _ noLB_warn
  · exact warn_mem_of _ []

theorem C5_case_recs (pre : List Str) (items : List JVal)
    (hall : ∀ r ∈ items, noLB (pyStrV r) = true) :
    lastLineOf ((pre ++ (warnLine :: topRemLine ::
        items.map (fun r => "- ".toList ++ pyStrV r ++ "\n".toList))).flatten)
      ≠ noIssuesVerdict ∧
    warnNotice ∈ splitlinesL ((pre ++ (warnLine :: topRemLine ::
        items.map (fun r => "- ".toList ++ pyStrV r ++ "\n".toList))).flatten) := by
  rw [List.flatten_append]
  have h1 : ((warnLine :: topRemLine ::
      items.map (fun r => "- ".toList ++ pyStrV r ++ "\n".toList)).flatten : Str)
      = '\n' :: (warnNotice ++ '\n' :: (topRemBody ++ '\n' ::
          (items.map (fun r => "- ".toList ++ pyStrV r ++ "\n".toList)).flatten)) := by
    simp [warnLine_eq, topRemLine_eq, List.append_assoc]
  rw [h1]
  refine ⟨?_, warn_mem_of _ _⟩
  by_cases hne : items = []
  · subst hne
    simp only [List.map_nil, List.flatten_nil]
    rw [lastLine_after_nl _ _ (by simp), lastLine_after_nl _ _ (by simp),
      lastLine_line _ noLB_topRem]
    decide
  · obtain ⟨r, hrmem, hlastr⟩ := lastLine_items items hne hall
      (pre.flatten ++ '\n' :: (warnNotice ++ '\n' :: topRemBody))
    have hsh2 : (pre.flatten ++ '\n' :: (warnNotice ++ '\n' :: (topRemBody ++ '\n' ::
          (items.map (fun r => "- ".toList ++ pyStrV r ++ "\n".toList)).flatten)))
        = ((pre.flatten ++ '\n' :: (warnNotice ++ '\n' :: topRemBody)) ++ '\n' ::
          (items.map (fun r => "- ".toList ++ pyStrV r ++ "\n".toList)).flatten) := by
      simp [List.append_assoc]
    rw [hsh2, hlastr]
    exact dash_ne_verdict r

/-- C5 (amended): if every remediation recommendation printed by the final
block renders as a single Markdown line, then the rendered report's final
line is the no-issues verdict exactly when the total pattern-finding count is
zero and the external-analysis result is absent (falsy), and otherwise the
report contains the review-recommended notice as one of its lines. -/
theorem C5_final_verdict (date : Str) (findings : JVal) (s : Str)
    (hok : _generate_report_content date findings = .ok s)
    (hsingle : singleLineRecsB findings = true) :
    (lastLineOf s = noIssuesVerdict ↔ reportNoIssuesCond findings = true) ∧
    (reportNoIssuesCond findings = false → warnNotice ∈ splitlinesL s) := by
  rw [_generate_report_content] at hok
  obtain ⟨cs, hrc, hs⟩ := map_ok_inv _ _ _ hok
  rw [reportChunks] at hrc
  obtain ⟨metadata, hmdv, hrc⟩ := bind_ok_inv _ _ _ hrc
  obtain ⟨cl, hclv, hrc⟩ := bind_ok_inv _ _ _ hrc
  obtain ⟨lc, hlcv, hrc⟩ := bind_ok_inv _ _ _ hrc
  obtain ⟨pa, hpav, hrc⟩ := bind_ok_inv _ _ _ hrc
  obtain ⟨patCs, hpatv, hrc⟩ := bind_ok_inv _ _ _ hrc
  obtain ⟨m, hmv, hrc⟩ := bind_ok_inv _ _ _ hrc
  obtain ⟨misCs, hmisv, hrc⟩ := bind_ok_inv _ _ _ hrc
  obtain ⟨pt, hptv, hrc⟩ := bind_ok_inv _ _ _ hrc
  obtain ⟨sumCs, hsumv, hrc⟩ := bind_ok_inv _ _ _ hrc
  obtain ⟨finCs, hfinv, hrc⟩ := bind_ok_inv _ _ _ hrc
  have hcs := (Except.ok.injEq _ _).mp hrc
  subst hcs
  have hcond : reportNoIssuesCond findings = (decide (pt = 0) && !jTruthy m) := by
    simp only [reportNoIssuesCond, hpav, hptv, hmv]
  rw [finalChunks] at hfinv
  by_cases h0 : 0 < pt + (if jTruthy m then 1 else 0)
  · rw [if_pos h0] at hfinv
    have hBne : ¬ (decide (pt = 0) && !jTruthy m) = true :=
      fun hB => (cond_equiv pt m).mp hB h0
    have hBfalse : reportNoIssuesCond findings = false := by
      rw [hcond]
      cases hB : (decide (pt = 0) && !jTruthy m) with
      | false => rfl
      | true => exact absurd hB hBne
    obtain ⟨hasRR, hhrv, hfinv⟩ := bind_ok_inv _ _ _ hfinv
    cases hasRR with
    | false =>
      rw [if_neg (by simp)] at hfinv
      have hfin_eq := (Except.ok.injEq _ _).mp hfinv
      subst hfin_eq
      rw [hs]
      refine ⟨⟨fun hlast => ?_, fun hB => absurd (hBfalse ▸ hB :
          (false : Bool) = true) (by simp)⟩, fun _ => (C5_case_warnOnly _).2⟩
      rw [(C5_case_warnOnly _).1] at hlast
      exact absurd hlast (by decide)
    | true =>
      rw [if_pos rfl] at hfinv
      obtain ⟨rl, hrlv, hfinv⟩ := bind_ok_inv _ _ _ hfinv
      obtain ⟨sl, hslv, hfinv⟩ := bind_ok_inv _ _ _ hfinv
      obtain ⟨items, hitv, hfinv⟩ := bind_ok_inv _ _ _ hfinv
      have hfin_eq := (Except.ok.injEq _ _).mp hfinv
      subst hfin_eq
      have hmt : jTruthy m = true := by
        by_contra hmt
        rw [hasRemRecsE, if_neg hmt] at hhrv
        have h2 := (Except.ok.injEq _ _).mp hhrv
        simp at h2
      have hcont : pyContains m "remediation_recommendations" = .ok true := by
        rw [hasRemRecsE, if_pos hmt] at hhrv
        exact hhrv
      have hfr : finalRecsOf findings = some items := by
        simp only [finalRecsOf, hmv, hmt, if_true, hcont, hrlv, hslv, hitv]
      have hall : ∀ r ∈ items, noLB (pyStrV r) = true := by
        rw [singleLineRecsB, hfr] at hsingle
        exact fun r hr => List.all_eq_true.mp hsingle r hr
      rw [hs]
      refine ⟨⟨fun hlast => absurd hlast (C5_case_recs _ items hall).1,
        fun hB => absurd (hBfalse ▸ hB : (false : Bool) = true) (by simp)⟩,
        fun _ => (C5_case_recs _ items hall).2⟩
  · rw [if_neg h0] at hfinv
    have hfin_eq := (Except.ok.injEq _ _).mp hfinv
    subst hfin_eq
    have hBtrue : reportNoIssuesCond findings = true := by
      rw [hcond]
      exact (cond_equiv pt m).mpr h0
    rw [hs]
    exact ⟨⟨fun _ => hBtrue, fun _ => C5_case_noIssues _⟩,
      fun hB => absurd (hBtrue ▸ hB : (true : Bool) = false) (by simp)⟩

/-- Counterexample to C5 as stated: on `C5cex` an external-analysis result is
present (so the quoted verdict condition is false), yet the final line of the
rendered report is the no-issues verdict, carried there inside a
remediation-recommendation string that embeds a newline. -/
theorem C5_counterexample :
    reportNoIssuesCond C5cex = false ∧
    ∃ s, _generate_report_content ( "D".toList) C5cex = .ok s ∧
      lastLineOf s = noIssuesVerdict := by
  exact ⟨by decide, ⟨_, rfl, by decide⟩⟩

/-- Witness for C5 (amended) at the empty findings dictionary. -/
theorem C5_witness :
    ∃ s, _generate_report_content ( "D".toList) (.obj []) = .ok s ∧
      singleLineRecsB (.obj []) = true ∧
      ((lastLineOf s = noIssuesVerdict ↔ reportNoIssuesCond (.obj []) = true) ∧
       (reportNoIssuesCond (.obj []) = false → warnNotice ∈ splitlinesL s)) :=
  ⟨_, rfl, by decide, C5_final_verdict ( "D".toList) (.obj []) _ rfl (by decide)⟩

theorem mapM_map_ok {α β γ : Type} (h : α → β) (f : β → PyResult γ) (g : α → γ)
    (xs : List α) (hfg : ∀ x ∈ xs, f (h x) = .ok (g x)) :
    (xs.map h).mapM f = .ok (xs.map g) := by
  induction xs with
  | nil => rfl
  | cons x xs ih =>
    rw [List.map_cons, List.mapM_cons, hfg x (List.mem_cons_self x xs),
      ih (fun y hy => hfg y (List.mem_cons_of_mem x hy))]
    rfl

theorem catSec_eq (pa : JVal) (key : String) (hdr : Str) (style : Bool)
    (toJ : Finding → JVal) (fs : List Finding)
    (hget : pyGetMethod pa key (.arr []) = .ok (.arr (fs.map toJ)))
    (hf : ∀ f, (if style then findingChunksIssue (toJ f) else findingChunksMatch (toJ f))
        = .ok (findingChunksP style f)) :
    categorySectionChunks pa key hdr style = .ok (catChunksP hdr style fs) := by
  rw [categorySectionChunks, ok_bind _ _ _ hget]
  cases fs with
  | nil => rfl
  | cons f0 fs0 =>
    rw [List.map_cons]
    rw [if_pos (show jTruthy (JVal.arr (toJ f0 :: List.map toJ fs0)) = true from rfl)]
    rw [ok_bind _ _ _ (pyLen_arr (toJ f0 :: fs0.map toJ)),
      ok_bind _ _ _ (pyIter_arr (toJ f0 :: fs0.map toJ))]
    rw [show (toJ f0 :: fs0.map toJ) = (f0 :: fs0).map toJ from rfl]
    rw [ok_bind _ _ _ (mapM_map_ok toJ _ (findingChunksP style) (f0 :: fs0)
      (fun x _ => hf x))]
    show Except.ok _ = _
    rw [catChunksP]
    rw [show ((f0 :: fs0).map toJ).length = (f0 :: fs0).length from List.length_map _ _]

theorem patSec_eq (content : Str) :
    patternSectionChunks (paOf content) = .ok (patChunksP content) := by
  rw [patternSectionChunks]
  rw [if_pos (show jTruthy (paOf content) = true from rfl)]
  rw [ok_bind _ _ _ (catSec_eq (paOf content) "passwords" pwHeader false findingToJ
    (passwordFindings content) rfl (fun f => rfl))]
  rw [ok_bind _ _ _ (catSec_eq (paOf content) "api_keys" akHeader false findingToJ
    (apiKeyFindings content) rfl (fun f => rfl))]
  rw [ok_bind _ _ _ (catSec_eq (paOf content) "sensitive_data" sdHeader false findingToJ
    (sensitiveDataFindings content) rfl (fun f => rfl))]
  rw [ok_bind _ _ _ (catSec_eq (paOf content) "security_issues" siHeader true issueToJ
    (securityIssueFindings content) rfl (fun f => rfl))]
  rfl

theorem patternTotalE_eq (content : Str) :
    patternTotalE (paOf content) = .ok
      ((passwordFindings content).length + (apiKeyFindings content).length +
       (sensitiveDataFindings content).length + (securityIssueFindings content).length) := by
  have h0 : patternTotalE (paOf content) = .ok
      (((passwordFindings content).map findingToJ).length +
       ((apiKeyFindings content).map findingToJ).length +
       ((sensitiveDataFindings content).map findingToJ).length +
       ((securityIssueFindings content).map issueToJ).length) := rfl
  rw [h0, List.length_map, List.length_map, List.length_map, List.length_map]

theorem summaryChunks_eq (content : Str) (pt : Nat) :
    summaryChunks pt (paOf content) (.obj []) = .ok
      (sumChunksP pt (passwordFindings content).length (apiKeyFindings content).length
        (sensitiveDataFindings content).length (securityIssueFindings content).length) := by
  have h0 : summaryChunks pt (paOf content) (.obj []) = .ok
      ([ "## 📊 Summary\n".toList,
         "- **Pattern-Based Findings:** ".toList ++ natToDigits pt ++ "\n".toList] ++
       ([ pwSummaryPre ++ natToDigits ((passwordFindings content).map findingToJ).length ++ "\n".toList,
          akSummaryPre ++ natToDigits ((apiKeyFindings content).map findingToJ).length ++ "\n".toList,
          sdSummaryPre ++ natToDigits ((sensitiveDataFindings content).map findingToJ).length ++ "\n".toList,
          siSummaryPre ++ natToDigits ((securityIssueFindings content).map issueToJ).length ++ "\n".toList] ++
        [ "- **Mistral AI Analysis:** ❌ Not performed\n".toList])) := rfl
  rw [h0, List.length_map, List.length_map, List.length_map, List.length_map]
  rfl

theorem finalChunks_eq (pt : Nat) :
    finalChunks pt (.obj []) = .ok (finChunksP pt) := by
  have hz : (if jTruthy (JVal.obj []) = true then 1 else 0) = 0 := rfl
  rw [finalChunks, finChunksP]
  by_cases h : 0 < pt
  · rw [if_pos (by rw [hz]; simpa using h), if_pos h]
    rfl
  · rw [if_neg (by rw [hz]; simpa using h), if_neg h]
    rfl

theorem reportChunks_eq (content date : Str) :
    reportChunks date (enhancedOf content (.obj [])) = .ok (reportChunksP content date) := by
  rw [reportChunks]
  rw [ok_bind _ _ _ (show pyGetMethod (enhancedOf content (.obj [])) "metadata" (.obj [])
    = .ok (.obj [( "content_length".toList, .num content.length),
                 ( "line_count".toList, .num (lineCountOf content))]) from rfl)]
  rw [ok_bind _ _ _ (show pyGetMethod
      (JVal.obj [( "content_length".toList, .num content.length),
                 ( "line_count".toList, .num (lineCountOf content))])
      "content_length" (.num 0) = .ok (.num content.length) from rfl)]
  rw [ok_bind _ _ _ (show pyGetMethod
      (JVal.obj [( "content_length".toList, .num content.length),
                 ( "line_count".toList, .num (lineCountOf content))])
      "line_count" (.num 0) = .ok (.num (lineCountOf content)) from rfl)]
  rw [ok_bind _ _ _ (show pyGetMethod (enhancedOf content (.obj [])) "pattern_analysis"
    (.obj []) = .ok (paOf content) from rfl)]
  rw [ok_bind _ _ _ (patSec_eq content)]
  rw [ok_bind _ _ _ (show pyGetMethod (enhancedOf content (.obj [])) "mistral_analysis"
    (.obj []) = .ok (.obj []) from rfl)]
  rw [ok_bind _ _ _ (show mistralSectionWrap (.obj []) = .ok [] from rfl)]
  rw [ok_bind _ _ _ (patternTotalE_eq content)]
  rw [ok_bind _ _ _ (summaryChunks_eq content _)]
  rw [ok_bind _ _ _ (finalChunks_eq _)]
  rfl

theorem noLB_append (a b : Str) : noLB (a ++ b) = (noLB a && noLB b) := by
  simp [noLB, List.all_append]

theorem noLB_of_all_digits (s : Str) (h : s.all isDigitC = true) : noLB s = true := by
  simp only [noLB, List.all_eq_true] at *
  intro c hc
  simpa using digit_not_boundary c (h c hc)

theorem noLB_intToStr (i : Int) : noLB (intToStr i) = true := by
  rw [intToStr]
  by_cases h : i < 0
  · rw [if_pos h]
    have := noLB_natToDigits i.natAbs
    simp only [noLB, List.all_cons, Bool.and_eq_true] at *
    exact ⟨by decide, this⟩
  · rw [if_neg h]
    exact noLB_natToDigits i.natAbs

theorem finditerGo_chars (m : Matcher) :
    ∀ (fuel : Nat) (t mt : Str), mt ∈ finditerGo m fuel t → ∀ c ∈ mt, c ∈ t := by
  intro fuel
  induction fuel with
  | zero => intro t mt hmt; simp [finditerGo] at hmt
  | succ fuel ih =>
    intro t mt hmt c hc
    cases t with
    | nil => simp [finditerGo] at hmt
    | cons a as =>
      rw [finditerGo] at hmt
      cases hm : m (a :: as) with
      | some k =>
        rw [hm] at hmt
        rcases List.mem_cons.mp hmt with h1 | h2
        · subst h1
          exact List.mem_of_mem_take hc
        · exact List.mem_of_mem_drop (ih _ _ h2 c hc)
      | none =>
        rw [hm] at hmt
        exact List.mem_cons_of_mem a (ih _ _ hmt c hc)

theorem pyLines_noLB (content : Str) : ∀ l ∈ pyLines content, noLB l = true := by
  rw [pyLines]
  by_cases h : content = []
  · rw [if_pos h]
    intro l hl
    simp at hl
  · rw [if_neg h]
    exact splitlines_noLB content

theorem enumFrom_mem_snd {α : Type} : ∀ (k : Nat) (ls : List α) (p : Nat × α),
    p ∈ enumFrom k ls → p.2 ∈ ls := by
  intro k ls
  induction ls generalizing k with
  | nil => intro p hp; simp [enumFrom] at hp
  | cons a as ih =>
    intro p hp
    rw [enumFrom] at hp
    rcases List.mem_cons.mp hp with h1 | h2
    · subst h1
      exact List.mem_cons_self a as
    · exact List.mem_cons_of_mem a (ih (k + 1) p h2)

theorem matchFindings_noLB (pats : List Matcher) (i : Nat) (l : Str)
    (hl : noLB l = true) :
    ∀ f ∈ matchFindingsLine pats i l, noLB f.found = true ∧ noLB f.context = true := by
  intro f hf
  simp only [matchFindingsLine, List.mem_map, List.mem_flatMap] at hf
  obtain ⟨mt, ⟨mm, hmm, hmt⟩, hfeq⟩ := hf
  subst hfeq
  refine ⟨?_, noLB_of_subset _ _ (pyStrip_subset l) hl⟩
  exact noLB_of_subset _ _ (fun c hc => finditerGo_chars mm _ _ _ hmt c hc) hl

theorem issueFindings_noLB (i : Nat) (l : Str) (hl : noLB l = true) :
    ∀ f ∈ securityIssueFindingsLine i l, noLB f.found = true ∧ noLB f.context = true := by
  intro f hf
  simp only [securityIssueFindingsLine, List.mem_filterMap] at hf
  obtain ⟨pd, hpd, hf2⟩ := hf
  by_cases hs : searchLitCI pd.1 l = true
  · rw [if_pos hs] at hf2
    have hf3 := (Option.some.injEq _ _).mp hf2
    subst hf3
    refine ⟨?_, noLB_of_subset _ _ (pyStrip_subset l) hl⟩
    have : ∀ pd ∈ security_issue_patterns, noLB pd.2 = true := by decide
    exact this pd hpd
  · rw [if_neg hs] at hf2
    simp at hf2

theorem passwordFindings_noLB (content : Str) :
    ∀ f ∈ passwordFindings content, noLB f.found = true ∧ noLB f.context = true := by
  intro f hf
  simp only [passwordFindings, List.mem_flatMap] at hf
  obtain ⟨p, hp, hf2⟩ := hf
  exact matchFindings_noLB _ _ _ (pyLines_noLB content _ (enumFrom_mem_snd 1 _ p hp)) f hf2

theorem apiKeyFindings_noLB (content : Str) :
    ∀ f ∈ apiKeyFindings content, noLB f.found = true ∧ noLB f.context = true := by
  intro f hf
  simp only [apiKeyFindings, List.mem_flatMap] at hf
  obtain ⟨p, hp, hf2⟩ := hf
  exact matchFindings_noLB _ _ _ (pyLines_noLB content _ (enumFrom_mem_snd 1 _ p hp)) f hf2

theorem sensitiveDataFindings_noLB (content : Str) :
    ∀ f ∈ sensitiveDataFindings content, noLB f.found = true ∧ noLB f.context = true := by
  intro f hf
  simp only [sensitiveDataFindings, List.mem_flatMap] at hf
  obtain ⟨p, hp, hf2⟩ := hf
  exact matchFindings_noLB _ _ _ (pyLines_noLB content _ (enumFrom_mem_snd 1 _ p hp)) f hf2

theorem securityIssueFindings_noLB (content : Str) :
    ∀ f ∈ securityIssueFindings content, noLB f.found = true ∧ noLB f.context = true := by
  intro f hf
  simp only [securityIssueFindings, List.mem_flatMap] at hf
  obtain ⟨p, hp, hf2⟩ := hf
  exact issueFindings_noLB _ _ (pyLines_noLB content _ (enumFrom_mem_snd 1 _ p hp)) f hf2

theorem SL_chunk_cons (b rest : Str) (hb : noLB b = true) :
    splitlinesL ((b ++ ['\n']) ++ rest) = b :: splitlinesL rest := by
  rw [List.append_assoc]
  rw [show (['\n'] ++ rest : Str) = '\n' :: rest from rfl]
  rw [splitlines_append_nl, splitlines_single _ hb]
  rfl

theorem SL_linePieces (bodies : List Str) (hall : ∀ b ∈ bodies, noLB b = true) :
    splitlinesL ((bodies.map (fun b => b ++ ['\n'])).flatten) = bodies := by
  induction bodies with
  | nil => rfl
  | cons b bs ih =>
    rw [List.map_cons, List.flatten_cons,
      SL_chunk_cons b _ (hall b (List.mem_cons_self b bs)),
      ih (fun x hx => hall x (List.mem_cons_of_mem b hx))]

theorem flatten_flatten {α : Type} (l : List (List (List α))) :
    l.flatten.flatten = (l.map (fun x => x.flatten)).flatten := by
  induction l with
  | nil => rfl
  | cons x l ih =>
    rw [List.flatten_cons, List.map_cons, List.flatten_cons, List.flatten_append, ih]

theorem nlMap_append (A B : List Str) :
    ((A ++ B).map (fun b => b ++ ['\n'])).flatten
      = (A.map (fun b => b ++ ['\n'])).flatten ++ (B.map (fun b => b ++ ['\n'])).flatten := by
  rw [List.map_append, List.flatten_append]

theorem finding_flat_eq (style : Bool) (f : Finding) :
    (findingChunksP style f).flatten
      = ((findingLinesP style f).map (fun b => b ++ ['\n'])).flatten := by
  cases style <;> simp [findingChunksP, findingLinesP, List.append_assoc]

theorem findings_flat_eq (style : Bool) (fs : List Finding) :
    ((fs.map (findingChunksP style)).flatten).flatten
      = (((fs.map (findingLinesP style)).flatten).map (fun b => b ++ ['\n'])).flatten := by
  induction fs with
  | nil => rfl
  | cons f fs ih =>
    rw [List.map_cons, List.flatten_cons, List.flatten_append,
      List.map_cons, List.flatten_cons, List.map_append, List.flatten_append,
      finding_flat_eq, ih]

theorem cat_flat_eq (hdr : Str) (style : Bool) (fs : List Finding) :
    (catChunksP hdr style fs).flatten
      = ((catLinesP hdr style fs).map (fun b => b ++ ['\n'])).flatten := by
  cases fs with
  | nil => rfl
  | cons f0 fs0 =>
    have hhd : (hdr ++ " (".toList ++ natToDigits (f0 :: fs0).length ++ ")\n".toList : Str)
        = (hdr ++ " (".toList ++ natToDigits (f0 :: fs0).length ++ ")".toList) ++ ['\n'] := by
      simp [List.append_assoc]
    have lhs_eq : (catChunksP hdr style (f0 :: fs0)).flatten
        = (hdr ++ " (".toList ++ natToDigits (f0 :: fs0).length ++ ")\n".toList) ++
          (((f0 :: fs0).map (findingChunksP style)).flatten).flatten := rfl
    have rhs_eq : ((catLinesP hdr style (f0 :: fs0)).map (fun b => b ++ ['\n'])).flatten
        = ((hdr ++ " (".toList ++ natToDigits (f0 :: fs0).length ++ ")".toList) ++ ['\n']) ++
          ((((f0 :: fs0).map (findingLinesP style)).flatten).map (fun b => b ++ ['\n'])).flatten :=
      rfl
    rw [lhs_eq, rhs_eq, hhd]
    rw [findings_flat_eq style (f0 :: fs0)]

theorem head_flat_eq (date : Str) (n1 n2 : Int) :
    (headChunksP date n1 n2).flatten
      = ((headLinesP date n1 n2).map (fun b => b ++ ['\n'])).flatten := by
  simp [headChunksP, headLinesP, List.append_assoc]

theorem pat_flat_eq (content : Str) :
    (patChunksP content).flatten
      = ((patLinesP content).map (fun b => b ++ ['\n'])).flatten := by
  have h1 : ( "## 🔍 Pattern-Based Security Analysis\n".toList : Str)
      = "## 🔍 Pattern-Based Security Analysis".toList ++ ['\n'] := by decide
  have hsep : ([ "\n---\n".toList] : List Str).flatten
      = (([] :: [ "---".toList]).map (fun b => b ++ ['\n'])).flatten := by decide
  have lhs_eq : (patChunksP content).flatten
      = "## 🔍 Pattern-Based Security Analysis\n".toList ++
        (((catChunksP pwHeader false (passwordFindings content) ++
           catChunksP akHeader false (apiKeyFindings content) ++
           catChunksP sdHeader false (sensitiveDataFindings content) ++
           catChunksP siHeader true (securityIssueFindings content)) ++
          [ "\n---\n".toList]).flatten) := rfl
  have rhs_eq : ((patLinesP content).map (fun b => b ++ ['\n'])).flatten
      = ( "## 🔍 Pattern-Based Security Analysis".toList ++ ['\n']) ++
        ((((catLinesP pwHeader false (passwordFindings content) ++
            catLinesP akHeader false (apiKeyFindings content) ++
            catLinesP sdHeader false (sensitiveDataFindings content) ++
            catLinesP siHeader true (securityIssueFindings content)) ++
           ([] :: [ "---".toList])).map (fun b => b ++ ['\n'])).flatten) := rfl
  rw [lhs_eq, rhs_eq, h1]
  simp only [List.map_append, List.flatten_append]
  rw [cat_flat_eq, cat_flat_eq, cat_flat_eq, cat_flat_eq, hsep]

theorem sum_flat_eq (pt lpw lak lsd lsi : Nat) :
    (sumChunksP pt lpw lak lsd lsi).flatten
      = ((sumLinesP pt lpw lak lsd lsi).map (fun b => b ++ ['\n'])).flatten := by
  simp [sumChunksP, sumLinesP, List.append_assoc, pwSummaryPre, akSummaryPre,
    sdSummaryPre, siSummaryPre]

theorem fin_flat_eq (pt : Nat) :
    (finChunksP pt).flatten
      = ((finLinesP pt).map (fun b => b ++ ['\n'])).flatten := by
  rw [finChunksP, finLinesP]
  by_cases h : 0 < pt
  · rw [if_pos h, if_pos h]
    decide
  · rw [if_neg h, if_neg h]
    decide

theorem report_flat_eq (content date : Str) :
    (reportChunksP content date).flatten
      = ((reportLinesP content date).map (fun b => b ++ ['\n'])).flatten := by
  rw [reportChunksP, reportLinesP]
  rw [List.flatten_append, List.flatten_append, List.flatten_append, List.flatten_append,
    nlMap_append, nlMap_append, nlMap_append]
  rw [head_flat_eq, pat_flat_eq, sum_flat_eq, fin_flat_eq]
  simp

theorem findingLines_noLB (style : Bool) (f : Finding)
    (h1 : noLB f.found = true) (h2 : noLB f.context = true) :
    ∀ b ∈ findingLinesP style f, noLB b = true := by
  intro b hb
  cases style
  · simp only [findingLinesP, Bool.false_eq_true, if_false, List.mem_cons,
      List.not_mem_nil, or_false] at hb
    rcases hb with hb | hb | hb
    · subst hb
      simp only [noLB_append, Bool.and_eq_true]
      exact ⟨⟨⟨⟨by decide, noLB_intToStr _⟩, by decide⟩, h1⟩, by decide⟩
    · subst hb
      simp only [noLB_append, Bool.and_eq_true]
      exact ⟨⟨by decide, h2⟩, by decide⟩
    · subst hb
      decide
  · simp only [findingLinesP, if_true, List.mem_cons, List.not_mem_nil, or_false] at hb
    rcases hb with hb | hb | hb
    · subst hb
      simp only [noLB_append, Bool.and_eq_true]
      exact ⟨⟨⟨by decide, noLB_intToStr _⟩, by decide⟩, h1⟩
    · subst hb
      simp only [noLB_append, Bool.and_eq_true]
      exact ⟨⟨by decide, h2⟩, by decide⟩
    · subst hb
      decide

theorem catLines_noLB (hdr : Str) (style : Bool) (fs : List Finding)
    (hhdr : noLB hdr = true)
    (hfs : ∀ f ∈ fs, noLB f.found = true ∧ noLB f.context = true) :
    ∀ b ∈ catLinesP hdr style fs, noLB b = true := by
  cases fs with
  | nil =>
    intro b hb
    simp [catLinesP] at hb
  | cons f0 fs0 =>
    intro b hb
    rw [catLinesP] at hb
    rcases List.mem_cons.mp hb with h1 | h2
    · subst h1
      simp only [noLB_append, Bool.and_eq_true]
      exact ⟨⟨⟨hhdr, by decide⟩, noLB_natToDigits _⟩, by decide⟩
    · simp only [List.mem_flatten, List.mem_map] at h2
      obtain ⟨ls, ⟨f, hf, hls⟩, hbls⟩ := h2
      subst hls
      have hff := hfs f hf
      exact findingLines_noLB style f hff.1 hff.2 b hbls

theorem headLines_noLB (date : Str) (hdate : noLB date = true) (n1 n2 : Int) :
    ∀ b ∈ headLinesP date n1 n2, noLB b = true := by
  intro b hb
  simp only [headLinesP, List.mem_cons, List.not_mem_nil, or_false] at hb
  rcases hb with hb|hb|hb|hb|hb|hb|hb|hb|hb <;> subst hb
  · decide
  · simp only [noLB_append, Bool.and_eq_true]
    exact ⟨by decide, hdate⟩
  · decide
  · decide
  · decide
  · simp only [noLB_append, Bool.and_eq_true]
    exact ⟨⟨by decide, noLB_intToStr _⟩, by decide⟩
  · simp only [noLB_append, Bool.and_eq_true]
    exact ⟨⟨by decide, noLB_intToStr _⟩, by decide⟩
  · decide
  · decide

theorem patLines_noLB (content : Str) : ∀ b ∈ patLinesP content, noLB b = true := by
  intro b hb
  rw [patLinesP] at hb
  rcases List.mem_cons.mp hb with h1 | h2
  · subst h1
    decide
  · rcases List.mem_append.mp h2 with h3 | h4
    · rcases List.mem_append.mp h3 with h5 | h6
      · rcases List.mem_append.mp h5 with h7 | h8
        · rcases List.mem_append.mp h7 with h9 | h10
          · exact catLines_noLB _ _ _ (by decide) (passwordFindings_noLB content) b h9
          · exact catLines_noLB _ _ _ (by decide) (apiKeyFindings_noLB content) b h10
        · exact catLines_noLB _ _ _ (by decide) (sensitiveDataFindings_noLB content) b h8
      · exact catLines_noLB _ _ _ (by decide) (securityIssueFindings_noLB content) b h6
    · rcases List.mem_cons.mp h4 with h5 | h6
      · subst h5
        decide
      · rcases List.mem_cons.mp h6 with h7 | h8
        · subst h7
          decide
        · simp at h8

theorem sumLines_noLB (pt lpw lak lsd lsi : Nat) :
    ∀ b ∈ sumLinesP pt lpw lak lsd lsi, noLB b = true := by
  intro b hb
  simp only [sumLinesP, List.mem_cons, List.not_mem_nil, or_false] at hb
  rcases hb with hb|hb|hb|hb|hb|hb|hb <;> subst hb
  · decide
  · simp only [noLB_append, Bool.and_eq_true]
    exact ⟨by decide, noLB_natToDigits _⟩
  · simp only [noLB_append, Bool.and_eq_true]
    exact ⟨by decide, noLB_natToDigits _⟩
  · simp only [noLB_append, Bool.and_eq_true]
    exact ⟨by decide, noLB_natToDigits _⟩
  · simp only [noLB_append, Bool.and_eq_true]
    exact ⟨by decide, noLB_natToDigits _⟩
  · simp only [noLB_append, Bool.and_eq_true]
    exact ⟨by decide, noLB_natToDigits _⟩
  · decide

theorem finLines_noLB (pt : Nat) : ∀ b ∈ finLinesP pt, noLB b = true := by
  intro b hb
  rw [finLinesP] at hb
  by_cases h : 0 < pt
  · rw [if_pos h] at hb
    rcases List.mem_cons.mp hb with h1 | h2
    · subst h1
      decide
    · rcases List.mem_cons.mp h2 with h3 | h4
      · subst h3
        decide
      · simp at h4
  · rw [if_neg h] at hb
    rcases List.mem_cons.mp hb with h1 | h2
    · subst h1
      decide
    · rcases List.mem_cons.mp h2 with h3 | h4
      · subst h3
        decide
      · simp at h4

theorem reportLines_noLB (content date : Str) (hdate : noLB date = true) :
    ∀ b ∈ reportLinesP content date, noLB b = true := by
  intro b hb
  rw [reportLinesP] at hb
  rcases List.mem_append.mp hb with h1 | h2
  · rcases List.mem_append.mp h1 with h3 | h4
    · rcases List.mem_append.mp h3 with h5 | h6
      · exact headLines_noLB date hdate _ _ b h5
      · exact patLines_noLB content b h6
    · exact sumLines_noLB _ _ _ _ _ b h4
  · exact finLines_noLB _ b h2

theorem SL_report (content date : Str) (hdate : noLB date = true) :
    splitlinesL (reportChunksP content date).flatten = reportLinesP content date := by
  rw [report_flat_eq]
  exact SL_linePieces _ (reportLines_noLB content date hdate)

theorem isPrefixOf_self_append (p d : Str) : p.isPrefixOf (p ++ d) = true := by
  induction p with
  | nil => simp [List.isPrefixOf]
  | cons c p ih => simp [List.isPrefixOf, ih]

theorem parseLeadingNat_digits0 (n : Nat) : parseLeadingNat (natToDigits n) = some n := by
  rw [← List.append_nil (natToDigits n)]
  exact parseLeadingNat_digits n [] rfl

theorem contrib_self (p d : Str) : countContrib p (p ++ d) = parseLeadingNat d := by
  rw [countContrib, if_pos (isPrefixOf_self_append p d), List.drop_left]

theorem isPrefixOf_append_disj (p f d : Str) (h : p.isPrefixOf (f ++ d) = true) :
    p.isPrefixOf f = true ∨ f.isPrefixOf p = true := by
  induction f generalizing p with
  | nil => right; simp [List.isPrefixOf]
  | cons c fs ih =>
    cases p with
    | nil => left; simp [List.isPrefixOf]
    | cons a ps =>
      simp only [List.cons_append, List.isPrefixOf, Bool.and_eq_true, beq_iff_eq] at h ⊢
      rcases ih ps h.2 with h1 | h2
      · exact Or.inl ⟨h.1, h1⟩
      · exact Or.inr ⟨h.1.symm, h2⟩

theorem contrib_none_of_sep (p f d : Str) (h : sepB p f = true) :
    countContrib p (f ++ d) = none := by
  simp only [sepB, Bool.and_eq_true, Bool.not_eq_true'] at h
  rw [countContrib, if_neg ?hn]
  case hn =>
    intro hp
    rcases isPrefixOf_append_disj p f d hp with h1 | h2
    · rw [h.1] at h1
      simp at h1
    · rw [h.2] at h2
      simp at h2

theorem contrib_none_shape (p f d L : Str) (hL : L = f ++ d) (h : sepB p f = true) :
    countContrib p L = none := hL ▸ contrib_none_of_sep p f d h

theorem findingLines_contrib_none (p : Str) (style : Bool) (f : Finding)
    (hsep1 : sepB p ( "**Line ".toList) = true)
    (hsep2 : sepB p ( "**Context:** `".toList) = true)
    (hnil : countContrib p [] = none) :
    (findingLinesP style f).filterMap (countContrib p) = [] := by
  cases style
  · rw [show findingLinesP false f =
        [ "**Line ".toList ++ intToStr f.line ++ ":** `".toList ++ f.found ++ "`".toList,
          "**Context:** `".toList ++ f.context ++ "`".toList, []] from rfl]
    rw [List.filterMap_cons_none (contrib_none_shape p _
      (intToStr f.line ++ (":** `".toList ++ (f.found ++ "`".toList))) _
      (by simp [List.append_assoc]) hsep1)]
    rw [List.filterMap_cons_none (contrib_none_shape p _
      (f.context ++ "`".toList) _ (by simp [List.append_assoc]) hsep2)]
    rw [List.filterMap_cons_none hnil]
    rfl
  · rw [show findingLinesP true f =
        [ "**Line ".toList ++ intToStr f.line ++ ":** ".toList ++ f.found,
          "**Context:** `".toList ++ f.context ++ "`".toList, []] from rfl]
    rw [List.filterMap_cons_none (contrib_none_shape p _
      (intToStr f.line ++ (":** ".toList ++ f.found)) _
      (by simp [List.append_assoc]) hsep1)]
    rw [List.filterMap_cons_none (contrib_none_shape p _
      (f.context ++ "`".toList) _ (by simp [List.append_assoc]) hsep2)]
    rw [List.filterMap_cons_none hnil]
    rfl

theorem findingsFlat_contrib_none (p : Str) (style : Bool) (fs : List Finding)
    (hsep1 : sepB p ( "**Line ".toList) = true)
    (hsep2 : sepB p ( "**Context:** `".toList) = true)
    (hnil : countContrib p [] = none) :
    ((fs.map (findingLinesP style)).flatten).filterMap (countContrib p) = [] := by
  induction fs with
  | nil => rfl
  | cons f fs ih =>
    rw [List.map_cons, List.flatten_cons, List.filterMap_append,
      findingLines_contrib_none p style f hsep1 hsep2 hnil, ih]
    rfl

theorem catLines_contrib_self (hdr : Str) (style : Bool) (fs : List Finding)
    (hsep1 : sepB (hdr ++ " (".toList) ( "**Line ".toList) = true)
    (hsep2 : sepB (hdr ++ " (".toList) ( "**Context:** `".toList) = true)
    (hnil : countContrib (hdr ++ " (".toList) [] = none) :
    (catLinesP hdr style fs).filterMap (countContrib (hdr ++ " (".toList))
      = if fs = [] then [] else [fs.length] := by
  cases fs with
  | nil => rfl
  | cons f0 fs0 =>
    rw [catLinesP, if_neg (by simp)]
    have hhd : (hdr ++ " (".toList ++ natToDigits (f0 :: fs0).length ++ ")".toList : Str)
        = (hdr ++ " (".toList) ++ (natToDigits (f0 :: fs0).length ++ ")".toList) := by
      simp [List.append_assoc]
    rw [List.filterMap_cons]
    rw [hhd, contrib_self,
      parseLeadingNat_digits (f0 :: fs0).length ( ")".toList) (by decide)]
    rw [findingsFlat_contrib_none _ style (f0 :: fs0) hsep1 hsep2 hnil]

theorem catLines_contrib_other (p : Str) (hdr : Str) (style : Bool) (fs : List Finding)
    (hsepH : sepB p (hdr ++ " (".toList) = true)
    (hsep1 : sepB p ( "**Line ".toList) = true)
    (hsep2 : sepB p ( "**Context:** `".toList) = true)
    (hnil : countContrib p [] = none) :
    (catLinesP hdr style fs).filterMap (countContrib p) = [] := by
  cases fs with
  | nil => rfl
  | cons f0 fs0 =>
    rw [catLinesP]
    rw [List.filterMap_cons_none (contrib_none_shape p _
      (natToDigits (f0 :: fs0).length ++ ")".toList) _ (by simp [List.append_assoc]) hsepH)]
    exact findingsFlat_contrib_none p style (f0 :: fs0) hsep1 hsep2 hnil

theorem headLines_contrib (p date : Str) (n1 n2 : Int)
    (h1 : countContrib p ( "# Security Analysis Report".toList) = none)
    (h2 : sepB p ( "**Generated:** ".toList) = true)
    (h3 : countContrib p [] = none)
    (h4 : countContrib p ( "---".toList) = none)
    (h5 : countContrib p ( "## Analysis Metadata".toList) = none)
    (h6 : sepB p ( "- **Content Length:** ".toList) = true)
    (h7 : sepB p ( "- **Line Count:** ".toList) = true) :
    (headLinesP date n1 n2).filterMap (countContrib p) = [] := by
  rw [headLinesP]
  rw [List.filterMap_cons_none h1,
    List.filterMap_cons_none (contrib_none_of_sep p _ date h2),
    List.filterMap_cons_none h3,
    List.filterMap_cons_none h4,
    List.filterMap_cons_none h5,
    List.filterMap_cons_none (contrib_none_shape p _
      (intToStr n1 ++ " characters".toList) _ (by simp [List.append_assoc]) h6),
    List.filterMap_cons_none (contrib_none_shape p _
      (intToStr n2 ++ " lines".toList) _ (by simp [List.append_assoc]) h7),
    List.filterMap_cons_none h3,
    List.filterMap_cons_none h4]
  rfl

theorem patLines_contrib (p : Str) (content : Str) (r1 r2 r3 r4 : List Nat)
    (hlit : countContrib p ( "## 🔍 Pattern-Based Security Analysis".toList) = none)
    (hnil : countContrib p [] = none)
    (hdash : countContrib p ( "---".toList) = none)
    (hr1 : (catLinesP pwHeader false (passwordFindings content)).filterMap
      (countContrib p) = r1)
    (hr2 : (catLinesP akHeader false (apiKeyFindings content)).filterMap
      (countContrib p) = r2)
    (hr3 : (catLinesP sdHeader false (sensitiveDataFindings content)).filterMap
      (countContrib p) = r3)
    (hr4 : (catLinesP siHeader true (securityIssueFindings content)).filterMap
      (countContrib p) = r4) :
    (patLinesP content).filterMap (countContrib p) = r1 ++ r2 ++ r3 ++ r4 := by
  rw [patLinesP]
  rw [List.filterMap_append]
  rw [List.filterMap_cons_none hlit]
  rw [List.filterMap_append, List.filterMap_append, List.filterMap_append]
  rw [hr1, hr2, hr3, hr4]
  rw [List.filterMap_cons_none hnil, List.filterMap_cons_none hdash]
  simp

theorem sumLines_contrib_none (p : Str) (pt a b c d : Nat)
    (h1 : countContrib p ( "## 📊 Summary".toList) = none)
    (h2 : sepB p ( "- **Pattern-Based Findings:** ".toList) = true)
    (h3 : sepB p pwSummaryPre = true) (h4 : sepB p akSummaryPre = true)
    (h5 : sepB p sdSummaryPre = true) (h6 : sepB p siSummaryPre = true)
    (h7 : countContrib p ( "- **Mistral AI Analysis:** ❌ Not performed".toList) = none) :
    (sumLinesP pt a b c d).filterMap (countContrib p) = [] := by
  rw [sumLinesP]
  rw [List.filterMap_cons_none h1,
    List.filterMap_cons_none (contrib_none_of_sep p _ _ h2),
    List.filterMap_cons_none (contrib_none_of_sep p _ _ h3),
    List.filterMap_cons_none (contrib_none_of_sep p _ _ h4),
    List.filterMap_cons_none (contrib_none_of_sep p _ _ h5),
    List.filterMap_cons_none (contrib_none_of_sep p _ _ h6),
    List.filterMap_cons_none h7]
  rfl

theorem sumLines_contrib_pw (pt a b c d : Nat) :
    (sumLinesP pt a b c d).filterMap (countContrib pwSummaryPre) = [a] := by
  rw [sumLinesP]
  rw [List.filterMap_cons_none (by decide),
    List.filterMap_cons_none (contrib_none_of_sep _ _ _ (by decide)),
    List.filterMap_cons_some (show countContrib pwSummaryPre (pwSummaryPre ++ natToDigits a)
      = some a by rw [contrib_self, parseLeadingNat_digits0]),
    List.filterMap_cons_none (contrib_none_of_sep _ _ _ (by decide)),
    List.filterMap_cons_none (contrib_none_of_sep _ _ _ (by decide)),
    List.filterMap_cons_none (contrib_none_of_sep _ _ _ (by decide)),
    List.filterMap_cons_none (by decide)]
  rfl

theorem sumLines_contrib_ak (pt a b c d : Nat) :
    (sumLinesP pt a b c d).filterMap (countContrib akSummaryPre) = [b] := by
  rw [sumLinesP]
  rw [List.filterMap_cons_none (by decide),
    List.filterMap_cons_none (contrib_none_of_sep _ _ _ (by decide)),
    List.filterMap_cons_none (contrib_none_of_sep _ _ _ (by decide)),
    List.filterMap_cons_some (show countContrib akSummaryPre (akSummaryPre ++ natToDigits b)
      = some b by rw [contrib_self, parseLeadingNat_digits0]),
    List.filterMap_cons_none (contrib_none_of_sep _ _ _ (by decide)),
    List.filterMap_cons_none (contrib_none_of_sep _ _ _ (by decide)),
    List.filterMap_cons_none (by decide)]
  rfl

theorem sumLines_contrib_sd (pt a b c d : Nat) :
    (sumLinesP pt a b c d).filterMap (countContrib sdSummaryPre) = [c] := by
  rw [sumLinesP]
  rw [List.filterMap_cons_none (by decide),
    List.filterMap_cons_none (contrib_none_of_sep _ _ _ (by decide)),
    List.filterMap_cons_none (contrib_none_of_sep _ _ _ (by decide)),
    List.filterMap_cons_none (contrib_none_of_sep _ _ _ (by decide)),
    List.filterMap_cons_some (show countContrib sdSummaryPre (sdSummaryPre ++ natToDigits c)
      = some c by rw [contrib_self, parseLeadingNat_digits0]),
    List.filterMap_cons_none (contrib_none_of_sep _ _ _ (by decide)),
    List.filterMap_cons_none (by decide)]
  rfl

theorem sumLines_contrib_si (pt a b c d : Nat) :
    (sumLinesP pt a b c d).filterMap (countContrib siSummaryPre) = [d] := by
  rw [sumLinesP]
  rw [List.filterMap_cons_none (by decide),
    List.filterMap_cons_none (contrib_none_of_sep _ _ _ (by decide)),
    List.filterMap_cons_none (contrib_none_of_sep _ _ _ (by decide)),
    List.filterMap_cons_none (contrib_none_of_sep _ _ _ (by decide)),
    List.filterMap_cons_none (contrib_none_of_sep _ _ _ (by decide)),
    List.filterMap_cons_some (show countContrib siSummaryPre (siSummaryPre ++ natToDigits d)
      = some d by rw [contrib_self, parseLeadingNat_digits0]),
    List.filterMap_cons_none (by decide)]
  rfl

theorem finLines_contrib_none (p : Str) (pt : Nat)
    (hnil : countContrib p [] = none)
    (hw : countContrib p warnNotice = none)
    (hv : countContrib p noIssuesVerdict = none) :
    (finLinesP pt).filterMap (countContrib p) = [] := by
  rw [finLinesP]
  by_cases h : 0 < pt
  · rw [if_pos h, List.filterMap_cons_none hnil, List.filterMap_cons_none hw]
    rfl
  · rw [if_neg h, List.filterMap_cons_none hnil, List.filterMap_cons_none hv]
    rfl

/-- C6: for every input text (and a single-line report date), rendering the
scanner's findings and parsing the category counts back out of the Markdown —
both from the category section headers and from the summary breakdown — gives
exactly the lengths of the four finding lists. -/
theorem C6_roundtrip (content date : Str) (hdate : noLB date = true) :
    ∃ s, _generate_report_content date (enhancedOf content (.obj [])) = .ok s ∧
      (extractCounts pwHeaderPre s = if passwordFindings content = [] then []
        else [(passwordFindings content).length]) ∧
      (extractCounts akHeaderPre s = if apiKeyFindings content = [] then []
        else [(apiKeyFindings content).length]) ∧
      (extractCounts sdHeaderPre s = if sensitiveDataFindings content = [] then []
        else [(sensitiveDataFindings content).length]) ∧
      (extractCounts siHeaderPre s = if securityIssueFindings content = [] then []
        else [(securityIssueFindings content).length]) ∧
      extractCounts pwSummaryPre s = [(passwordFindings content).length] ∧
      extractCounts akSummaryPre s = [(apiKeyFindings content).length] ∧
      extractCounts sdSummaryPre s = [(sensitiveDataFindings content).length] ∧
      extractCounts siSummaryPre s = [(securityIssueFindings content).length] := by
  refine ⟨(reportChunksP content date).flatten, ?_, ?_, ?_, ?_, ?_, ?_, ?_, ?_, ?_⟩
  · rw [_generate_report_content, reportChunks_eq content date]
    rfl
  · rw [extractCounts, SL_report content date hdate, reportLinesP]
    simp only [pwHeaderPre]
    rw [List.filterMap_append, List.filterMap_append, List.filterMap_append]
    rw [headLines_contrib _ date _ _ (by decide) (by decide) (by decide) (by decide)
      (by decide) (by decide) (by decide)]
    rw [patLines_contrib _ content _ _ _ _ (by decide) (by decide) (by decide)
      (catLines_contrib_self pwHeader false _ (by decide) (by decide) (by decide))
      (catLines_contrib_other _ akHeader false _ (by decide) (by decide) (by decide)
        (by decide))
      (catLines_contrib_other _ sdHeader false _ (by decide) (by decide) (by decide)
        (by decide))
      (catLines_contrib_other _ siHeader true _ (by decide) (by decide) (by decide)
        (by decide))]
    rw [sumLines_contrib_none _ _ _ _ _ _ (by decide) (by decide) (by decide) (by decide)
      (by decide) (by decide) (by decide)]
    rw [finLines_contrib_none _ _ (by decide) (by decide) (by decide)]
    simp
  · rw [extractCounts, SL_report content date hdate, reportLinesP]
    simp only [akHeaderPre]
    rw [List.filterMap_append, List.filterMap_append, List.filterMap_append]
    rw [headLines_contrib _ date _ _ (by decide) (by decide) (by decide) (by decide)
      (by decide) (by decide) (by decide)]
    rw [patLines_contrib _ content _ _ _ _ (by decide) (by decide) (by decide)
      (catLines_contrib_other _ pwHeader false _ (by decide) (by decide) (by decide)
        (by decide))
      (catLines_contrib_self akHeader false _ (by decide) (by decide) (by decide))
      (catLines_contrib_other _ sdHeader false _ (by decide) (by decide) (by decide)
        (by decide))
      (catLines_contrib_other _ siHeader true _ (by decide) (by decide) (by decide)
        (by decide))]
    rw [sumLines_contrib_none _ _ _ _ _ _ (by decide) (by decide) (by decide) (by decide)
      (by decide) (by decide) (by decide)]
    rw [finLines_contrib_none _ _ (by decide) (by decide) (by decide)]
    simp
  · rw [extractCounts, SL_report content date hdate, reportLinesP]
    simp only [sdHeaderPre]
    rw [List.filterMap_append, List.filterMap_append, List.filterMap_append]
    rw [headLines_contrib _ date _ _ (by decide) (by decide) (by decide) (by decide)
      (by decide) (by decide) (by decide)]
    rw [patLines_contrib _ content _ _ _ _ (by decide) (by decide) (by decide)
      (catLines_contrib_other _ pwHeader false _ (by decide) (by decide) (by decide)
        (by decide))
      (catLines_contrib_other _ akHeader false _ (by decide) (by decide) (by decide)
        (by decide))
      (catLines_contrib_self sdHeader false _ (by decide) (by decide) (by decide))
      (catLines_contrib_other _ siHeader true _ (by decide) (by decide) (by decide)
        (by decide))]
    rw [sumLines_contrib_none _ _ _ _ _ _ (by decide) (by decide) (by decide) (by decide)
      (by decide) (by decide) (by decide)]
    rw [finLines_contrib_none _ _ (by decide) (by decide) (by decide)]
    simp
  · rw [extractCounts, SL_report content date hdate, reportLinesP]
    simp only [siHeaderPre]
    rw [List.filterMap_append, List.filterMap_append, List.filterMap_append]
    rw [headLines_contrib _ date _ _ (by decide) (by decide) (by decide) (by decide)
      (by decide) (by decide) (by decide)]
    rw [patLines_contrib _ content _ _ _ _ (by decide) (by decide) (by decide)
      (catLines_contrib_other _ pwHeader false _ (by decide) (by decide) (by decide)
        (by decide))
      (catLines_contrib_other _ akHeader false _ (by decide) (by decide) (by decide)
        (by decide))
      (catLines_contrib_other _ sdHeader false _ (by decide) (by decide) (by decide)
        (by decide))
      (catLines_contrib_self siHeader true _ (by decide) (by decide) (by decide))]
    rw [sumLines_contrib_none _ _ _ _ _ _ (by decide) (by decide) (by decide) (by decide)
      (by decide) (by decide) (by decide)]
    rw [finLines_contrib_none _ _ (by decide) (by decide) (by decide)]
    simp
  · rw [extractCounts, SL_report content date hdate, reportLinesP]
    rw [List.filterMap_append, List.filterMap_append, List.filterMap_append]
    rw [headLines_contrib _ date _ _ (by decide) (by decide) (by decide) (by decide)
      (by decide) (by decide) (by decide)]
    rw [patLines_contrib _ content _ _ _ _ (by decide) (by decide) (by decide)
      (catLines_contrib_other _ pwHeader false _ (by decide) (by decide) (by decide)
        (by decide))
      (catLines_contrib_other _ akHeader false _ (by decide) (by decide) (by decide)
        (by decide))
      (catLines_contrib_other _ sdHeader false _ (by decide) (by decide) (by decide)
        (by decide))
      (catLines_contrib_other _ siHeader true _ (by decide) (by decide) (by decide)
        (by decide))]
    rw [sumLines_contrib_pw]
    rw [finLines_contrib_none _ _ (by decide) (by decide) (by decide)]
    simp
  · rw [extractCounts, SL_report content date hdate, reportLinesP]
    rw [List.filterMap_append, List.filterMap_append, List.filterMap_append]
    rw [headLines_contrib _ date _ _ (by decide) (by decide) (by decide) (by decide)
      (by decide) (by decide) (by decide)]
    rw [patLines_contrib _ content _ _ _ _ (by decide) (by decide) (by decide)
      (catLines_contrib_other _ pwHeader false _ (by decide) (by decide) (by decide)
        (by decide))
      (catLines_contrib_other _ akHeader false _ (by decide) (by decide) (by decide)
        (by decide))
      (catLines_contrib_other _ sdHeader false _ (by decide) (by decide) (by decide)
        (by decide))
      (catLines_contrib_other _ siHeader true _ (by decide) (by decide) (by decide)
        (by decide))]
    rw [sumLines_contrib_ak]
    rw [finLines_contrib_none _ _ (by decide) (by decide) (by decide)]
    simp
  · rw [extractCounts, SL_report content date hdate, reportLinesP]
    rw [List.filterMap_append, List.filterMap_append, List.filterMap_append]
    rw [headLines_contrib _ date _ _ (by decide) (by decide) (by decide) (by decide)
      (by decide) (by decide) (by decide)]
    rw [patLines_contrib _ content _ _ _ _ (by decide) (by decide) (by decide)
      (catLines_contrib_other _ pwHeader false _ (by decide) (by decide) (by decide)
        (by decide))
      (catLines_contrib_other _ akHeader false _ (by decide) (by decide) (by decide)
        (by decide))
      (catLines_contrib_other _ sdHeader false _ (by decide) (by decide) (by decide)
        (by decide))
      (catLines_contrib_other _ siHeader true _ (by decide) (by decide) (by decide)
        (by decide))]
    rw [sumLines_contrib_sd]
    rw [finLines_contrib_none _ _ (by decide) (by decide) (by decide)]
    simp
  · rw [extractCounts, SL_report content date hdate, reportLinesP]
    rw [List.filterMap_append, List.filterMap_append, List.filterMap_append]
    rw [headLines_contrib _ date _ _ (by decide) (by decide) (by decide) (by decide)
      (by decide) (by decide) (by decide)]
    rw [patLines_contrib _ content _ _ _ _ (by decide) (by decide) (by decide)
      (catLines_contrib_other _ pwHeader false _ (by decide) (by decide) (by decide)
        (by decide))
      (catLines_contrib_other _ akHeader false _ (by decide) (by decide) (by decide)
        (by decide))
      (catLines_contrib_other _ sdHeader false _ (by decide) (by decide) (by decide)
        (by decide))
      (catLines_contrib_other _ siHeader true _ (by decide) (by decide) (by decide)
        (by decide))]
    rw [sumLines_contrib_si]
    rw [finLines_contrib_none _ _ (by decide) (by decide) (by decide)]
    simp

/-- Witness for C6 at a concrete input with one password and one security
issue. -/
theorem C6_witness :
    ∃ s, _generate_report_content ( "D".toList) (enhancedOf C6content (.obj [])) = .ok s ∧
      (extractCounts pwHeaderPre s = if passwordFindings C6content = [] then []
        else [(passwordFindings C6content).length]) ∧
      (extractCounts akHeaderPre s = if apiKeyFindings C6content = [] then []
        else [(apiKeyFindings C6content).length]) ∧
      (extractCounts sdHeaderPre s = if sensitiveDataFindings C6content = [] then []
        else [(sensitiveDataFindings C6content).length]) ∧
      (extractCounts siHeaderPre s = if securityIssueFindings C6content = [] then []
        else [(securityIssueFindings C6content).length]) ∧
      extractCounts pwSummaryPre s = [(passwordFindings C6content).length] ∧
      extractCounts akSummaryPre s = [(apiKeyFindings C6content).length] ∧
      extractCounts sdSummaryPre s = [(sensitiveDataFindings C6content).length] ∧
      extractCounts siSummaryPre s = [(securityIssueFindings C6content).length] :=
  C6_roundtrip C6content ( "D".toList) (by decide)
